import Mathlib

/-!
Shallow embedding of the OSFG (Open Source Frame Generation) pipeline,
covering the optical-flow compute shader, the configuration manager, the
hotkey name tables, the capture statistics, the frame-pacing logic, the
D3D11/D3D12 interop ring and the interpolation-factor setter.

Conventions of the embedding:
* machine integers (`uint32_t`, `int`) become `Nat`/`Int`; wrap-around is
  written explicitly (`% 2^32`) where the source can overflow;
* `float` values become exact rationals (`ℚ`); the comparisons and
  selections the source performs on them are exact, and the only float
  arithmetic that the verified claims exercise is exact in `ℚ` as well;
* textures become total functions from coordinates to rational RGB
  triples; texture identity (for the interop ring) becomes a `Nat` tag;
* fallible steps take explicit outcome flags and return `Bool × state`.
-/

namespace OSFG

/-! ## Optical flow (src/opticalflow/simple_opticalflow.cpp, `CSMain`)

The compute shader runs one 8x8 thread group per output block
(`TILE_SIZE = 8`, `MAX_SEARCH = 16`).  Thread 0 of each group performs a
three-step block-matching search over luminance SAD and writes
`bestMotion * 16` to the motion-vector texture.  The shared-memory tiles
cache exactly the clamped texture reads written below, so the embedding
reads the textures directly through the same clamping. -/

/-- `SimpleOpticalFlowConfig` fields the shader consumes (`g_InputSize`,
`g_SearchRadius`).  The shader ignores `g_BlockSize` and always uses the
compiled-in `TILE_SIZE = 8`. -/
structure OpticalFlowConfig where
  width : Nat
  height : Nat
  searchRadius : Nat

/-- An RGB pixel as read by the shader (`float4.rgb` of a UNORM texture). -/
abbrev RGB := ℚ × ℚ × ℚ

/-- A texture: pixel lookup by (x, y). -/
abbrev FrameTex := Nat → Nat → RGB

/-- `RGBToLuminance`: `dot(color, float3(0.2126, 0.7152, 0.0722))`. -/
def rgbToLuminance (c : RGB) : ℚ :=
  (2126 * c.1 + 7152 * c.2.1 + 722 * c.2.2) / 10000

/-- `clamp(v, 0, size - 1)` on one texture coordinate. -/
def clampCoord (v : ℤ) (size : Nat) : Nat :=
  (max 0 (min v ((size : ℤ) - 1))).toNat

/-- A clamped luminance fetch, as performed by both shared-memory loads
(`pixelPos = clamp(pixelPos, int2(0,0), int2(g_InputSize) - 1)`). -/
def texLum (cfg : OpticalFlowConfig) (f : FrameTex) (x y : ℤ) : ℚ :=
  rgbToLuminance (f (clampCoord x cfg.width) (clampCoord y cfg.height))

/-- `ComputeSADShared(offset, searchRadius)`: sum over the 8x8 block of
`abs(currLum - prevLum)`, where the shared tiles hold the clamped reads
of the current block and of the previous frame around it. -/
def sadAt (cfg : OpticalFlowConfig) (cur prev : FrameTex)
    (bp : ℤ × ℤ) (off : ℤ × ℤ) : ℚ :=
  ((List.range 8).map (fun y =>
    ((List.range 8).map (fun x =>
      |texLum cfg cur (bp.1 + (x : ℤ)) (bp.2 + (y : ℤ)) -
        texLum cfg prev (bp.1 + off.1 + (x : ℤ)) (bp.2 + off.2 + (y : ℤ))|)).sum)).sum

/-- The radius guard: the candidate is kept unless
`offset.x < -searchRadius || offset.x > searchRadius || ...`. -/
def offsetInRadius (R : Nat) (off : ℤ × ℤ) : Bool :=
  decide (-(R : ℤ) ≤ off.1 ∧ off.1 ≤ (R : ℤ) ∧ -(R : ℤ) ≤ off.2 ∧ off.2 ≤ (R : ℤ))

/-- The image guard: `searchPos = blockPos + offset` must satisfy
`searchPos ≥ 0` and `searchPos + TILE_SIZE ≤ g_InputSize`. -/
def searchPosOk (cfg : OpticalFlowConfig) (bp off : ℤ × ℤ) : Bool :=
  decide (0 ≤ bp.1 + off.1 ∧ 0 ≤ bp.2 + off.2 ∧
    bp.1 + off.1 + 8 ≤ (cfg.width : ℤ) ∧ bp.2 + off.2 + 8 ≤ (cfg.height : ℤ))

/-- `bestSAD = 1e10` (exact as a float and as a rational). -/
def initialBestSAD : ℚ := 10 ^ 10

/-- One candidate evaluation of the search loops: skip if a guard fails,
otherwise keep the candidate exactly when `sad < bestSAD` (strict, so
ties keep the earlier-visited offset). -/
def considerOffset (cfg : OpticalFlowConfig) (cur prev : FrameTex) (bp : ℤ × ℤ)
    (R : Nat) (best : ℚ × (ℤ × ℤ)) (off : ℤ × ℤ) : ℚ × (ℤ × ℤ) :=
  if offsetInRadius R off && searchPosOk cfg bp off then
    if sadAt cfg cur prev bp off < best.1 then (sadAt cfg cur prev bp off, off) else best
  else best

/-- The nine `(dx, dy)` deltas in loop order (`dy` outer from -1 to 1,
`dx` inner from -1 to 1), as pairs `(dx, dy)`. -/
def nineDeltas : List (ℤ × ℤ) :=
  [(-1, -1), (0, -1), (1, -1), (-1, 0), (0, 0), (1, 0), (-1, 1), (0, 1), (1, 1)]

/-- The eight refinement deltas: same order with `(0, 0)` skipped. -/
def neighborDeltas : List (ℤ × ℤ) :=
  [(-1, -1), (0, -1), (1, -1), (-1, 0), (1, 0), (-1, 1), (0, 1), (1, 1)]

/-- One iteration of the three-step search: evaluate the nine offsets
`center + (dx, dy) * step` around the fixed `center`. -/
def searchStep (cfg : OpticalFlowConfig) (cur prev : FrameTex) (bp : ℤ × ℤ)
    (R : Nat) (center : ℤ × ℤ) (step : Nat) (best : ℚ × (ℤ × ℤ)) : ℚ × (ℤ × ℤ) :=
  (nineDeltas.map (fun d => (center.1 + d.1 * (step : ℤ), center.2 + d.2 * (step : ℤ)))).foldl
    (considerOffset cfg cur prev bp R) best

/-- The `while (step >= 1)` loop: after each iteration `center` moves to
`bestMotion` and `step` halves.  The loop runs `⌊log2 step⌋ + 1 ≤ step`
times, so calling with `fuel = step` reproduces it exactly. -/
def threeStep (cfg : OpticalFlowConfig) (cur prev : FrameTex) (bp : ℤ × ℤ)
    (R : Nat) : Nat → Nat → ℤ × ℤ → ℚ × (ℤ × ℤ) → ℚ × (ℤ × ℤ)
  | 0, _, _, best => best
  | fuel + 1, step, center, best =>
    if step = 0 then best
    else
      let best2 := searchStep cfg cur prev bp R center step best
      threeStep cfg cur prev bp R fuel (step / 2) best2.2 best2

/-- The final refinement loop.  Unlike the three-step loop it recomputes
each offset from the *current* `bestMotion`, which is updated in place
when a candidate improves. -/
def refineStep (cfg : OpticalFlowConfig) (cur prev : FrameTex) (bp : ℤ × ℤ)
    (R : Nat) (best : ℚ × (ℤ × ℤ)) : ℚ × (ℤ × ℤ) :=
  neighborDeltas.foldl
    (fun b d => considerOffset cfg cur prev bp R b (b.2.1 + d.1, b.2.2 + d.2)) best

/-- `bestMotion` of the block at group id `(gx, gy)`:
`searchRadius = min(g_SearchRadius, MAX_SEARCH)`,
`step = max(searchRadius / 2, 1)`, searched from `center = (0, 0)` with
`bestSAD = 1e10`, then refined. -/
def motionRawAt (cfg : OpticalFlowConfig) (cur prev : FrameTex) (gx gy : Nat) : ℤ × ℤ :=
  let R := min cfg.searchRadius 16
  let bp : ℤ × ℤ := (8 * (gx : ℤ), 8 * (gy : ℤ))
  let step0 := max (R / 2) 1
  let best := threeStep cfg cur prev bp R step0 step0 (0, 0) (initialBestSAD, (0, 0))
  (refineStep cfg cur prev bp R best).2

/-- The motion vector written to `g_MotionVectors[groupId.xy]`:
`bestMotion * 16`. -/
def motionAt (cfg : OpticalFlowConfig) (cur prev : FrameTex) (gx gy : Nat) : ℤ × ℤ :=
  let m := motionRawAt cfg cur prev gx gy
  (16 * m.1, 16 * m.2)

/-- The spec's single-color scenario: 256x256 input at the source's
default `searchRadius = 16` (also the value the repo's optical-flow
tests configure). -/
def cfg256 : OpticalFlowConfig := { width := 256, height := 256, searchRadius := 16 }

/-- A uniform frame of RGB = (128, 128, 128), i.e. UNORM value 128/255
in every channel. -/
def uniformGray : FrameTex := fun _ _ => (128 / 255, 128 / 255, 128 / 255)

/-! ## Configuration manager (src/app/config_manager.cpp)

The config file is plain text; `WriteConfigFile` streams it out and
`ParseConfigFile` reads it back line by line (`std::getline`).  Strings
are embedded as `List Char` (`std::string` / the UTF-8 round trip of
`std::wstring`), `uint32_t` as `Nat`, `float` as `ℚ`.  The stream
insertion of a `float` is modelled as exact decimal printing with up to
six fractional digits; this coincides with the C++ formatter on the
short decimal values the configuration holds, and the round-trip
theorem restricts its float fields to such values. -/

inductive FrameGenMode
  | Disabled
  | FrameGen2X
  | FrameGen3X
  | FrameGen4X
deriving DecidableEq

inductive CaptureMethod
  | Auto
  | DXGIDesktopDup
  | WindowsGraphicsCapture
deriving DecidableEq

inductive GPUMode
  | SingleGPU
  | DualGPU
  | Auto
deriving DecidableEq

/-- `AppSettings` (src/app/config_manager.h). -/
structure AppSettings where
  frameGenMode : FrameGenMode
  enableFrameGen : Bool
  targetFramerate : ℚ
  captureMethod : CaptureMethod
  captureMonitor : Nat
  captureCursor : Bool
  gpuMode : GPUMode
  primaryGPU : Nat
  secondaryGPU : Nat
  opticalFlowBlockSize : Nat
  opticalFlowSearchRadius : Nat
  sceneChangeThreshold : ℚ
  vsyncEnabled : Bool
  borderlessWindow : Bool
  windowWidth : Nat
  windowHeight : Nat
  showOverlay : Bool
  showFPS : Bool
  showFrameTime : Bool
  showGPUUsage : Bool
  overlayPosition : Nat
  overlayScale : ℚ
  hotkeyToggleFrameGen : Nat
  hotkeyToggleOverlay : Nat
  hotkeyCycleMode : Nat
  hotkeyRequireAlt : Bool
  frameBufferCount : Nat
  usePeerToPeerTransfer : Bool
  enableDebugMode : Bool
  logFilePath : List Char
deriving DecidableEq

/-- `AppSettings{}`: the in-class member initializers
(`VK_F10 = 0x79`, `VK_F11 = 0x7A`, `VK_F12 = 0x7B`). -/
def defaultSettings : AppSettings :=
  { frameGenMode := .FrameGen2X
    enableFrameGen := true
    targetFramerate := 0
    captureMethod := .Auto
    captureMonitor := 0
    captureCursor := true
    gpuMode := .Auto
    primaryGPU := 0
    secondaryGPU := 1
    opticalFlowBlockSize := 8
    opticalFlowSearchRadius := 12
    sceneChangeThreshold := 1 / 2
    vsyncEnabled := true
    borderlessWindow := true
    windowWidth := 1920
    windowHeight := 1080
    showOverlay := true
    showFPS := true
    showFrameTime := true
    showGPUUsage := false
    overlayPosition := 0
    overlayScale := 1
    hotkeyToggleFrameGen := 0x79
    hotkeyToggleOverlay := 0x7A
    hotkeyCycleMode := 0x7B
    hotkeyRequireAlt := true
    frameBufferCount := 3
    usePeerToPeerTransfer := true
    enableDebugMode := false
    logFilePath := [] }

/-- `ConfigManager::ValidateSettings`. -/
def validateSettings (s : AppSettings) : Bool :=
  if s.gpuMode = GPUMode.DualGPU ∧ s.primaryGPU = s.secondaryGPU then false
  else if s.opticalFlowBlockSize < 4 ∨ 32 < s.opticalFlowBlockSize then false
  else if s.sceneChangeThreshold < 0 ∨ 1 < s.sceneChangeThreshold then false
  else true

/-- The whitespace set of `Trim` (`" \t\r\n"`). -/
def isWS (c : Char) : Bool :=
  c = ' ' || c = '\t' || c = '\r' || c = '\n'

/-- `Trim`: drop leading and trailing `" \t\r\n"` characters. -/
def trim (l : List Char) : List Char :=
  ((l.dropWhile isWS).reverse.dropWhile isWS).reverse

/-- `std::tolower` in the default locale, on one character. -/
def lowerChar (c : Char) : Char :=
  if 'A' ≤ c ∧ c ≤ 'Z' then Char.ofNat (c.toNat + 32) else c

/-- `ToLower`: characterwise `std::tolower`. -/
def toLower (l : List Char) : List Char := l.map lowerChar

/-- The decimal digits `'0'..'9'` (the digit set of `strtoul`/`strtof`). -/
def isDigitChar (c : Char) : Bool :=
  decide (48 ≤ c.toNat ∧ c.toNat ≤ 57)

/-- The digit character of `n < 10`. -/
def digitChar (n : Nat) : Char := Char.ofNat (48 + n)

/-- The value of a digit string (most significant digit first). -/
def digitsVal (l : List Char) : Nat :=
  l.foldl (fun a c => 10 * a + (c.toNat - 48)) 0

/-- Decimal rendering of a `Nat` (what `operator<<` prints for the
unsigned integer fields), with structural fuel: `fuel > n` suffices. -/
def renderNatAux : Nat → Nat → List Char
  | 0, _ => []
  | fuel + 1, n =>
    if n < 10 then [digitChar n]
    else renderNatAux fuel (n / 10) ++ [digitChar (n % 10)]

/-- Decimal rendering of a `Nat`. -/
def renderNat (n : Nat) : List Char := renderNatAux (n + 1) n

/-- `true`/`false`, as `WriteConfigFile` prints booleans. -/
def renderBool (b : Bool) : List Char :=
  if b then "true".data else "false".data

/-- An optional leading sign: returns (negative?, rest). -/
def splitSign (l : List Char) : Bool × List Char :=
  match l with
  | [] => (false, [])
  | c :: r =>
    if c = '-' then (true, r)
    else if c = '+' then (false, r)
    else (false, c :: r)

/-- `ParseBool`: `ToLower(Trim(value))` equal to `true`, `1` or `yes`. -/
def parseBool (v : List Char) : Bool :=
  let w := toLower (trim v)
  w = "true".data || w = "1".data || w = "yes".data

/-- `ParseUInt` = `(uint32_t)std::stoul(Trim(value))` with exceptions
mapped to 0: optional sign, leading decimal digits (none ⇒
`invalid_argument` ⇒ 0), magnitude ≥ 2^32 ⇒ `out_of_range` on the
32-bit `unsigned long` ⇒ 0, a `-` sign wraps modulo 2^32. -/
def parseUInt (v : List Char) : Nat :=
  if (splitSign (trim v)).2.takeWhile isDigitChar = [] then 0
  else if 2 ^ 32 ≤ digitsVal ((splitSign (trim v)).2.takeWhile isDigitChar) then 0
  else if (splitSign (trim v)).1 then
    (2 ^ 32 - digitsVal ((splitSign (trim v)).2.takeWhile isDigitChar)) % 2 ^ 32
  else digitsVal ((splitSign (trim v)).2.takeWhile isDigitChar)

/-- The fractional digits of an `std::stof` mantissa: what follows a
`'.'` right after the integer digits. -/
def mantissaFrac (r : List Char) : List Char :=
  match r.drop (r.takeWhile isDigitChar).length with
  | '.' :: r3 => r3.takeWhile isDigitChar
  | _ => []

/-- What remains of the input after an `std::stof` mantissa. -/
def mantissaRest (r : List Char) : List Char :=
  match r.drop (r.takeWhile isDigitChar).length with
  | '.' :: r3 => r3.drop (r3.takeWhile isDigitChar).length
  | r2 => r2

/-- The mantissa part of `std::stof`: leading digits, an optional `.`
with more digits.  Returns `none` when there is no digit at all (the
`invalid_argument` case). -/
def parseQmantissa (r : List Char) : Option (ℚ × List Char) :=
  if r.takeWhile isDigitChar = [] ∧ mantissaFrac r = [] then none
  else some ((digitsVal (r.takeWhile isDigitChar) : ℚ) +
    (digitsVal (mantissaFrac r) : ℚ) / 10 ^ (mantissaFrac r).length, mantissaRest r)

/-- The optional exponent part of `std::stof`. -/
def parseQexponent (r : List Char) : ℤ :=
  match r with
  | c :: r2 =>
    if c = 'e' ∨ c = 'E' then
      if (splitSign r2).2.takeWhile isDigitChar = [] then 0
      else if (splitSign r2).1 then
        -(digitsVal ((splitSign r2).2.takeWhile isDigitChar) : ℤ)
      else (digitsVal ((splitSign r2).2.takeWhile isDigitChar) : ℤ)
    else 0
  | [] => 0

/-- `ParseFloat` = `std::stof(Trim(value))` with exceptions mapped to 0,
idealized to exact rational arithmetic. -/
def parseQ (v : List Char) : ℚ :=
  match parseQmantissa (splitSign (trim v)).2 with
  | none => 0
  | some p =>
    if (splitSign (trim v)).1 then -(p.1 * (10 : ℚ) ^ parseQexponent p.2)
    else p.1 * (10 : ℚ) ^ parseQexponent p.2

/-- Strip trailing zero digits: `stripZeros k f` removes factors of 10
from `f` while decrementing the digit count `k`, stopping at a nonzero
last digit.  Preserves `f / 10^k`. -/
def stripZeros : Nat → Nat → Nat × Nat
  | 0, f => (0, f)
  | k + 1, f => if f % 10 = 0 then stripZeros k (f / 10) else (k + 1, f)

/-- Left-pad a digit string with `'0'` to `k` characters. -/
def padLeftZeros (k : Nat) (ds : List Char) : List Char :=
  List.replicate (k - ds.length) '0' ++ ds

/-- Round to the nearest integer, ties to even (the correct rounding
of `printf`-style decimal conversion). -/
def roundHE (x : ℚ) : ℤ :=
  if x - ⌊x⌋ < 1 / 2 then ⌊x⌋
  else if (1 : ℚ) / 2 < x - ⌊x⌋ then ⌊x⌋ + 1
  else if ⌊x⌋ % 2 = 0 then ⌊x⌋ else ⌊x⌋ + 1

/-- The decimal exponent of a positive rational: repeatedly scale into
`[1, 10)` counting steps (structural fuel; `|exponent| < fuel`
suffices, and `q.num.natAbs + q.den` always does). -/
def g6expAux : Nat → ℚ → ℤ
  | 0, _ => 0
  | fuel + 1, q =>
    if q < 1 then g6expAux fuel (10 * q) - 1
    else if 10 ≤ q then g6expAux fuel (q / 10) + 1
    else 0

/-- The decimal exponent `X` with `10^X ≤ q < 10^(X+1)` of a positive
rational. -/
def g6exp (q : ℚ) : ℤ := g6expAux (q.num.natAbs + q.den) q

/-- The six-significant-digit mantissa of `q`: its value scaled into
`[10^5, 10^6)` and correctly rounded (`10^6` itself when rounding
overflows). -/
def g6m (q : ℚ) : Nat := (roundHE (q * 10 ^ ((5 : ℤ) - g6exp q))).toNat

/-- The exponent after mantissa-rounding overflow (`999999.5 → 1e+06`). -/
def g6adjExp (q : ℚ) : ℤ :=
  if g6m q = 10 ^ 6 then g6exp q + 1 else g6exp q

/-- The mantissa after rounding overflow. -/
def g6adjM (q : ℚ) : Nat := if g6m q = 10 ^ 6 then 10 ^ 5 else g6m q

/-- Fixed-notation digits of the value `n / 10^F` (`F` fractional
digits), trailing fractional zeros removed — `%f` after `%g`'s zero
stripping. -/
def renderFixed (F n : Nat) : List Char :=
  if n % 10 ^ F = 0 then renderNat (n / 10 ^ F)
  else renderNat (n / 10 ^ F) ++ '.' ::
    padLeftZeros (stripZeros F (n % 10 ^ F)).1
      (renderNat (stripZeros F (n % 10 ^ F)).2)

/-- The scientific-notation exponent suffix (`+07`, `-05`, …): sign and
at least two digits. -/
def renderExpSuffix (e : ℤ) : List Char :=
  (if e < 0 then '-' else '+') :: padLeftZeros 2 (renderNat e.natAbs)

/-- `%g` with precision 6 on a nonnegative rational: round to six
significant digits, then fixed notation for exponents in `[-4, 6)` and
scientific notation (one leading digit, `e±dd`) otherwise, trailing
zeros removed. -/
def renderG6nn (q : ℚ) : List Char :=
  if q = 0 then "0".data
  else if -4 ≤ g6adjExp q ∧ g6adjExp q < 6 then
    renderFixed (5 - g6adjExp q).toNat (g6adjM q)
  else
    renderFixed 5 (g6adjM q) ++ 'e' :: renderExpSuffix (g6adjExp q)

/-- Stream insertion of a `float` (`file << x`): the default-precision
(`%g`, six significant digits) formatting of the rational model. -/
def renderQ (q : ℚ) : List Char :=
  if q < 0 then '-' :: renderG6nn (-q) else renderG6nn q

/-- The rationals whose `%g`-precision-6 image is exact: zero, or
`±m · 10^(X-5)` with `m` a six-digit mantissa.  Only such values can
survive a save/load round trip through the six-significant-digit
float formatting. -/
def exactG6 (q : ℚ) : Prop :=
  q = 0 ∨ ∃ m : Nat, ∃ X : ℤ, 10 ^ 5 ≤ m ∧ m < 10 ^ 6 ∧
    (q = (m : ℚ) * 10 ^ (X - 5) ∨ q = -((m : ℚ) * 10 ^ (X - 5)))

/-- `ConfigManager::FrameGenModeToString`. -/
def frameGenModeToString : FrameGenMode → List Char
  | .Disabled => "Disabled".data
  | .FrameGen2X => "2X".data
  | .FrameGen3X => "3X".data
  | .FrameGen4X => "4X".data

/-- `ConfigManager::CaptureMethodToString`. -/
def captureMethodToString : CaptureMethod → List Char
  | .Auto => "Auto".data
  | .DXGIDesktopDup => "DXGI".data
  | .WindowsGraphicsCapture => "WGC".data

/-- `ConfigManager::GPUModeToString`. -/
def gpuModeToString : GPUMode → List Char
  | .SingleGPU => "Single".data
  | .DualGPU => "Dual".data
  | .Auto => "Auto".data

/-- `ConfigManager::StringToFrameGenMode`. -/
def stringToFrameGenMode (str : List Char) : FrameGenMode :=
  let lower := toLower (trim str)
  if lower = "disabled".data ∨ lower = "off".data ∨ lower = "0".data then .Disabled
  else if lower = "2x".data ∨ lower = "2".data then .FrameGen2X
  else if lower = "3x".data ∨ lower = "3".data then .FrameGen3X
  else if lower = "4x".data ∨ lower = "4".data then .FrameGen4X
  else .FrameGen2X

/-- `ConfigManager::StringToCaptureMethod`. -/
def stringToCaptureMethod (str : List Char) : CaptureMethod :=
  let lower := toLower (trim str)
  if lower = "auto".data then .Auto
  else if lower = "dxgi".data ∨ lower = "desktopdup".data then .DXGIDesktopDup
  else if lower = "wgc".data ∨ lower = "windowsgraphicscapture".data then .WindowsGraphicsCapture
  else .Auto

/-- `ConfigManager::StringToGPUMode`. -/
def stringToGPUMode (str : List Char) : GPUMode :=
  let lower := toLower (trim str)
  if lower = "single".data ∨ lower = "singlegpu".data then .SingleGPU
  else if lower = "dual".data ∨ lower = "dualgpu".data then .DualGPU
  else if lower = "auto".data then .Auto
  else .Auto

/-- The lines `ConfigManager::WriteConfigFile` emits, in order; each is
terminated with `"\n"` in the stream (the blank entries are the second
`"\n"` of each `"\n\n"`). -/
def writeLines (s : AppSettings) : List (List Char) :=
  [ "# OSFG Configuration File".data,
    "# Generated automatically - edit with care".data,
    [],
    "[FrameGen]".data,
    "Mode = ".data ++ frameGenModeToString s.frameGenMode,
    "Enabled = ".data ++ renderBool s.enableFrameGen,
    "TargetFramerate = ".data ++ renderQ s.targetFramerate,
    [],
    "[Capture]".data,
    "Method = ".data ++ captureMethodToString s.captureMethod,
    "Monitor = ".data ++ renderNat s.captureMonitor,
    "Cursor = ".data ++ renderBool s.captureCursor,
    [],
    "[GPU]".data,
    "Mode = ".data ++ gpuModeToString s.gpuMode,
    "Primary = ".data ++ renderNat s.primaryGPU,
    "Secondary = ".data ++ renderNat s.secondaryGPU,
    [],
    "[OpticalFlow]".data,
    "BlockSize = ".data ++ renderNat s.opticalFlowBlockSize,
    "SearchRadius = ".data ++ renderNat s.opticalFlowSearchRadius,
    "SceneChangeThreshold = ".data ++ renderQ s.sceneChangeThreshold,
    [],
    "[Presentation]".data,
    "VSync = ".data ++ renderBool s.vsyncEnabled,
    "Borderless = ".data ++ renderBool s.borderlessWindow,
    "Width = ".data ++ renderNat s.windowWidth,
    "Height = ".data ++ renderNat s.windowHeight,
    [],
    "[Overlay]".data,
    "Show = ".data ++ renderBool s.showOverlay,
    "FPS = ".data ++ renderBool s.showFPS,
    "FrameTime = ".data ++ renderBool s.showFrameTime,
    "GPUUsage = ".data ++ renderBool s.showGPUUsage,
    "Position = ".data ++ renderNat s.overlayPosition,
    "Scale = ".data ++ renderQ s.overlayScale,
    [],
    "[Hotkeys]".data,
    "ToggleFrameGen = ".data ++ renderNat s.hotkeyToggleFrameGen,
    "ToggleOverlay = ".data ++ renderNat s.hotkeyToggleOverlay,
    "CycleMode = ".data ++ renderNat s.hotkeyCycleMode,
    "RequireAlt = ".data ++ renderBool s.hotkeyRequireAlt,
    [],
    "[Advanced]".data,
    "FrameBufferCount = ".data ++ renderNat s.frameBufferCount,
    "PeerToPeer = ".data ++ renderBool s.usePeerToPeerTransfer,
    "Debug = ".data ++ renderBool s.enableDebugMode,
    "LogFile = \"".data ++ s.logFilePath ++ "\"".data ]

/-- Join lines with `'\n'` after each, giving the file's byte stream. -/
def joinLines (ls : List (List Char)) : List Char :=
  ls.foldr (fun l acc => l ++ '\n' :: acc) []

/-- `ConfigManager::WriteConfigFile`: the full text written. -/
def writeConfigFile (s : AppSettings) : List Char :=
  joinLines (writeLines s)

/-- `std::getline` splitting: segments between `'\n'`s; a final `'\n'`
produces no extra empty line. -/
def splitLines (text : List Char) : List (List Char) :=
  text.foldr
    (fun c acc =>
      if c = '\n' then [] :: acc
      else
        match acc with
        | [] => [[c]]
        | a :: as => (c :: a) :: as) []

/-- `line.find('=')`: split at the first `'='` if any. -/
def splitFirstEq : List Char → Option (List Char × List Char)
  | [] => none
  | c :: r =>
    if c = '=' then some ([], r)
    else (splitFirstEq r).map (fun p => (c :: p.1, p.2))

/-- Remove one pair of surrounding double quotes
(`value.front() == '"' && value.back() == '"'`). -/
def stripQuotes (v : List Char) : List Char :=
  if v ≠ [] ∧ v.head? = some '"' ∧ v.getLast? = some '"' then
    (v.drop 1).dropLast
  else v

/-- The per-section, per-key assignment chain of `ParseConfigFile`
(`sec` and `key` already lowercased, `value` already unquoted). -/
def applyKV (sec key value : List Char) (s : AppSettings) : AppSettings :=
  if sec = "framegen".data then
    if key = "mode".data then { s with frameGenMode := stringToFrameGenMode value }
    else if key = "enabled".data then { s with enableFrameGen := parseBool value }
    else if key = "targetframerate".data then { s with targetFramerate := parseQ value }
    else s
  else if sec = "capture".data then
    if key = "method".data then { s with captureMethod := stringToCaptureMethod value }
    else if key = "monitor".data then { s with captureMonitor := parseUInt value }
    else if key = "cursor".data then { s with captureCursor := parseBool value }
    else s
  else if sec = "gpu".data then
    if key = "mode".data then { s with gpuMode := stringToGPUMode value }
    else if key = "primary".data then { s with primaryGPU := parseUInt value }
    else if key = "secondary".data then { s with secondaryGPU := parseUInt value }
    else s
  else if sec = "opticalflow".data then
    if key = "blocksize".data then { s with opticalFlowBlockSize := parseUInt value }
    else if key = "searchradius".data then { s with opticalFlowSearchRadius := parseUInt value }
    else if key = "scenechangethreshold".data then { s with sceneChangeThreshold := parseQ value }
    else s
  else if sec = "presentation".data then
    if key = "vsync".data then { s with vsyncEnabled := parseBool value }
    else if key = "borderless".data then { s with borderlessWindow := parseBool value }
    else if key = "width".data then { s with windowWidth := parseUInt value }
    else if key = "height".data then { s with windowHeight := parseUInt value }
    else s
  else if sec = "overlay".data then
    if key = "show".data then { s with showOverlay := parseBool value }
    else if key = "fps".data then { s with showFPS := parseBool value }
    else if key = "frametime".data then { s with showFrameTime := parseBool value }
    else if key = "gpuusage".data then { s with showGPUUsage := parseBool value }
    else if key = "position".data then { s with overlayPosition := parseUInt value }
    else if key = "scale".data then { s with overlayScale := parseQ value }
    else s
  else if sec = "hotkeys".data then
    if key = "toggleframegen".data then { s with hotkeyToggleFrameGen := parseUInt value }
    else if key = "toggleoverlay".data then { s with hotkeyToggleOverlay := parseUInt value }
    else if key = "cyclemode".data then { s with hotkeyCycleMode := parseUInt value }
    else if key = "requirealt".data then { s with hotkeyRequireAlt := parseBool value }
    else s
  else if sec = "advanced".data then
    if key = "framebuffercount".data then { s with frameBufferCount := parseUInt value }
    else if key = "peertopeer".data then { s with usePeerToPeerTransfer := parseBool value }
    else if key = "debug".data then { s with enableDebugMode := parseBool value }
    else if key = "logfile".data then { s with logFilePath := value }
    else s
  else s

/-- The body of one `while (std::getline(file, line))` iteration, on
the already-trimmed line; the state is `(currentSection, m_settings)`. -/
def processTrimmed (st : List Char × AppSettings) :
    List Char → List Char × AppSettings
  | [] => st
  | c :: rest =>
    if c = '#' ∨ c = ';' then st
    else if c = '[' ∧ (c :: rest).getLast? = some ']' then
      (toLower (((c :: rest).drop 1).dropLast), st.2)
    else
      match splitFirstEq (c :: rest) with
      | none => st
      | some p =>
        (st.1, applyKV st.1 (toLower (trim p.1)) (stripQuotes (trim p.2)) st.2)

/-- One iteration of the `while (std::getline(file, line))` loop. -/
def processLine (st : List Char × AppSettings) (rawLine : List Char) :
    List Char × AppSettings :=
  processTrimmed st (trim rawLine)

/-- `ConfigManager::ParseConfigFile` applied to the in-memory settings
`init` (a freshly constructed manager holds `AppSettings{}`). -/
def parseConfigFile (init : AppSettings) (text : List Char) : AppSettings :=
  ((splitLines text).foldl processLine ([], init)).2

/-- `Load` after `Save`: parse the written file into a freshly
default-initialized manager. -/
def loadOfSave (s : AppSettings) : AppSettings :=
  parseConfigFile defaultSettings (writeConfigFile s)

/-! ## Hotkey handler (src/app/hotkey_handler.cpp)

Virtual-key codes are the Win32 `VK_*` values. -/

/-- `std::atoi`: leading whitespace, optional sign, leading digits. -/
def atoiModel (l : List Char) : ℤ :=
  let t := l.dropWhile isWS
  let s := splitSign t
  let n : ℤ := digitsVal (s.2.takeWhile isDigitChar)
  if s.1 then -n else n

/-- Lowercase hexadecimal rendering (what `std::hex` prints), with
structural fuel: `fuel > n` suffices. -/
def renderHexAux : Nat → Nat → List Char
  | 0, _ => []
  | fuel + 1, n =>
    let digit := fun (k : Nat) => if k < 10 then digitChar k else Char.ofNat (87 + k)
    if n < 16 then [digit n]
    else renderHexAux fuel (n / 16) ++ [digit (n % 16)]

/-- `HotkeyHandler::VirtualKeyToString`. -/
def virtualKeyToString (vk : Nat) : List Char :=
  if vk = 0x70 then "F1".data
  else if vk = 0x71 then "F2".data
  else if vk = 0x72 then "F3".data
  else if vk = 0x73 then "F4".data
  else if vk = 0x74 then "F5".data
  else if vk = 0x75 then "F6".data
  else if vk = 0x76 then "F7".data
  else if vk = 0x77 then "F8".data
  else if vk = 0x78 then "F9".data
  else if vk = 0x79 then "F10".data
  else if vk = 0x7A then "F11".data
  else if vk = 0x7B then "F12".data
  else if vk = 0x1B then "Escape".data
  else if vk = 0x09 then "Tab".data
  else if vk = 0x14 then "CapsLock".data
  else if vk = 0x20 then "Space".data
  else if vk = 0x0D then "Enter".data
  else if vk = 0x08 then "Backspace".data
  else if vk = 0x2E then "Delete".data
  else if vk = 0x2D then "Insert".data
  else if vk = 0x24 then "Home".data
  else if vk = 0x23 then "End".data
  else if vk = 0x21 then "PageUp".data
  else if vk = 0x22 then "PageDown".data
  else if vk = 0x26 then "Up".data
  else if vk = 0x28 then "Down".data
  else if vk = 0x25 then "Left".data
  else if vk = 0x27 then "Right".data
  else if vk = 0x60 then "Num0".data
  else if vk = 0x61 then "Num1".data
  else if vk = 0x62 then "Num2".data
  else if vk = 0x63 then "Num3".data
  else if vk = 0x64 then "Num4".data
  else if vk = 0x65 then "Num5".data
  else if vk = 0x66 then "Num6".data
  else if vk = 0x67 then "Num7".data
  else if vk = 0x68 then "Num8".data
  else if vk = 0x69 then "Num9".data
  else if vk = 0x6A then "Num*".data
  else if vk = 0x6B then "Num+".data
  else if vk = 0x6D then "Num-".data
  else if vk = 0x6E then "Num.".data
  else if vk = 0x6F then "Num/".data
  else if vk = 0x13 then "Pause".data
  else if vk = 0x91 then "ScrollLock".data
  else if vk = 0x2C then "PrintScreen".data
  else if 65 ≤ vk ∧ vk ≤ 90 then [Char.ofNat vk]
  else if 48 ≤ vk ∧ vk ≤ 57 then [Char.ofNat vk]
  else "0x".data ++ renderHexAux (vk + 1) vk

/-- `HotkeyHandler::StringToVirtualKey`. -/
def stringToVirtualKey (str : List Char) : Nat :=
  match str with
  | [] => 0
  | c0 :: rest =>
    -- function keys: length >= 2 and str[0] in {F, f}
    let fnum : ℤ :=
      if 2 ≤ str.length ∧ (c0 = 'F' ∨ c0 = 'f') then atoiModel rest else 0
    if 1 ≤ fnum ∧ fnum ≤ 12 then 0x70 + (fnum.toNat - 1)
    else if str.length = 1 ∧ 'a' ≤ c0 ∧ c0 ≤ 'z' then c0.toNat - 32
    else if str.length = 1 ∧ 'A' ≤ c0 ∧ c0 ≤ 'Z' then c0.toNat
    else if str.length = 1 ∧ '0' ≤ c0 ∧ c0 ≤ '9' then c0.toNat
    else
      let lower := toLower str
      if lower = "escape".data ∨ lower = "esc".data then 0x1B
      else if lower = "tab".data then 0x09
      else if lower = "space".data then 0x20
      else if lower = "enter".data ∨ lower = "return".data then 0x0D
      else if lower = "backspace".data then 0x08
      else if lower = "delete".data ∨ lower = "del".data then 0x2E
      else if lower = "insert".data ∨ lower = "ins".data then 0x2D
      else if lower = "home".data then 0x24
      else if lower = "end".data then 0x23
      else if lower = "pageup".data ∨ lower = "pgup".data then 0x21
      else if lower = "pagedown".data ∨ lower = "pgdn".data then 0x22
      else if lower = "up".data then 0x26
      else if lower = "down".data then 0x28
      else if lower = "left".data then 0x25
      else if lower = "right".data then 0x27
      else if lower = "pause".data then 0x13
      else if lower = "printscreen".data ∨ lower = "prtsc".data then 0x2C
      else 0

/-- The virtual keys whose printed name `StringToVirtualKey` maps back:
F1-F12, the letter and digit keys and the recognized named keys.
`CapsLock` (0x14), `Num0`-`Num9` and the numpad operators
(0x60-0x6F), and `ScrollLock` (0x91) are *not* in this set. -/
def roundTripKeys : List Nat :=
  (List.range 12).map (fun i => 0x70 + i) ++
  (List.range 26).map (fun i => 65 + i) ++
  (List.range 10).map (fun i => 48 + i) ++
  [0x1B, 0x09, 0x20, 0x0D, 0x08, 0x2E, 0x2D, 0x24, 0x23, 0x21, 0x22,
   0x26, 0x28, 0x25, 0x27, 0x13, 0x2C]

/-! ## Frame interpolation (src/interpolation/frame_interpolation.cpp) -/

/-- `FrameInterpolation::SetInterpolationFactor`: the value stored into
`m_config.interpolationFactor`. -/
def setInterpolationFactor (factor : ℚ) : ℚ :=
  if factor < 0 then 0 else if factor > 1 then 1 else factor

/-! ## Capture statistics (src/capture/dxgi_capture.cpp) -/

/-- Outcome of `IDXGIOutputDuplication::AcquireNextFrame`. -/
inductive AcquireOutcome
  | Success
  | TimedOut
  | AccessLost
  | OtherFail
deriving DecidableEq

/-- The `DXGICapture` state the capture loop mutates. -/
structure CaptureState where
  initialized : Bool
  frameAcquired : Bool
  framesCapture : Nat
  framesMissed : Nat
  frameCounter : Nat
deriving DecidableEq

/-- State right after a successful `Initialize` (`m_stats` zeroed). -/
def initCaptureState : CaptureState :=
  { initialized := true, frameAcquired := false,
    framesCapture := 0, framesMissed := 0, frameCounter := 0 }

/-- `DXGICapture::CaptureFrame`.  `outcome` is the acquire result and
`texOk` tells whether the `IDXGIResource → ID3D11Texture2D` query
succeeds.  Returns `(returned bool, new state)`. -/
def captureFrame (outcome : AcquireOutcome) (texOk : Bool)
    (st : CaptureState) : Bool × CaptureState :=
  if !st.initialized then (false, st)
  else
    let st1 := if st.frameAcquired then { st with frameAcquired := false } else st
    match outcome with
    | .TimedOut => (false, st1)
    | .AccessLost => (false, { st1 with initialized := false })
    | .OtherFail => (false, { st1 with framesMissed := st1.framesMissed + 1 })
    | .Success =>
      let st2 := { st1 with frameAcquired := true }
      if !texOk then
        (false, { st2 with frameAcquired := false,
                           framesMissed := st2.framesMissed + 1 })
      else
        (true, { st2 with framesCapture := st2.framesCapture + 1,
                          frameCounter := st2.frameCounter + 1 })

/-- `DXGICapture::ReleaseFrame`. -/
def releaseFrame (st : CaptureState) : CaptureState :=
  if st.frameAcquired then { st with frameAcquired := false } else st

/-- One step of a capture session. -/
inductive CaptureEvent
  | acquire (outcome : AcquireOutcome) (texOk : Bool)
  | release
deriving DecidableEq

/-- Run a sequence of capture calls. -/
def runCapture (evs : List CaptureEvent) (st : CaptureState) : CaptureState :=
  evs.foldl
    (fun s e =>
      match e with
      | .acquire o t => (captureFrame o t s).2
      | .release => releaseFrame s) st

/-- The number of successful acquires in an event sequence. -/
def countSuccess (evs : List CaptureEvent) : Nat :=
  evs.countP (fun e => decide (e = CaptureEvent.acquire .Success true))

/-- The number of timed-out acquires in an event sequence. -/
def countTimedOut (evs : List CaptureEvent) : Nat :=
  evs.countP (fun e =>
    match e with
    | .acquire .TimedOut _ => true
    | _ => false)

/-! ## Frame pacing (src/pipeline/dual_gpu_pipeline.cpp) -/

/-- `baseFrameTimeMs = 16.667` (exactly, in the source text). -/
def baseFrameTimeMs : ℚ := 16667 / 1000

/-- `targetOffsetMs = (baseFrameTimeMs / totalFrames) * frameIndex`
computed in `DualGPUPipeline::WaitForFramePacing`. -/
def targetOffsetMs (frameIndex totalFrames : Nat) : ℚ :=
  baseFrameTimeMs / (totalFrames : ℚ) * (frameIndex : ℚ)

/-- The sleep `WaitForFramePacing` performs, in microseconds.  The target
instant is `m_frameStartTime + int64(targetOffsetMs * 1000) µs`; the
thread sleeps only when `now < target` and the wait is strictly between
0 and 20000 µs (a wait of 20 ms or more is skipped, not capped). -/
def pacingSleepUs (vsync : Bool) (frameStartUs nowUs : ℚ)
    (frameIndex totalFrames : Nat) : ℚ :=
  if !vsync then 0
  else
    let targetUs := frameStartUs + ((targetOffsetMs frameIndex totalFrames * 1000).floor : ℚ)
    if nowUs < targetUs then
      let waitUs := targetUs - nowUs
      if 0 < waitUs ∧ waitUs < 20000 then waitUs else 0
    else 0

/-- The `(frameIndex, totalFrames)` arguments of the `WaitForFramePacing`
calls that `DualGPUPipeline::PresentFrames` makes, in order: one call
per generated frame at indices `0 .. M-2`, then one call at index
`M-1` before the real frame (`totalFrames = M` with frame generation
enabled, else `1`). -/
def presentPacingCalls (frameGenEnabled : Bool) (multiplier : Nat) : List (Nat × Nat) :=
  let totalFrames := if frameGenEnabled then multiplier else 1
  let generatedFrameCount := multiplier - 1
  (if frameGenEnabled ∧ 0 < generatedFrameCount then
    (List.range generatedFrameCount).map (fun i => (i, totalFrames))
   else []) ++ [(totalFrames - 1, totalFrames)]

/-- The millisecond offsets from `m_frameStartTime` that the pacing calls
of one `PresentFrames` tick target. -/
def presentPacingOffsets (frameGenEnabled : Bool) (multiplier : Nat) : List ℚ :=
  (presentPacingCalls frameGenEnabled multiplier).map (fun p => targetOffsetMs p.1 p.2)

/-- The offsets the specification claims: `k * (baseFrameMs / M)` for
`k = 1 .. M`. -/
def claimedPacingOffsets (multiplier : Nat) : List ℚ :=
  (List.range multiplier).map (fun k => baseFrameTimeMs / (multiplier : ℚ) * ((k : ℚ) + 1))

/-! ## D3D11/D3D12 interop ring (src/interop/d3d11_d3d12_interop.cpp) -/

/-- The part of `D3D11D3D12Interop` that determines which physical
texture each role tag names: `m_currentIndex` (a `uint32_t` toggled by
`SwapBuffers`) and the frame counter. -/
structure InteropRoles where
  currentIndex : Nat
  frameCount : Nat
deriving DecidableEq

/-- State after `Initialize` (`m_currentIndex = 0`, `m_frameCount = 0`).
The two `m_d3d12Textures` are created here, once, and never reassigned
by any later operation. -/
def interopInit : InteropRoles := { currentIndex := 0, frameCount := 0 }

/-- The interop operations that run after initialization. -/
inductive InteropOp
  | ingestWrapped
  | ingestStaged
  | rotate
deriving DecidableEq

/-- `CopyFromD3D11` / `CopyFromD3D11Staged` bump `m_frameCount`;
`SwapBuffers` performs `m_currentIndex = 1 - m_currentIndex`. -/
def interopStep (st : InteropRoles) (op : InteropOp) : InteropRoles :=
  match op with
  | .rotate => { st with currentIndex := 1 - st.currentIndex }
  | .ingestWrapped => { st with frameCount := st.frameCount + 1 }
  | .ingestStaged => { st with frameCount := st.frameCount + 1 }

/-- Run a sequence of interop operations from the initialized state. -/
def runInterop (ops : List InteropOp) : InteropRoles :=
  ops.foldl interopStep interopInit

/-- `GetCurrentFrameD3D12`: `m_d3d12Textures[m_currentIndex]`. -/
def currentFrameTex (textures : Nat → Nat) (st : InteropRoles) : Nat :=
  textures st.currentIndex

/-- `GetPreviousFrameD3D12`: `m_d3d12Textures[1 - m_currentIndex]`. -/
def previousFrameTex (textures : Nat → Nat) (st : InteropRoles) : Nat :=
  textures (1 - st.currentIndex)

/-- The mutable resources `CopyFromD3D11Staged` touches, with texture
contents abstracted by a type `α`: the two destination D3D12 textures,
the cached D3D11 staging texture, the persistently mapped upload buffer
and the frame counter. -/
structure StagedState (α : Type) where
  initialized : Bool
  currentIndex : Nat
  destTextures : Nat → Option α
  stagingTexture : Option α
  uploadBuffer : Option α
  frameCount : Nat

/-- `D3D11D3D12Interop::CopyFromD3D11Staged`.  `createStagingOk` is the
outcome of the (lazy) staging-texture creation, `mapOk` the outcome of
`srcContext->Map`; `src` is the source texture's content (`none` models
a null `srcTexture`).  Each early `return false` leaves the state as it
was at that point. -/
def copyFromD3D11Staged {α : Type} (createStagingOk mapOk : Bool)
    (src : Option α) (st : StagedState α) : Bool × StagedState α :=
  if !st.initialized then (false, st)
  else if src.isNone then (false, st)
  else if st.stagingTexture.isNone && !createStagingOk then (false, st)
  else
    -- srcContext->CopyResource(staging, srcTexture)
    let st1 := { st with stagingTexture := src }
    -- srcContext->Map(staging, 0, D3D11_MAP_READ, 0, &mapped)
    if !mapOk then (false, st1)
    else
      -- row-wise memcpy into the persistently mapped upload buffer
      let st2 := { st1 with uploadBuffer := src }
      -- barrier to COPY_DEST, CopyTextureRegion from the upload buffer,
      -- barrier back to PIXEL_SHADER_RESOURCE, execute, fence wait
      let st3 := { st2 with
        destTextures := fun i => if i = st2.currentIndex then src else st2.destTextures i,
        frameCount := st2.frameCount + 1 }
      (true, st3)

/-! ## Theorems -/

/-- Claim C10: `SetInterpolationFactor(f)` stores the clamp of `f` to
[0, 1]: a negative factor is stored as 0, a factor above 1 as 1, a
factor already in [0, 1] unchanged; the stored factor is always in
[0, 1]. -/
theorem setInterpolationFactor_clamps (f : ℚ) :
    (f < 0 → setInterpolationFactor f = 0) ∧
    (1 < f → setInterpolationFactor f = 1) ∧
    (0 ≤ f → f ≤ 1 → setInterpolationFactor f = f) ∧
    0 ≤ setInterpolationFactor f ∧ setInterpolationFactor f ≤ 1 := by
  unfold setInterpolationFactor
  split_ifs with h1 h2
  · exact ⟨fun _ => rfl, fun h => by linarith, fun h _ => by linarith,
      le_refl 0, by norm_num⟩
  · exact ⟨fun h => by linarith, fun _ => rfl, fun _ h => by
      rw [gt_iff_lt] at h2; linarith, by norm_num, le_refl 1⟩
  · rw [gt_iff_lt, not_lt] at h2
    rw [not_lt] at h1
    exact ⟨fun h => by linarith, fun h => by linarith, fun _ _ => rfl, h1, h2⟩

/-- Witness for C10 at the concrete factors 3/2, -1 and 1/4. -/
theorem setInterpolationFactor_clamps_witness :
    ((1 : ℚ) < 3 / 2 ∧ setInterpolationFactor (3 / 2) = 1) ∧
    ((-1 : ℚ) < 0 ∧ setInterpolationFactor (-1) = 0) ∧
    ((0 : ℚ) ≤ 1 / 4 ∧ (1 : ℚ) / 4 ≤ 1 ∧ setInterpolationFactor (1 / 4) = 1 / 4) :=
  ⟨⟨by norm_num, (setInterpolationFactor_clamps (3 / 2)).2.1 (by norm_num)⟩,
   ⟨by norm_num, (setInterpolationFactor_clamps (-1)).1 (by norm_num)⟩,
   ⟨by norm_num, by norm_num,
    (setInterpolationFactor_clamps (1 / 4)).2.2.1 (by norm_num) (by norm_num)⟩⟩

/-- Claim C9: `ValidateSettings(s)` returns true iff the block size is
in [4, 32], the scene-change threshold is in [0, 1], and in dual-GPU
mode the two GPU indices differ. -/
theorem validateSettings_iff (s : AppSettings) :
    validateSettings s = true ↔
      (4 ≤ s.opticalFlowBlockSize ∧ s.opticalFlowBlockSize ≤ 32) ∧
      (0 ≤ s.sceneChangeThreshold ∧ s.sceneChangeThreshold ≤ 1) ∧
      (s.gpuMode ≠ GPUMode.DualGPU ∨ s.primaryGPU ≠ s.secondaryGPU) := by
  unfold validateSettings
  constructor
  · intro h
    split_ifs at h with h1 h2 h3
    push_neg at h1 h2 h3
    exact ⟨⟨h2.1, h2.2⟩, ⟨h3.1, h3.2⟩, by tauto⟩
  · rintro ⟨⟨hb1, hb2⟩, ⟨ht1, ht2⟩, hgp⟩
    split_ifs with h1 h2 h3
    · rcases hgp with hgp | hgp
      · exact absurd h1.1 hgp
      · exact absurd h1.2 hgp
    · rcases h2 with h2 | h2 <;> omega
    · rcases h3 with h3 | h3 <;> linarith
    · rfl

/-- Claim C8: if the `Map` of the staging texture fails during a staged
ingest, the call returns `false` and the destination interop texture,
the frame counter and the write-slot index are all left unchanged. -/
theorem stagedIngest_mapFail_leaves_dest {α : Type} (createStagingOk : Bool)
    (src : Option α) (st : StagedState α) :
    (copyFromD3D11Staged createStagingOk false src st).1 = false ∧
    (copyFromD3D11Staged createStagingOk false src st).2.destTextures = st.destTextures ∧
    (copyFromD3D11Staged createStagingOk false src st).2.frameCount = st.frameCount ∧
    (copyFromD3D11Staged createStagingOk false src st).2.currentIndex = st.currentIndex := by
  unfold copyFromD3D11Staged
  split_ifs <;> simp_all

/-- Witness for C8 at a concrete interop state. -/
theorem stagedIngest_mapFail_leaves_dest_witness :
    (copyFromD3D11Staged true false (some 7)
      { initialized := true, currentIndex := 0, destTextures := fun _ => (none : Option Nat),
        stagingTexture := none, uploadBuffer := none, frameCount := 0 }).1 = false ∧
    (copyFromD3D11Staged true false (some 7)
      { initialized := true, currentIndex := 0, destTextures := fun _ => (none : Option Nat),
        stagingTexture := none, uploadBuffer := none, frameCount := 0 }).2.destTextures =
      (fun _ => (none : Option Nat)) ∧
    (copyFromD3D11Staged true false (some 7)
      { initialized := true, currentIndex := 0, destTextures := fun _ => (none : Option Nat),
        stagingTexture := none, uploadBuffer := none, frameCount := 0 }).2.frameCount = 0 ∧
    (copyFromD3D11Staged true false (some 7)
      { initialized := true, currentIndex := 0, destTextures := fun _ => (none : Option Nat),
        stagingTexture := none, uploadBuffer := none, frameCount := 0 }).2.currentIndex = 0 :=
  stagedIngest_mapFail_leaves_dest true (some 7)
    { initialized := true, currentIndex := 0, destTextures := fun _ => (none : Option Nat),
      stagingTexture := none, uploadBuffer := none, frameCount := 0 }

theorem runInterop_index_le_one (ops : List InteropOp) :
    (runInterop ops).currentIndex = 0 ∨ (runInterop ops).currentIndex = 1 := by
  suffices h : ∀ st : InteropRoles, st.currentIndex = 0 ∨ st.currentIndex = 1 →
      (ops.foldl interopStep st).currentIndex = 0 ∨
        (ops.foldl interopStep st).currentIndex = 1 from
    h interopInit (Or.inl rfl)
  induction ops with
  | nil => intro st h; exact h
  | cons op rest ih =>
    intro st h
    simp only [List.foldl_cons]
    apply ih
    cases op <;> rcases h with h | h <;> simp [interopStep, h]

/-- Claim C7: after any operation sequence the `Current` and `Previous`
role tags name two distinct physical textures, both taken from the pair
created at initialization, and a `rotate` only exchanges which of the
two each role names. -/
theorem interop_roles_distinct (ops : List InteropOp) (t0 t1 : Nat) (h : t0 ≠ t1) :
    currentFrameTex (fun i => if i = 0 then t0 else t1) (runInterop ops) ≠
      previousFrameTex (fun i => if i = 0 then t0 else t1) (runInterop ops) ∧
    (currentFrameTex (fun i => if i = 0 then t0 else t1) (runInterop ops) = t0 ∨
      currentFrameTex (fun i => if i = 0 then t0 else t1) (runInterop ops) = t1) ∧
    (previousFrameTex (fun i => if i = 0 then t0 else t1) (runInterop ops) = t0 ∨
      previousFrameTex (fun i => if i = 0 then t0 else t1) (runInterop ops) = t1) ∧
    currentFrameTex (fun i => if i = 0 then t0 else t1)
        (runInterop (ops ++ [InteropOp.rotate])) =
      previousFrameTex (fun i => if i = 0 then t0 else t1) (runInterop ops) ∧
    previousFrameTex (fun i => if i = 0 then t0 else t1)
        (runInterop (ops ++ [InteropOp.rotate])) =
      currentFrameTex (fun i => if i = 0 then t0 else t1) (runInterop ops) := by
  have happ : runInterop (ops ++ [InteropOp.rotate]) =
      interopStep (runInterop ops) InteropOp.rotate := by
    unfold runInterop
    rw [List.foldl_append]
    rfl
  rcases runInterop_index_le_one ops with hi | hi <;>
    simp [currentFrameTex, previousFrameTex, happ, interopStep, hi, h, Ne.symm h]

/-- Witness for C7 at a concrete operation sequence and texture pair. -/
theorem interop_roles_distinct_witness :
    currentFrameTex (fun i => if i = 0 then 5 else 9)
        (runInterop [InteropOp.ingestStaged, InteropOp.rotate]) ≠
      previousFrameTex (fun i => if i = 0 then 5 else 9)
        (runInterop [InteropOp.ingestStaged, InteropOp.rotate]) :=
  (interop_roles_distinct [InteropOp.ingestStaged, InteropOp.rotate] 5 9 (by decide)).1

theorem releaseFrame_counts (st : CaptureState) :
    (releaseFrame st).initialized = st.initialized ∧
    (releaseFrame st).framesCapture = st.framesCapture ∧
    (releaseFrame st).framesMissed = st.framesMissed := by
  unfold releaseFrame
  split_ifs <;> simp

theorem captureFrame_success_counts (st : CaptureState) (h : st.initialized = true) :
    (captureFrame .Success true st).2.initialized = true ∧
    (captureFrame .Success true st).2.framesCapture = st.framesCapture + 1 ∧
    (captureFrame .Success true st).2.framesMissed = st.framesMissed := by
  unfold captureFrame
  rw [h]
  split_ifs <;> simp_all

theorem captureFrame_timeout_counts (st : CaptureState) (b : Bool)
    (h : st.initialized = true) :
    (captureFrame .TimedOut b st).2.initialized = true ∧
    (captureFrame .TimedOut b st).2.framesCapture = st.framesCapture ∧
    (captureFrame .TimedOut b st).2.framesMissed = st.framesMissed := by
  unfold captureFrame
  rw [h]
  split_ifs <;> simp_all

theorem runCapture_success_timeout (evs : List CaptureEvent) :
    ∀ st : CaptureState, st.initialized = true →
      (∀ e ∈ evs, e = CaptureEvent.release ∨ e = CaptureEvent.acquire .Success true ∨
        ∃ b, e = CaptureEvent.acquire .TimedOut b) →
      (runCapture evs st).framesCapture = st.framesCapture + countSuccess evs ∧
      (runCapture evs st).framesMissed = st.framesMissed := by
  induction evs with
  | nil => intro st _ _; simp [runCapture, countSuccess]
  | cons e rest ih =>
    intro st hinit h
    have hrest : ∀ e' ∈ rest, e' = CaptureEvent.release ∨
        e' = CaptureEvent.acquire .Success true ∨
        ∃ b, e' = CaptureEvent.acquire .TimedOut b :=
      fun e' he' => h e' (List.mem_cons_of_mem e he')
    rcases h e (List.mem_cons_self e rest) with he | he | ⟨b, he⟩ <;> subst he
    · obtain ⟨hi, hc, hm⟩ := releaseFrame_counts st
      obtain ⟨ih1, ih2⟩ := ih (releaseFrame st) (by rw [hi, hinit]) hrest
      have hrun : runCapture (CaptureEvent.release :: rest) st =
          runCapture rest (releaseFrame st) := rfl
      rw [hrun]
      refine ⟨?_, ?_⟩
      · rw [ih1, hc]
        simp [countSuccess, List.countP_cons]
      · rw [ih2, hm]
    · obtain ⟨hi, hc, hm⟩ := captureFrame_success_counts st hinit
      obtain ⟨ih1, ih2⟩ := ih _ hi hrest
      have hrun : runCapture (CaptureEvent.acquire .Success true :: rest) st =
          runCapture rest (captureFrame .Success true st).2 := rfl
      rw [hrun]
      refine ⟨?_, ?_⟩
      · rw [ih1, hc]
        simp [countSuccess, List.countP_cons]
        omega
      · rw [ih2, hm]
    · obtain ⟨hi, hc, hm⟩ := captureFrame_timeout_counts st b hinit
      obtain ⟨ih1, ih2⟩ := ih _ hi hrest
      have hrun : runCapture (CaptureEvent.acquire .TimedOut b :: rest) st =
          runCapture rest (captureFrame .TimedOut b st).2 := rfl
      rw [hrun]
      refine ⟨?_, ?_⟩
      · rw [ih1, hc]
        simp [countSuccess, List.countP_cons]
      · rw [ih2, hm]

/-- Claim C4 (amended): after a sequence of successful acquire/release
pairs interleaved with timed-out acquires, `framesCaptured` equals the
number of successful acquires and `framesMissed` stays 0 — a `TimedOut`
return does not increment `framesMissed` (only non-timeout acquisition
failures do). -/
theorem captureStats_success_timeout (evs : List CaptureEvent)
    (h : ∀ e ∈ evs, e = CaptureEvent.release ∨ e = CaptureEvent.acquire .Success true ∨
      ∃ b, e = CaptureEvent.acquire .TimedOut b) :
    (runCapture evs initCaptureState).framesCapture = countSuccess evs ∧
    (runCapture evs initCaptureState).framesMissed = 0 := by
  have := runCapture_success_timeout evs initCaptureState rfl h
  simpa [initCaptureState] using this

/-- Witness for C4 with two successful pairs around one timeout. -/
theorem captureStats_success_timeout_witness :
    (runCapture [CaptureEvent.acquire .Success true, CaptureEvent.release,
        CaptureEvent.acquire .TimedOut true, CaptureEvent.acquire .Success true,
        CaptureEvent.release] initCaptureState).framesCapture =
      countSuccess [CaptureEvent.acquire .Success true, CaptureEvent.release,
        CaptureEvent.acquire .TimedOut true, CaptureEvent.acquire .Success true,
        CaptureEvent.release] ∧
    (runCapture [CaptureEvent.acquire .Success true, CaptureEvent.release,
        CaptureEvent.acquire .TimedOut true, CaptureEvent.acquire .Success true,
        CaptureEvent.release] initCaptureState).framesMissed = 0 :=
  captureStats_success_timeout _ (by decide)

/-- Counterexample to C4 as stated: a single timed-out acquire is one
`TimedOut` return, yet `framesMissed` stays 0, not 1. -/
theorem captureStats_timeout_not_missed :
    countTimedOut [CaptureEvent.acquire .TimedOut true] = 1 ∧
    (runCapture [CaptureEvent.acquire .TimedOut true] initCaptureState).framesCapture = 0 ∧
    (runCapture [CaptureEvent.acquire .TimedOut true] initCaptureState).framesMissed ≠ 1 := by
  decide

/-- Claim C5 (amended): with vsync enabled and multiplier `M`, the `M`
pacing calls of one tick target `frame_start + (k-1) * (baseFrameMs/M)`
for `k = 1..M` (the first present is not delayed and the last targets
`(M-1)/M` of the base interval, not the full interval), and every
pacing sleep is nonnegative and strictly below 20 ms (a longer required
wait is skipped, not capped). -/
theorem pacing_targets (M : Nat) (hM : 1 ≤ M) :
    presentPacingOffsets true M =
      (List.range M).map (fun k : Nat => baseFrameTimeMs / (M : ℚ) * (k : ℚ)) ∧
    ∀ (vs : Bool) (frameStartUs nowUs : ℚ) (i t : Nat),
      0 ≤ pacingSleepUs vs frameStartUs nowUs i t ∧
      pacingSleepUs vs frameStartUs nowUs i t < 20000 := by
  constructor
  · obtain ⟨m, rfl⟩ : ∃ m, M = m + 1 := ⟨M - 1, by omega⟩
    rcases Nat.eq_zero_or_pos m with hm | hm
    · subst hm
      rw [show List.range (0 + 1) = [0] from rfl]
      show [targetOffsetMs 0 1] = _
      rfl
    · have h1 : presentPacingCalls true (m + 1) =
          (List.range m).map (fun i => (i, m + 1)) ++ [(m, m + 1)] := by
        simp [presentPacingCalls, hm]
      rw [presentPacingOffsets, h1, List.range_succ]
      simp only [List.map_append, List.map_map, List.map_cons, List.map_nil]
      rfl
  · intro vs fs now i t
    simp only [pacingSleepUs]
    split_ifs with h1 h2 h3
    · exact ⟨le_refl 0, by norm_num⟩
    · exact ⟨le_of_lt h3.1, h3.2⟩
    · exact ⟨le_refl 0, by norm_num⟩
    · exact ⟨le_refl 0, by norm_num⟩

/-- Witness for C5 at multiplier 2. -/
theorem pacing_targets_witness :
    1 ≤ 2 ∧
    presentPacingOffsets true 2 =
      (List.range 2).map (fun k : Nat => baseFrameTimeMs / ((2 : Nat) : ℚ) * (k : ℚ)) :=
  ⟨by norm_num, (pacing_targets 2 (by norm_num)).1⟩

/-- Counterexample to C5 as stated: at `M = 2` the code's pacing
offsets are `[0, baseFrameMs/2]`, not the claimed
`[baseFrameMs/2, baseFrameMs]`. -/
theorem pacing_first_present_not_claimed :
    presentPacingOffsets true 2 ≠ claimedPacingOffsets 2 := by
  with_unfolding_all decide

theorem sadAt_nonneg (cfg : OpticalFlowConfig) (cur prev : FrameTex) (bp off : ℤ × ℤ) :
    0 ≤ sadAt cfg cur prev bp off := by
  unfold sadAt
  apply List.sum_nonneg
  intro x hx
  obtain ⟨y, _, rfl⟩ := List.mem_map.mp hx
  apply List.sum_nonneg
  intro z hz
  obtain ⟨w, _, rfl⟩ := List.mem_map.mp hz
  exact abs_nonneg _

theorem sadAt_self_zero (cfg : OpticalFlowConfig) (f : FrameTex) (bp : ℤ × ℤ) :
    sadAt cfg f f bp (0, 0) = 0 := by
  unfold sadAt
  apply List.sum_eq_zero
  intro x hx
  obtain ⟨y, _, rfl⟩ := List.mem_map.mp hx
  apply List.sum_eq_zero
  intro z hz
  obtain ⟨w, _, rfl⟩ := List.mem_map.mp hz
  simp

theorem considerOffset_fst_le (cfg : OpticalFlowConfig) (cur prev : FrameTex)
    (bp : ℤ × ℤ) (R : Nat) (b : ℚ × (ℤ × ℤ)) (off : ℤ × ℤ) :
    (considerOffset cfg cur prev bp R b off).1 ≤ b.1 := by
  unfold considerOffset
  split_ifs with h1 h2
  · exact le_of_lt h2
  · exact le_refl _
  · exact le_refl _

theorem foldl_considerOffset_fst_le (cfg : OpticalFlowConfig) (cur prev : FrameTex)
    (bp : ℤ × ℤ) (R : Nat) :
    ∀ (l : List (ℤ × ℤ)) (b : ℚ × (ℤ × ℤ)),
      (l.foldl (considerOffset cfg cur prev bp R) b).1 ≤ b.1 := by
  intro l
  induction l with
  | nil => intro b; exact le_refl _
  | cons o t ih =>
    intro b
    rw [List.foldl_cons]
    exact le_trans (ih _) (considerOffset_fst_le cfg cur prev bp R b o)

theorem considerOffset_inv (cfg : OpticalFlowConfig) (cur prev : FrameTex)
    (bp : ℤ × ℤ) (R : Nat) (b : ℚ × (ℤ × ℤ)) (off : ℤ × ℤ)
    (h : b.1 = initialBestSAD ∨ b.1 = sadAt cfg cur prev bp b.2) :
    (considerOffset cfg cur prev bp R b off).1 = initialBestSAD ∨
      (considerOffset cfg cur prev bp R b off).1 =
        sadAt cfg cur prev bp (considerOffset cfg cur prev bp R b off).2 := by
  unfold considerOffset
  split_ifs with h1 h2
  · right; rfl
  · exact h
  · exact h

theorem foldl_considerOffset_inv (cfg : OpticalFlowConfig) (cur prev : FrameTex)
    (bp : ℤ × ℤ) (R : Nat) :
    ∀ (l : List (ℤ × ℤ)) (b : ℚ × (ℤ × ℤ)),
      (b.1 = initialBestSAD ∨ b.1 = sadAt cfg cur prev bp b.2) →
      ((l.foldl (considerOffset cfg cur prev bp R) b).1 = initialBestSAD ∨
        (l.foldl (considerOffset cfg cur prev bp R) b).1 =
          sadAt cfg cur prev bp (l.foldl (considerOffset cfg cur prev bp R) b).2) := by
  intro l
  induction l with
  | nil => intro b h; exact h
  | cons o t ih =>
    intro b h
    rw [List.foldl_cons]
    exact ih _ (considerOffset_inv cfg cur prev bp R b o h)

theorem foldl_considerOffset_le_zero (cfg : OpticalFlowConfig) (cur prev : FrameTex)
    (bp : ℤ × ℤ) (R : Nat) :
    ∀ (l : List (ℤ × ℤ)) (b : ℚ × (ℤ × ℤ)) (z : ℤ × ℤ), z ∈ l →
      (∀ b' : ℚ × (ℤ × ℤ), (considerOffset cfg cur prev bp R b' z).1 ≤ 0) →
      (l.foldl (considerOffset cfg cur prev bp R) b).1 ≤ 0 := by
  intro l
  induction l with
  | nil => intro b z hz; exact absurd hz (List.not_mem_nil z)
  | cons o t ih =>
    intro b z hz hle
    rw [List.foldl_cons]
    rcases List.mem_cons.mp hz with rfl | hz'
    · exact le_trans (foldl_considerOffset_fst_le cfg cur prev bp R t _) (hle b)
    · exact ih _ z hz' hle

theorem considerOffset_center_le (cfg : OpticalFlowConfig) (f : FrameTex)
    (bp : ℤ × ℤ) (R : Nat) (b : ℚ × (ℤ × ℤ))
    (h : searchPosOk cfg bp (0, 0) = true) :
    (considerOffset cfg f f bp R b (0, 0)).1 ≤ 0 := by
  have hrad : offsetInRadius R (0, 0) = true := by
    simp only [offsetInRadius, decide_eq_true_eq]
    omega
  simp only [considerOffset, hrad, h, Bool.and_self, if_true]
  rw [sadAt_self_zero]
  split_ifs with hs
  · exact le_refl 0
  · exact not_lt.mp hs

theorem searchStep_center_zero_le (cfg : OpticalFlowConfig) (f : FrameTex)
    (bp : ℤ × ℤ) (R s : Nat) (b : ℚ × (ℤ × ℤ))
    (h : searchPosOk cfg bp (0, 0) = true) :
    (searchStep cfg f f bp R (0, 0) s b).1 ≤ 0 := by
  unfold searchStep
  have h9 : ((0 : ℤ), (0 : ℤ)) ∈ nineDeltas := by decide
  have hmem :=
    List.mem_map_of_mem
      (fun d : ℤ × ℤ =>
        (((0 : ℤ), (0 : ℤ)).1 + d.1 * (s : ℤ), ((0 : ℤ), (0 : ℤ)).2 + d.2 * (s : ℤ))) h9
  apply foldl_considerOffset_le_zero cfg f f bp R _ b _ hmem
  intro b'
  have hzero : ((fun d : ℤ × ℤ =>
      (((0 : ℤ), (0 : ℤ)).1 + d.1 * (s : ℤ), ((0 : ℤ), (0 : ℤ)).2 + d.2 * (s : ℤ)))
        ((0 : ℤ), (0 : ℤ)) : ℤ × ℤ) = (0, 0) := by
    norm_num
  rw [hzero]
  exact considerOffset_center_le cfg f bp R b' h

theorem threeStep_fst_le (cfg : OpticalFlowConfig) (cur prev : FrameTex)
    (bp : ℤ × ℤ) (R : Nat) :
    ∀ (fuel step : Nat) (center : ℤ × ℤ) (best : ℚ × (ℤ × ℤ)),
      (threeStep cfg cur prev bp R fuel step center best).1 ≤ best.1 := by
  intro fuel
  induction fuel with
  | zero => intro step center best; exact le_refl _
  | succ fu ih =>
    intro step center best
    simp only [threeStep]
    split_ifs with hstep
    · exact le_refl _
    · exact le_trans (ih _ _ _) (foldl_considerOffset_fst_le cfg cur prev bp R _ best)

theorem threeStep_inv (cfg : OpticalFlowConfig) (cur prev : FrameTex)
    (bp : ℤ × ℤ) (R : Nat) :
    ∀ (fuel step : Nat) (center : ℤ × ℤ) (best : ℚ × (ℤ × ℤ)),
      (best.1 = initialBestSAD ∨ best.1 = sadAt cfg cur prev bp best.2) →
      ((threeStep cfg cur prev bp R fuel step center best).1 = initialBestSAD ∨
        (threeStep cfg cur prev bp R fuel step center best).1 =
          sadAt cfg cur prev bp (threeStep cfg cur prev bp R fuel step center best).2) := by
  intro fuel
  induction fuel with
  | zero => intro step center best h; exact h
  | succ fu ih =>
    intro step center best h
    simp only [threeStep]
    split_ifs with hstep
    · exact h
    · exact ih _ _ _ (foldl_considerOffset_inv cfg cur prev bp R _ best h)

theorem threeStep_le_zero (cfg : OpticalFlowConfig) (f : FrameTex)
    (bp : ℤ × ℤ) (R : Nat) (fuel step : Nat) (hf : 1 ≤ fuel) (hs : 1 ≤ step)
    (b : ℚ × (ℤ × ℤ)) (h : searchPosOk cfg bp (0, 0) = true) :
    (threeStep cfg f f bp R fuel step (0, 0) b).1 ≤ 0 := by
  obtain ⟨fu, rfl⟩ : ∃ k, fuel = k + 1 := ⟨fuel - 1, by omega⟩
  simp only [threeStep]
  rw [if_neg (by omega : ¬ step = 0)]
  exact le_trans (threeStep_fst_le cfg f f bp R _ _ _ _)
    (searchStep_center_zero_le cfg f bp R step b h)

theorem refineStep_fst_le (cfg : OpticalFlowConfig) (cur prev : FrameTex)
    (bp : ℤ × ℤ) (R : Nat) (b : ℚ × (ℤ × ℤ)) :
    (refineStep cfg cur prev bp R b).1 ≤ b.1 := by
  unfold refineStep
  suffices hgen : ∀ (ds : List (ℤ × ℤ)) (b' : ℚ × (ℤ × ℤ)),
      ((ds.foldl (fun bb d =>
        considerOffset cfg cur prev bp R bb (bb.2.1 + d.1, bb.2.2 + d.2)) b')).1 ≤ b'.1 from
    hgen neighborDeltas b
  intro ds
  induction ds with
  | nil => intro b'; exact le_refl _
  | cons d t ih =>
    intro b'
    rw [List.foldl_cons]
    exact le_trans (ih _) (considerOffset_fst_le cfg cur prev bp R b' _)

theorem refineStep_inv (cfg : OpticalFlowConfig) (cur prev : FrameTex)
    (bp : ℤ × ℤ) (R : Nat) (b : ℚ × (ℤ × ℤ))
    (h : b.1 = initialBestSAD ∨ b.1 = sadAt cfg cur prev bp b.2) :
    ((refineStep cfg cur prev bp R b).1 = initialBestSAD ∨
      (refineStep cfg cur prev bp R b).1 =
        sadAt cfg cur prev bp (refineStep cfg cur prev bp R b).2) := by
  unfold refineStep
  suffices hgen : ∀ (ds : List (ℤ × ℤ)) (b' : ℚ × (ℤ × ℤ)),
      (b'.1 = initialBestSAD ∨ b'.1 = sadAt cfg cur prev bp b'.2) →
      (((ds.foldl (fun bb d =>
          considerOffset cfg cur prev bp R bb (bb.2.1 + d.1, bb.2.2 + d.2)) b')).1 = initialBestSAD ∨
        ((ds.foldl (fun bb d =>
          considerOffset cfg cur prev bp R bb (bb.2.1 + d.1, bb.2.2 + d.2)) b')).1 =
          sadAt cfg cur prev bp ((ds.foldl (fun bb d =>
            considerOffset cfg cur prev bp R bb (bb.2.1 + d.1, bb.2.2 + d.2)) b')).2) from
    hgen neighborDeltas b h
  intro ds
  induction ds with
  | nil => intro b' h'; exact h'
  | cons d t ih =>
    intro b' h'
    rw [List.foldl_cons]
    exact ih _ (considerOffset_inv cfg cur prev bp R b' _ h')

theorem final_best_zero_sad (cfg : OpticalFlowConfig) (f : FrameTex)
    (bp : ℤ × ℤ) (R : Nat) (fuel step : Nat) (hf : 1 ≤ fuel) (hs : 1 ≤ step)
    (h : searchPosOk cfg bp (0, 0) = true) :
    sadAt cfg f f bp
      ((refineStep cfg f f bp R
        (threeStep cfg f f bp R fuel step (0, 0) (initialBestSAD, (0, 0)))).2) = 0 := by
  have h1 : (threeStep cfg f f bp R fuel step (0, 0) (initialBestSAD, (0, 0))).1 ≤ 0 :=
    threeStep_le_zero cfg f bp R fuel step hf hs _ h
  have hinvT := threeStep_inv cfg f f bp R fuel step (0, 0) (initialBestSAD, (0, 0))
    (Or.inl rfl)
  generalize hT : threeStep cfg f f bp R fuel step (0, 0) (initialBestSAD, (0, 0)) = T at h1 hinvT ⊢
  have h2 := refineStep_fst_le cfg f f bp R T
  have h3 := refineStep_inv cfg f f bp R T hinvT
  rcases h3 with h3 | h3
  · exfalso
    have hle := le_trans h2 h1
    rw [h3] at hle
    norm_num [initialBestSAD] at hle
  · have h4 : (0 : ℚ) ≤ (refineStep cfg f f bp R T).1 := by
      rw [h3]
      exact sadAt_nonneg cfg f f bp _
    rw [← h3]
    exact le_antisymm (le_trans h2 h1) h4

/-- Claim C1 (amended): after an optical-flow dispatch whose `Previous`
and `Current` inputs are pixel-equal, the motion vector written at any
block whose zero offset passes the image bounds check is 16 times an
offset of zero SAD (a perfect luminance match) — but it need not be
`(0, 0)`: the search keeps the earliest-visited zero-SAD offset, and
for uniform frames the first in-bounds candidate `(-step, -step)` wins
at interior blocks. -/
theorem opticalFlow_identical_zero_sad (cfg : OpticalFlowConfig) (f : FrameTex)
    (gx gy : Nat)
    (h : searchPosOk cfg (8 * (gx : ℤ), 8 * (gy : ℤ)) (0, 0) = true) :
    sadAt cfg f f (8 * (gx : ℤ), 8 * (gy : ℤ)) (motionRawAt cfg f f gx gy) = 0 := by
  have hstep : 1 ≤ max (min cfg.searchRadius 16 / 2) 1 := le_max_right _ 1
  exact final_best_zero_sad cfg f (8 * (gx : ℤ), 8 * (gy : ℤ)) (min cfg.searchRadius 16)
    (max (min cfg.searchRadius 16 / 2) 1) (max (min cfg.searchRadius 16 / 2) 1)
    hstep hstep h

/-- Witness for C1's amended claim at the uniform 256x256 scenario,
block (1, 1). -/
theorem opticalFlow_identical_zero_sad_witness :
    searchPosOk cfg256 (8 * ((1 : Nat) : ℤ), 8 * ((1 : Nat) : ℤ)) (0, 0) = true ∧
    sadAt cfg256 uniformGray uniformGray (8 * ((1 : Nat) : ℤ), 8 * ((1 : Nat) : ℤ))
      (motionRawAt cfg256 uniformGray uniformGray 1 1) = 0 :=
  ⟨by decide, opticalFlow_identical_zero_sad cfg256 uniformGray 1 1 (by decide)⟩

set_option maxRecDepth 100000 in
/-- Counterexample to C1 as stated: on two uniform 256x256 frames of
RGB (128, 128, 128) with the source's search radius 16, the block at
group id (1, 1) receives motion vector (-128, -128) = 16 * (-8, -8),
not (0, 0): the three-step search visits the zero-SAD offset (-8, -8)
before (0, 0) and keeps it (the update is strict). -/
theorem opticalFlow_uniform_nonzero :
    motionAt cfg256 uniformGray uniformGray 1 1 = (-128, -128) ∧
    motionAt cfg256 uniformGray uniformGray 1 1 ≠ (0, 0) := by
  constructor
  · with_unfolding_all decide
  · with_unfolding_all decide

theorem foldl_snd_radius_zero (cfg : OpticalFlowConfig) (cur prev : FrameTex)
    (bp : ℤ × ℤ) :
    ∀ (l : List (ℤ × ℤ)),
      (∀ o ∈ l, o = ((0 : ℤ), (0 : ℤ)) ∨ offsetInRadius 0 o = false) →
      ∀ b : ℚ × (ℤ × ℤ), b.2 = (0, 0) →
      (l.foldl (considerOffset cfg cur prev bp 0) b).2 = (0, 0) := by
  intro l
  induction l with
  | nil => intro _ b hb; exact hb
  | cons o t ih =>
    intro hl b hb
    rw [List.foldl_cons]
    refine ih (fun o' ho' => hl o' (List.mem_cons_of_mem o ho')) _ ?_
    rcases hl o (List.mem_cons_self o t) with rfl | hro
    · unfold considerOffset
      split_ifs <;> simp [hb]
    · simp only [considerOffset, hro, Bool.false_and, Bool.false_eq_true, if_false]
      exact hb

theorem threeStep_snd_radius_zero (cfg : OpticalFlowConfig) (cur prev : FrameTex)
    (bp : ℤ × ℤ) :
    ∀ (fuel step : Nat) (center : ℤ × ℤ) (b : ℚ × (ℤ × ℤ)),
      center = (0, 0) → b.2 = (0, 0) →
      (threeStep cfg cur prev bp 0 fuel step center b).2 = (0, 0) := by
  intro fuel
  induction fuel with
  | zero => intro step center b _ hb; exact hb
  | succ fu ih =>
    intro step center b hc hb
    subst hc
    simp only [threeStep]
    split_ifs with hstep
    · exact hb
    · have hsnd : (searchStep cfg cur prev bp 0 (0, 0) step b).2 = (0, 0) := by
        unfold searchStep
        refine foldl_snd_radius_zero cfg cur prev bp _ ?_ b hb
        have hmap : nineDeltas.map
            (fun d => (((0 : ℤ), (0 : ℤ)).1 + d.1 * (step : ℤ),
              ((0 : ℤ), (0 : ℤ)).2 + d.2 * (step : ℤ))) =
            [(-(step : ℤ), -(step : ℤ)), (0, -(step : ℤ)), ((step : ℤ), -(step : ℤ)),
             (-(step : ℤ), 0), (0, 0), ((step : ℤ), 0),
             (-(step : ℤ), (step : ℤ)), (0, (step : ℤ)), ((step : ℤ), (step : ℤ))] := by
          simp [nineDeltas]
        rw [hmap]
        intro o ho
        simp only [List.mem_cons, List.not_mem_nil, or_false] at ho
        rcases ho with rfl | rfl | rfl | rfl | rfl | rfl | rfl | rfl | rfl <;>
          first
          | (left; rfl)
          | (right
             simp only [offsetInRadius, decide_eq_false_iff_not]
             intro hcon
             obtain ⟨h1, h2, h3, h4⟩ := hcon
             omega)
      exact ih (step / 2) _ _ hsnd hsnd

theorem refineStep_snd_radius_zero (cfg : OpticalFlowConfig) (cur prev : FrameTex)
    (bp : ℤ × ℤ) (b : ℚ × (ℤ × ℤ)) (hb : b.2 = (0, 0)) :
    (refineStep cfg cur prev bp 0 b).2 = (0, 0) := by
  unfold refineStep
  suffices hgen : ∀ (ds : List (ℤ × ℤ)),
      (∀ d ∈ ds, offsetInRadius 0 d = false) →
      ∀ b' : ℚ × (ℤ × ℤ), b'.2 = (0, 0) →
      ((ds.foldl (fun bb d =>
        considerOffset cfg cur prev bp 0 bb (bb.2.1 + d.1, bb.2.2 + d.2)) b')).2 = (0, 0) by
    refine hgen neighborDeltas ?_ b hb
    intro d hd
    fin_cases hd <;> decide
  intro ds
  induction ds with
  | nil => intro _ b' hb'; exact hb'
  | cons d t ih =>
    intro hds b' hb'
    rw [List.foldl_cons]
    refine ih (fun d' hd' => hds d' (List.mem_cons_of_mem d hd')) _ ?_
    have hoff : ((b'.2.1 + d.1, b'.2.2 + d.2) : ℤ × ℤ) = d := by
      rw [hb']
      simp
    rw [hoff]
    simp only [considerOffset, hds d (List.mem_cons_self d t), Bool.false_and,
      Bool.false_eq_true, if_false]
    exact hb'

/-- Claim C6: with `searchRadius = 0` every offset other than `(0, 0)`
fails the radius guard, so the dispatch writes the zero vector at every
block, for every pair of input frames. -/
theorem searchRadius_zero_motion (W H : Nat) (cur prev : FrameTex) (gx gy : Nat) :
    motionAt { width := W, height := H, searchRadius := 0 } cur prev gx gy = (0, 0) := by
  have hsnd := refineStep_snd_radius_zero { width := W, height := H, searchRadius := 0 }
    cur prev (8 * (gx : ℤ), 8 * (gy : ℤ))
    (threeStep { width := W, height := H, searchRadius := 0 } cur prev
      (8 * (gx : ℤ), 8 * (gy : ℤ)) 0 1 1 (0, 0) (initialBestSAD, (0, 0)))
    (threeStep_snd_radius_zero { width := W, height := H, searchRadius := 0 } cur prev
      (8 * (gx : ℤ), 8 * (gy : ℤ)) 1 1 (0, 0) (initialBestSAD, (0, 0)) rfl rfl)
  simp only [motionAt, motionRawAt]
  rw [show min ({ width := W, height := H, searchRadius := 0 } :
    OpticalFlowConfig).searchRadius 16 = 0 from rfl]
  rw [show max ((0 : Nat) / 2) 1 = 1 from rfl]
  rw [hsnd]
  norm_num

/-- Claim C3 (amended): the virtual-key round trip
`StringToVirtualKey(VirtualKeyToString(vk)) = vk` holds exactly for the
keys whose printed name the parser recognizes — F1-F12, the letters,
the digits, and the named keys listed in `roundTripKeys`.  It fails for
`CapsLock`, the numpad keys `Num0`-`Num9` and `Num* + - . /`, and
`ScrollLock`, whose names `StringToVirtualKey` does not handle. -/
theorem hotkey_roundTrip : ∀ vk ∈ roundTripKeys,
    stringToVirtualKey (virtualKeyToString vk) = vk := by
  decide

/-- Witness for C3's amended claim at `VK_F10 = 0x79`. -/
theorem hotkey_roundTrip_witness :
    (0x79 : Nat) ∈ roundTripKeys ∧
    stringToVirtualKey (virtualKeyToString 0x79) = 0x79 :=
  ⟨by decide, hotkey_roundTrip 0x79 (by decide)⟩

/-- Counterexample to C3 as stated: `VK_CAPITAL = 0x14` has the named
string form "CapsLock", but `StringToVirtualKey` does not recognize it
and returns 0. -/
theorem hotkey_capslock_no_roundTrip :
    virtualKeyToString 0x14 = "CapsLock".data ∧
    stringToVirtualKey "CapsLock".data = 0 ∧
    stringToVirtualKey (virtualKeyToString 0x14) ≠ 0x14 := by
  decide



/-! ## Round-trip lemmas for the configuration file -/

/-- A head only survives `dropWhile` when it fails the predicate. -/
theorem dropWhile_isWS_eq_self {l : List Char}
    (h : ∀ c, l.head? = some c → isWS c = false) : l.dropWhile isWS = l := by
  cases l with
  | nil => rfl
  | cons c t =>
    rw [List.dropWhile_cons]
    simp [h c rfl]

/-- The head of a list is a member. -/
theorem mem_of_head?_eq {l : List Char} {c : Char} (h : l.head? = some c) :
    c ∈ l := by
  cases l with
  | nil => simp at h
  | cons a t =>
    simp only [List.head?_cons, Option.some.injEq] at h
    subst h
    exact List.mem_cons_self a t

/-- The last element of a list is a member. -/
theorem mem_of_getLast?_eq {l : List Char} {c : Char} (h : l.getLast? = some c) :
    c ∈ l := by
  rw [← List.head?_reverse] at h
  exact List.mem_reverse.mp (mem_of_head?_eq h)

/-- `trim` is the identity when neither end is whitespace. -/
theorem trim_eq_self {l : List Char}
    (h1 : ∀ c, l.head? = some c → isWS c = false)
    (h2 : ∀ c, l.getLast? = some c → isWS c = false) : trim l = l := by
  unfold trim
  rw [dropWhile_isWS_eq_self h1]
  rw [dropWhile_isWS_eq_self (fun c hc =>
    h2 c (by rwa [List.head?_reverse] at hc))]
  exact List.reverse_reverse l

/-- `trim` is the identity on whitespace-free strings. -/
theorem trim_eq_self_of_all {l : List Char}
    (h : ∀ c ∈ l, isWS c = false) : trim l = l :=
  trim_eq_self (fun c hc => h c (mem_of_head?_eq hc))
    (fun c hc => h c (mem_of_getLast?_eq hc))

/-- `trim` eats one leading whitespace character. -/
theorem trim_cons_ws {c : Char} (l : List Char) (h : isWS c = true) :
    trim (c :: l) = trim l := by
  unfold trim
  rw [List.dropWhile_cons]
  simp [h]

/-- `getLast?` looks only at a nonempty right factor. -/
theorem getLast?_append_right {l2 : List Char} (l1 : List Char) (h : l2 ≠ []) :
    (l1 ++ l2).getLast? = l2.getLast? := by
  induction l1 with
  | nil => rfl
  | cons a t ih =>
    rw [List.cons_append]
    rw [← ih]
    cases h2 : t ++ l2 with
    | nil =>
      rcases List.append_eq_nil.mp h2 with ⟨-, h4⟩
      exact absurd h4 h
    | cons b r => exact List.getLast?_cons_cons

/-- `splitFirstEq` splits at the first `'='`. -/
theorem splitFirstEq_append :
    ∀ (k : List Char), '=' ∉ k → ∀ rest : List Char,
      splitFirstEq (k ++ '=' :: rest) = some (k, rest) := by
  intro k
  induction k with
  | nil =>
    intro _ rest
    simp [splitFirstEq]
  | cons c t ih =>
    intro hk rest
    have hc : ¬(c = '=') := fun hcc => hk (hcc ▸ List.mem_cons_self c t)
    have ht : '=' ∉ t := fun hm => hk (List.mem_cons_of_mem c hm)
    simp only [List.cons_append, splitFirstEq, List.append_eq]
    rw [if_neg hc, ih ht rest]
    rfl

/-- `stripQuotes` is the identity when the string does not start with `"`. -/
theorem stripQuotes_eq_self_of_head {l : List Char}
    (h : ∀ c, l.head? = some c → ¬(c = '"')) : stripQuotes l = l := by
  unfold stripQuotes
  split_ifs with hc
  · exact absurd rfl (h '"' hc.2.1)
  · rfl

/-- `stripQuotes` removes a full pair of surrounding quotes. -/
theorem stripQuotes_quoted (path : List Char) :
    stripQuotes ('"' :: (path ++ ['"'])) = path := by
  have hform : ('"' :: (path ++ ['"']) : List Char) = ('"' :: path) ++ ['"'] := by
    simp
  unfold stripQuotes
  rw [if_pos ?cond]
  case cond =>
    refine ⟨by simp, rfl, ?_⟩
    rw [hform, getLast?_append_right _ (by simp)]
    rfl
  rw [hform]
  rw [show (('"' :: path) ++ ['"'] : List Char).drop 1 = path ++ ['"'] from rfl]
  exact List.dropLast_concat

/-- The digit characters are digits. -/
theorem digitChar_isDigit {n : Nat} (h : n < 10) :
    isDigitChar (digitChar n) = true := by
  interval_cases n <;> decide

/-- Value of a digit character. -/
theorem digitChar_toNat {n : Nat} (h : n < 10) :
    (digitChar n).toNat = 48 + n := by
  interval_cases n <;> decide

/-- `renderNatAux` never returns the empty string. -/
theorem renderNatAux_ne_nil :
    ∀ fuel n : Nat, n < fuel → renderNatAux fuel n ≠ [] := by
  intro fuel
  induction fuel with
  | zero => intro n h; omega
  | succ f ih =>
    intro n h
    unfold renderNatAux
    split_ifs with h10
    · simp
    · simp

/-- `renderNatAux` emits decimal digits only. -/
theorem renderNatAux_digits :
    ∀ fuel n : Nat, n < fuel → ∀ c ∈ renderNatAux fuel n, isDigitChar c = true := by
  intro fuel
  induction fuel with
  | zero => intro n h; omega
  | succ f ih =>
    intro n h c hc
    unfold renderNatAux at hc
    split_ifs at hc with h10
    · simp only [List.mem_singleton] at hc
      subst hc
      exact digitChar_isDigit h10
    · rw [List.mem_append] at hc
      rcases hc with hc | hc
      · have hdiv : n / 10 < f := by
          have h2 := Nat.div_lt_self (by omega : 0 < n) (by omega : 1 < 10)
          omega
        exact ih (n / 10) hdiv c hc
      · simp only [List.mem_singleton] at hc
        subst hc
        exact digitChar_isDigit (Nat.mod_lt n (by omega))

/-- Appending one digit multiplies the value by ten. -/
theorem digitsVal_append_singleton (l : List Char) (c : Char) :
    digitsVal (l ++ [c]) = 10 * digitsVal l + (c.toNat - 48) := by
  unfold digitsVal
  rw [List.foldl_append]
  rfl

/-- `digitsVal` inverts `renderNatAux`. -/
theorem digitsVal_renderNatAux :
    ∀ fuel n : Nat, n < fuel → digitsVal (renderNatAux fuel n) = n := by
  intro fuel
  induction fuel with
  | zero => intro n h; omega
  | succ f ih =>
    intro n h
    unfold renderNatAux
    split_ifs with h10
    · show digitsVal [digitChar n] = n
      unfold digitsVal
      simp only [List.foldl_cons, List.foldl_nil]
      rw [digitChar_toNat h10]
      omega
    · rw [digitsVal_append_singleton]
      have hdiv : n / 10 < f := by
        have h2 := Nat.div_lt_self (by omega : 0 < n) (by omega : 1 < 10)
        omega
      rw [ih (n / 10) hdiv, digitChar_toNat (Nat.mod_lt n (by omega))]
      omega

/-- `renderNat` never returns the empty string. -/
theorem renderNat_ne_nil (n : Nat) : renderNat n ≠ [] :=
  renderNatAux_ne_nil (n + 1) n (by omega)

/-- `renderNat` emits decimal digits only. -/
theorem renderNat_digits (n : Nat) : ∀ c ∈ renderNat n, isDigitChar c = true :=
  renderNatAux_digits (n + 1) n (by omega)

/-- `digitsVal` inverts `renderNat`. -/
theorem digitsVal_renderNat (n : Nat) : digitsVal (renderNat n) = n :=
  digitsVal_renderNatAux (n + 1) n (by omega)

/-- Decimal digits are not whitespace. -/
theorem isWS_of_digit {c : Char} (h : isDigitChar c = true) : isWS c = false := by
  simp only [isDigitChar, decide_eq_true_eq] at h
  simp only [isWS, Bool.or_eq_false_iff, decide_eq_false_iff_not]
  refine ⟨⟨⟨fun hc => ?_, fun hc => ?_⟩, fun hc => ?_⟩, fun hc => ?_⟩ <;>
    (subst hc; exact absurd h (by decide))

/-- Decimal digits are not the quote character. -/
theorem not_quote_of_digit {c : Char} (h : isDigitChar c = true) : ¬(c = '"') := by
  intro hc
  subst hc
  simp [isDigitChar] at h

/-- `trim` leaves a rendered natural number alone. -/
theorem trim_renderNat (n : Nat) : trim (renderNat n) = renderNat n :=
  trim_eq_self_of_all (fun c hc => isWS_of_digit (renderNat_digits n c hc))

/-- `stripQuotes` leaves a rendered natural number alone. -/
theorem stripQuotes_renderNat (n : Nat) :
    stripQuotes (renderNat n) = renderNat n :=
  stripQuotes_eq_self_of_head
    (fun c hc => not_quote_of_digit (renderNat_digits n c (mem_of_head?_eq hc)))

/-- `takeWhile` keeps a list all of whose elements pass. -/
theorem takeWhile_all {p : Char → Bool} :
    ∀ {l : List Char}, (∀ c ∈ l, p c = true) → l.takeWhile p = l := by
  intro l
  induction l with
  | nil => intro _; rfl
  | cons a t ih =>
    intro h
    rw [List.takeWhile_cons]
    rw [h a (List.mem_cons_self a t)]
    simp only [if_true]
    rw [ih (fun c hc => h c (List.mem_cons_of_mem a hc))]

/-- A string with a digit head has no sign to split. -/
theorem splitSign_digit {l : List Char}
    (h : ∀ c, l.head? = some c → isDigitChar c = true) :
    splitSign l = (false, l) := by
  cases l with
  | nil => rfl
  | cons c t =>
    have hd := h c rfl
    show (if c = '-' then (true, t)
      else if c = '+' then (false, t) else (false, c :: t)) = (false, c :: t)
    rw [if_neg (fun hc : c = '-' => by subst hc; simp [isDigitChar] at hd)]
    rw [if_neg (fun hc : c = '+' => by subst hc; simp [isDigitChar] at hd)]

/-- `ParseUInt` inverts the decimal rendering of any in-range value. -/
theorem parseUInt_renderNat (n : Nat) (hn : n < 2 ^ 32) :
    parseUInt (renderNat n) = n := by
  unfold parseUInt
  rw [trim_renderNat]
  rw [splitSign_digit (fun c hc => renderNat_digits n c (mem_of_head?_eq hc))]
  rw [takeWhile_all (renderNat_digits n)]
  rw [if_neg (renderNat_ne_nil n)]
  rw [digitsVal_renderNat]
  rw [if_neg (by omega)]
  rfl

/-- A key/value line with a clean head is handled by `applyKV`. -/
theorem processLine_kv (sec : List Char) (st : AppSettings) (c : Char)
    (kr v : List Char) (hc1 : isWS c = false) (hc2 : ¬(c = '#'))
    (hc3 : ¬(c = ';')) (hc4 : ¬(c = '[')) (hkEq : '=' ∉ (c :: kr))
    (hne : v ≠ []) (hlast : ∀ d, v.getLast? = some d → isWS d = false) :
    processLine (sec, st) ((c :: kr) ++ '=' :: ' ' :: v) =
      (sec, applyKV sec (toLower (trim (c :: kr))) (stripQuotes (trim v)) st) := by
  have hline : trim ((c :: kr) ++ '=' :: ' ' :: v) = c :: (kr ++ '=' :: ' ' :: v) := by
    rw [← List.cons_append]
    apply trim_eq_self
    · intro d hd
      simp only [List.cons_append, List.head?_cons, Option.some.injEq] at hd
      rw [← hd]
      exact hc1
    · intro d hd
      apply hlast
      rw [getLast?_append_right (c :: kr) (by simp)] at hd
      rw [show ('=' :: ' ' :: v : List Char) = ['=', ' '] ++ v from rfl,
        getLast?_append_right _ hne] at hd
      exact hd
  have hsp : splitFirstEq (c :: (kr ++ '=' :: ' ' :: v)) = some (c :: kr, ' ' :: v) := by
    rw [← List.cons_append]
    exact splitFirstEq_append (c :: kr) hkEq (' ' :: v)
  simp only [processLine]
  rw [hline]
  simp only [processTrimmed]
  rw [if_neg (by simp [hc2, hc3])]
  rw [if_neg (fun hcon => hc4 hcon.1)]
  rw [hsp]
  show (sec, applyKV sec (toLower (trim (c :: kr)))
    (stripQuotes (trim (' ' :: v))) st) = _
  rw [@trim_cons_ws ' ' v (by decide)]

/-- One `getline` step of `splitLines`. -/
theorem splitLines_cons (c : Char) (r : List Char) :
    splitLines (c :: r) =
      if c = '\n' then [] :: splitLines r
      else match splitLines r with
        | [] => [[c]]
        | a :: as => (c :: a) :: as := rfl

/-- `splitLines` cuts exactly at a `'\n'` following a clean line. -/
theorem splitLines_append_newline :
    ∀ l : List Char, '\n' ∉ l → ∀ rest : List Char,
      splitLines (l ++ '\n' :: rest) = l :: splitLines rest := by
  intro l
  induction l with
  | nil =>
    intro _ rest
    rw [List.nil_append, splitLines_cons, if_pos rfl]
  | cons c r ih =>
    intro h rest
    have hc : ¬(c = '\n') := fun hcc => h (hcc ▸ List.mem_cons_self c r)
    have hr : '\n' ∉ r := fun hm => h (List.mem_cons_of_mem c hm)
    rw [List.cons_append, splitLines_cons, if_neg hc, ih hr rest]

/-- `std::getline` undoes the line writer on newline-free lines. -/
theorem splitLines_joinLines :
    ∀ ls : List (List Char), (∀ l ∈ ls, '\n' ∉ l) →
      splitLines (joinLines ls) = ls := by
  intro ls
  induction ls with
  | nil => intro _; rfl
  | cons l t ih =>
    intro h
    show splitLines (l ++ '\n' :: joinLines t) = l :: t
    rw [splitLines_append_newline l (h l (List.mem_cons_self l t)) (joinLines t)]
    rw [ih (fun m hm => h m (List.mem_cons_of_mem l hm))]

/-- A key/value line whose value is a rendered natural number. -/
theorem processLine_kv_nat (sec : List Char) (st : AppSettings) (c : Char)
    (kr : List Char) (n : Nat) (hc1 : isWS c = false) (hc2 : ¬(c = '#'))
    (hc3 : ¬(c = ';')) (hc4 : ¬(c = '[')) (hkEq : '=' ∉ (c :: kr)) :
    processLine (sec, st) ((c :: kr) ++ '=' :: ' ' :: renderNat n) =
      (sec, applyKV sec (toLower (trim (c :: kr))) (renderNat n) st) := by
  rw [processLine_kv sec st c kr (renderNat n) hc1 hc2 hc3 hc4 hkEq
    (renderNat_ne_nil n)
    (fun d hd => isWS_of_digit (renderNat_digits n d (mem_of_getLast?_eq hd)))]
  rw [trim_renderNat, stripQuotes_renderNat]

/-- The generated banner comment line is ignored. -/
theorem pl_comment1 (sec : List Char) (st : AppSettings) :
    processLine (sec, st) "# OSFG Configuration File".data = (sec, st) := rfl

/-- A blank line is ignored. -/
theorem pl_blank (sec : List Char) (st : AppSettings) :
    processLine (sec, st) [] = (sec, st) := rfl

/-- The `[FrameGen]` header switches the current section. -/
theorem pl_sec_framegen (sec : List Char) (st : AppSettings) :
    processLine (sec, st) "[FrameGen]".data = ("framegen".data, st) := rfl

/-- Digit-count bound for `renderNatAux`. -/
theorem renderNatAux_length_le :
    ∀ fuel n k : Nat, n < fuel → n < 10 ^ k → 1 ≤ k →
      (renderNatAux fuel n).length ≤ k := by
  intro fuel
  induction fuel with
  | zero => intro n k h; omega
  | succ f ih =>
    intro n k h hk hk1
    unfold renderNatAux
    split_ifs with h10
    · simpa using hk1
    · rw [List.length_append]
      cases k with
      | zero => omega
      | succ k0 =>
        have hk01 : 1 ≤ k0 := by
          rcases Nat.eq_zero_or_pos k0 with h0 | h0
          · rw [h0] at hk
            simp at hk
            omega
          · exact h0
        have hdivf : n / 10 < f := by
          have h2 := Nat.div_lt_self (by omega : 0 < n) (by omega : 1 < 10)
          omega
        have hdivk : n / 10 < 10 ^ k0 := by
          rw [Nat.div_lt_iff_lt_mul (by omega : 0 < 10)]
          calc n < 10 ^ (k0 + 1) := hk
          _ = 10 ^ k0 * 10 := by ring
        have hlen := ih (n / 10) k0 hdivf hdivk hk01
        simp only [List.length_singleton]
        omega

/-- Leading zero digits do not change the decimal value. -/
theorem digitsVal_replicate_zero_append :
    ∀ (m : Nat) (ds : List Char),
      digitsVal (List.replicate m '0' ++ ds) = digitsVal ds := by
  intro m
  induction m with
  | zero => intro ds; rfl
  | succ m ih =>
    intro ds
    show digitsVal ('0' :: (List.replicate m '0' ++ ds)) = digitsVal ds
    show digitsVal (List.replicate m '0' ++ ds) = digitsVal ds
    exact ih ds

/-- `padLeftZeros` keeps the decimal value. -/
theorem digitsVal_padLeftZeros (k : Nat) (ds : List Char) :
    digitsVal (padLeftZeros k ds) = digitsVal ds :=
  digitsVal_replicate_zero_append (k - ds.length) ds

/-- `padLeftZeros` reaches the requested width. -/
theorem padLeftZeros_length {k : Nat} {ds : List Char} (h : ds.length ≤ k) :
    (padLeftZeros k ds).length = k := by
  unfold padLeftZeros
  rw [List.length_append, List.length_replicate]
  omega

/-- `padLeftZeros` preserves digit-only strings. -/
theorem padLeftZeros_digits {k : Nat} {ds : List Char}
    (h : ∀ c ∈ ds, isDigitChar c = true) :
    ∀ c ∈ padLeftZeros k ds, isDigitChar c = true := by
  intro c hc
  unfold padLeftZeros at hc
  rw [List.mem_append] at hc
  rcases hc with hc | hc
  · rw [List.eq_of_mem_replicate hc]
    decide
  · exact h c hc

/-- `padLeftZeros` of a nonempty string is nonempty. -/
theorem padLeftZeros_ne_nil {k : Nat} {ds : List Char} (h : ds ≠ []) :
    padLeftZeros k ds ≠ [] := by
  intro hcon
  unfold padLeftZeros at hcon
  rcases List.append_eq_nil.mp hcon with ⟨-, h2⟩
  exact absurd h2 h

/-- `takeWhile` stops exactly at the first failing character. -/
theorem takeWhile_append_stop :
    ∀ {l1 : List Char} {c : Char} {l2 : List Char},
      (∀ x ∈ l1, isDigitChar x = true) → isDigitChar c = false →
      ((l1 ++ c :: l2).takeWhile isDigitChar) = l1 := by
  intro l1
  induction l1 with
  | nil =>
    intro c l2 _ hc
    rw [List.nil_append, List.takeWhile_cons, hc]
    rfl
  | cons a t ih =>
    intro c l2 h hc
    rw [List.cons_append, List.takeWhile_cons, h a (List.mem_cons_self a t)]
    simp only [if_true]
    rw [ih (fun x hx => h x (List.mem_cons_of_mem a hx)) hc]

/-- `parseQmantissa` of a pure digit string. -/
theorem parseQmantissa_digits (l : List Char) (hne : l ≠ [])
    (hd : ∀ c ∈ l, isDigitChar c = true) :
    parseQmantissa l = some ((digitsVal l : ℚ), []) := by
  have ht : l.takeWhile isDigitChar = l := takeWhile_all hd
  have hfrac : mantissaFrac l = [] := by
    unfold mantissaFrac
    rw [ht, List.drop_length]
  have hrest : mantissaRest l = [] := by
    unfold mantissaRest
    rw [ht, List.drop_length]
  unfold parseQmantissa
  rw [ht, hfrac, hrest]
  rw [if_neg (fun hx => hne hx.1)]
  norm_num [digitsVal]

/-- `parseQmantissa` of integer digits, a point and fractional digits. -/
theorem parseQmantissa_frac (ip fr : List Char) (hipne : ip ≠ [])
    (hip : ∀ c ∈ ip, isDigitChar c = true)
    (hfr : ∀ c ∈ fr, isDigitChar c = true) :
    parseQmantissa (ip ++ '.' :: fr) =
      some ((digitsVal ip : ℚ) + (digitsVal fr : ℚ) / 10 ^ fr.length, []) := by
  have ht : (ip ++ '.' :: fr).takeWhile isDigitChar = ip :=
    takeWhile_append_stop hip (by decide)
  have hdrop : (ip ++ '.' :: fr).drop ip.length = '.' :: fr :=
    List.drop_left ip ('.' :: fr)
  have htf : fr.takeWhile isDigitChar = fr := takeWhile_all hfr
  have hfrac : mantissaFrac (ip ++ '.' :: fr) = fr := by
    unfold mantissaFrac
    rw [ht, hdrop]
    show fr.takeWhile isDigitChar = fr
    exact htf
  have hrest : mantissaRest (ip ++ '.' :: fr) = [] := by
    unfold mantissaRest
    rw [ht, hdrop]
    show fr.drop (fr.takeWhile isDigitChar).length = []
    rw [htf, List.drop_length]
  unfold parseQmantissa
  rw [ht, hfrac, hrest]
  rw [if_neg (fun hx => hipne hx.1)]

/-- What `stripZeros` guarantees: a shorter digit count, a value with no
trailing zero, and preservation of the scaled fraction. -/
theorem stripZeros_spec :
    ∀ k f : Nat, f ≠ 0 → f < 10 ^ k →
      (stripZeros k f).2 ≠ 0 ∧ (stripZeros k f).2 < 10 ^ (stripZeros k f).1 ∧
      1 ≤ (stripZeros k f).1 ∧ (stripZeros k f).1 ≤ k ∧
      (stripZeros k f).2 * 10 ^ k = f * 10 ^ (stripZeros k f).1 := by
  intro k
  induction k with
  | zero =>
    intro f hf hlt
    simp at hlt
    omega
  | succ k0 ih =>
    intro f hf hlt
    unfold stripZeros
    split_ifs with hmod
    · have hdvd : 10 ∣ f := Nat.dvd_of_mod_eq_zero hmod
      have hf10 : f / 10 ≠ 0 := by
        rcases hdvd with ⟨c, hc⟩
        subst hc
        rw [Nat.mul_div_cancel_left c (by omega : 0 < 10)]
        intro hcon
        rw [hcon] at hf
        simp at hf
      have hlt10 : f / 10 < 10 ^ k0 := by
        rw [Nat.div_lt_iff_lt_mul (by omega : 0 < 10)]
        calc f < 10 ^ (k0 + 1) := hlt
        _ = 10 ^ k0 * 10 := by ring
      obtain ⟨h1, h2, h3, h4, h5⟩ := ih (f / 10) hf10 hlt10
      refine ⟨h1, h2, h3, by omega, ?_⟩
      have hff : 10 * (f / 10) = f := by
        rcases hdvd with ⟨c, hc⟩
        subst hc
        rw [Nat.mul_div_cancel_left c (by omega : 0 < 10)]
      calc (stripZeros k0 (f / 10)).2 * 10 ^ (k0 + 1)
          = (stripZeros k0 (f / 10)).2 * 10 ^ k0 * 10 := by ring
      _ = f / 10 * 10 ^ (stripZeros k0 (f / 10)).1 * 10 := by rw [h5]
      _ = 10 * (f / 10) * 10 ^ (stripZeros k0 (f / 10)).1 := by ring
      _ = f * 10 ^ (stripZeros k0 (f / 10)).1 := by rw [hff]
    · exact ⟨hf, hlt, by omega, le_refl _, rfl⟩

/-- Digit-count bound for `renderNat`. -/
theorem renderNat_length_le {n k : Nat} (h1 : n < 10 ^ k) (h2 : 1 ≤ k) :
    (renderNat n).length ≤ k :=
  renderNatAux_length_le (n + 1) n k (by omega) h1 h2

/-- Powers of ten over `ℚ` reflect exponent order. -/
theorem ten_zpow_lt {m n : ℤ} (h : (10 : ℚ) ^ m < 10 ^ n) : m < n := by
  by_contra hc
  push_neg at hc
  exact absurd (zpow_le_zpow_right₀ (by norm_num) hc) (not_le.mpr h)

/-- Powers of ten over `ℚ` are positive. -/
theorem ten_zpow_pos (m : ℤ) : (0 : ℚ) < 10 ^ m := by positivity

/-- `10^X` dominates `X + 1` for nonnegative exponents. -/
theorem ten_zpow_ge (X : ℤ) (hX : 0 ≤ X) : (X : ℚ) + 1 ≤ (10 : ℚ) ^ X := by
  have h1 : X.toNat + 1 ≤ 10 ^ X.toNat := Nat.lt_pow_self (by omega) X.toNat
  have h4 : (10 : ℚ) ^ X = ((10 ^ X.toNat : ℕ) : ℚ) := by
    push_cast
    rw [← zpow_natCast]
    congr 1
    omega
  have h5 : (X : ℚ) = ((X.toNat : ℕ) : ℚ) := by
    have h6 : (X.toNat : ℤ) = X := by omega
    exact_mod_cast h6.symm
  rw [h4, h5]
  exact_mod_cast h1

/-- Half-even rounding is the identity on integers. -/
theorem roundHE_intCast (k : ℤ) : roundHE (k : ℚ) = k := by
  unfold roundHE
  rw [Int.floor_intCast, sub_self, if_pos (by norm_num)]

/-- The exponent search returns the unique decimal exponent, given
enough fuel. -/
theorem g6expAux_spec :
    ∀ fuel : Nat, ∀ q : ℚ, ∀ X : ℤ, X.natAbs < fuel →
      (10 : ℚ) ^ X ≤ q → q < 10 ^ (X + 1) → g6expAux fuel q = X := by
  intro fuel
  induction fuel with
  | zero => intro q X h; omega
  | succ f ih =>
    intro q X hfuel hlo hhi
    unfold g6expAux
    split_ifs with h1 h10
    · have hX : X < 0 := by
        have h2 : (10 : ℚ) ^ X < 10 ^ (0 : ℤ) := by
          rw [zpow_zero]
          exact lt_of_le_of_lt hlo h1
        have := ten_zpow_lt h2
        omega
      have hlo' : (10 : ℚ) ^ (X + 1) ≤ 10 * q := by
        have h2 : (10 : ℚ) * 10 ^ X ≤ 10 * q :=
          mul_le_mul_of_nonneg_left hlo (by norm_num)
        rw [zpow_add_one₀ (by norm_num : (10 : ℚ) ≠ 0)]
        linarith
      have hhi' : 10 * q < 10 ^ (X + 1 + 1) := by
        have h2 : (10 : ℚ) * q < 10 * 10 ^ (X + 1) :=
          mul_lt_mul_of_pos_left hhi (by norm_num)
        rw [zpow_add_one₀ (by norm_num : (10 : ℚ) ≠ 0)]
        linarith
      rw [ih (10 * q) (X + 1) (by omega) hlo' hhi']
      ring
    · have hX : 1 ≤ X := by
        have h2 : (10 : ℚ) ^ (1 : ℤ) < 10 ^ (X + 1) := by
          rw [zpow_one]
          exact lt_of_le_of_lt h10 hhi
        have := ten_zpow_lt h2
        omega
      have hlo' : (10 : ℚ) ^ (X - 1) ≤ q / 10 := by
        rw [le_div_iff₀ (by norm_num : (0 : ℚ) < 10)]
        calc (10 : ℚ) ^ (X - 1) * 10 = 10 ^ (X - 1 + 1) := by
              rw [zpow_add_one₀ (by norm_num : (10 : ℚ) ≠ 0)]
        _ = 10 ^ X := by rw [show X - 1 + 1 = X from by ring]
        _ ≤ q := hlo
      have hhi' : q / 10 < 10 ^ (X - 1 + 1) := by
        rw [div_lt_iff₀ (by norm_num : (0 : ℚ) < 10)]
        rw [show X - 1 + 1 = X from by ring]
        calc q < 10 ^ (X + 1) := hhi
        _ = 10 ^ X * 10 := zpow_add_one₀ (by norm_num) X
      rw [ih (q / 10) (X - 1) (by omega) hlo' hhi']
      ring
    · have hge : (1 : ℚ) ≤ q := not_lt.mp h1
      have hltq : q < 10 := not_le.mp h10
      have hX1 : X < 1 := by
        have h2 : (10 : ℚ) ^ X < 10 ^ (1 : ℤ) := by
          rw [zpow_one]
          exact lt_of_le_of_lt hlo hltq
        exact ten_zpow_lt h2
      have hX0 : 0 < X + 1 := by
        have h2 : (10 : ℚ) ^ (0 : ℤ) < 10 ^ (X + 1) := by
          rw [zpow_zero]
          exact lt_of_le_of_lt hge hhi
        exact ten_zpow_lt h2
      omega

/-- `g6exp` computes the decimal exponent: its fuel always suffices. -/
theorem g6exp_eq (q : ℚ) (X : ℤ) (hlo : (10 : ℚ) ^ X ≤ q)
    (hhi : q < 10 ^ (X + 1)) : g6exp q = X := by
  have hq0 : 0 < q := lt_of_lt_of_le (ten_zpow_pos X) hlo
  have hnum0 : 0 < q.num := Rat.num_pos.mpr hq0
  have hden0 : (0 : ℚ) < (q.den : ℚ) := by exact_mod_cast q.pos
  have hqnum : (q.num : ℚ) = q * q.den := by
    have h0 := Rat.num_div_den q
    rw [div_eq_iff (ne_of_gt hden0)] at h0
    exact h0
  apply g6expAux_spec _ q X _ hlo hhi
  rcases le_or_lt 0 X with hX | hX
  · have hden1 : (1 : ℚ) ≤ (q.den : ℚ) := by
      exact_mod_cast q.pos
    have h2 : q ≤ (q.num : ℚ) := by
      rw [hqnum]
      exact le_mul_of_one_le_right (le_of_lt hq0) hden1
    have h3 : (X : ℚ) + 1 ≤ (q.num : ℚ) :=
      le_trans (ten_zpow_ge X hX) (le_trans hlo h2)
    have h4 : X + 1 ≤ q.num := by exact_mod_cast h3
    omega
  · have hinv : 1 / q ≤ (q.den : ℚ) := by
      rw [div_le_iff₀ hq0]
      rw [mul_comm ((q.den : ℚ)) q, ← hqnum]
      exact_mod_cast hnum0
    have h2 : (10 : ℚ) ^ (-X - 1) < 1 / q := by
      have ha : 1 / (10 : ℚ) ^ (X + 1) < 1 / q :=
        one_div_lt_one_div_of_lt hq0 hhi
      have hb : 1 / (10 : ℚ) ^ (X + 1) = 10 ^ (-X - 1) := by
        rw [show (-X - 1 : ℤ) = -(X + 1) from by ring, zpow_neg, one_div]
      rw [← hb]
      exact ha
    have h3 : ((-X - 1 : ℤ) : ℚ) + 1 ≤ (10 : ℚ) ^ (-X - 1) :=
      ten_zpow_ge (-X - 1) (by omega)
    push_cast at h3
    have h4 : ((-X : ℤ) : ℚ) < (q.den : ℚ) := by push_cast; linarith
    have h5 : (-X : ℤ) < (q.den : ℤ) := by exact_mod_cast h4
    omega

/-- `head?` looks only at a nonempty left factor. -/
theorem head?_append_left {l1 : List Char} (l2 : List Char) (h : l1 ≠ []) :
    (l1 ++ l2).head? = l1.head? := by
  cases l1 with
  | nil => exact absurd rfl h
  | cons a t => rfl

/-- `takeWhile` keeps a digit block, stopping at a non-digit suffix. -/
theorem takeWhile_append_notdigit {l suffix : List Char}
    (hl : ∀ x ∈ l, isDigitChar x = true)
    (hs : ∀ c, suffix.head? = some c → isDigitChar c = false) :
    (l ++ suffix).takeWhile isDigitChar = l := by
  cases suffix with
  | nil =>
    rw [List.append_nil]
    exact takeWhile_all hl
  | cons c r => exact takeWhile_append_stop hl (hs c rfl)

/-- `parseQmantissa` of a digit string and a non-mantissa suffix. -/
theorem parseQmantissa_digits_suffix (l suffix : List Char) (hne : l ≠ [])
    (hd : ∀ c ∈ l, isDigitChar c = true)
    (hs : ∀ c, suffix.head? = some c → isDigitChar c = false ∧ ¬(c = '.')) :
    parseQmantissa (l ++ suffix) = some ((digitsVal l : ℚ), suffix) := by
  have ht : (l ++ suffix).takeWhile isDigitChar = l :=
    takeWhile_append_notdigit hd (fun c hc => (hs c hc).1)
  have hdrop : (l ++ suffix).drop l.length = suffix := List.drop_left l suffix
  have hfrac : mantissaFrac (l ++ suffix) = [] := by
    unfold mantissaFrac
    rw [ht, hdrop]
    cases suffix with
    | nil => rfl
    | cons c r =>
      have hc := (hs c rfl).2
      split
      · rename_i r3 heq
        injection heq with h1 h2
        exact absurd h1 hc
      · rfl
  have hrest : mantissaRest (l ++ suffix) = suffix := by
    unfold mantissaRest
    rw [ht, hdrop]
    cases suffix with
    | nil => rfl
    | cons c r =>
      have hc := (hs c rfl).2
      split
      · rename_i r3 heq
        injection heq with h1 h2
        exact absurd h1 hc
      · rfl
  unfold parseQmantissa
  rw [ht, hfrac, hrest]
  rw [if_neg (fun hx => hne hx.1)]
  norm_num [digitsVal]

/-- `parseQmantissa` of digits, a point, digits and a non-digit suffix. -/
theorem parseQmantissa_frac_suffix (ip fr suffix : List Char) (hipne : ip ≠ [])
    (hip : ∀ c ∈ ip, isDigitChar c = true)
    (hfr : ∀ c ∈ fr, isDigitChar c = true)
    (hs : ∀ c, suffix.head? = some c → isDigitChar c = false) :
    parseQmantissa (ip ++ '.' :: (fr ++ suffix)) =
      some ((digitsVal ip : ℚ) + (digitsVal fr : ℚ) / 10 ^ fr.length,
        suffix) := by
  have ht : (ip ++ '.' :: (fr ++ suffix)).takeWhile isDigitChar = ip :=
    takeWhile_append_stop hip (by decide)
  have hdrop : (ip ++ '.' :: (fr ++ suffix)).drop ip.length =
      '.' :: (fr ++ suffix) :=
    List.drop_left ip _
  have htf : (fr ++ suffix).takeWhile isDigitChar = fr :=
    takeWhile_append_notdigit hfr hs
  have hfrac : mantissaFrac (ip ++ '.' :: (fr ++ suffix)) = fr := by
    unfold mantissaFrac
    rw [ht, hdrop]
    show (fr ++ suffix).takeWhile isDigitChar = fr
    exact htf
  have hrest : mantissaRest (ip ++ '.' :: (fr ++ suffix)) = suffix := by
    unfold mantissaRest
    rw [ht, hdrop]
    show (fr ++ suffix).drop ((fr ++ suffix).takeWhile isDigitChar).length =
      suffix
    rw [htf]
    exact List.drop_left fr suffix
  unfold parseQmantissa
  rw [ht, hfrac, hrest]
  rw [if_neg (fun hx => hipne hx.1)]

/-- Parsing the fixed-notation rendering of `n / 10^F` recovers the
value and leaves the suffix. -/
theorem renderFixed_eval (F n : Nat) (suffix : List Char)
    (hs : ∀ c, suffix.head? = some c → isDigitChar c = false ∧ ¬(c = '.')) :
    parseQmantissa (renderFixed F n ++ suffix) =
      some ((n : ℚ) / 10 ^ F, suffix) := by
  unfold renderFixed
  split_ifs with hmod
  · rw [parseQmantissa_digits_suffix _ _ (renderNat_ne_nil _)
      (renderNat_digits _) hs]
    rw [digitsVal_renderNat]
    have hdvd : 10 ^ F ∣ n := Nat.dvd_of_mod_eq_zero hmod
    rw [Nat.cast_div hdvd (by push_cast; positivity)]
    norm_num
  · rw [show (renderNat (n / 10 ^ F) ++ '.' ::
        padLeftZeros (stripZeros F (n % 10 ^ F)).1
          (renderNat (stripZeros F (n % 10 ^ F)).2)) ++ suffix =
      renderNat (n / 10 ^ F) ++ '.' ::
        (padLeftZeros (stripZeros F (n % 10 ^ F)).1
          (renderNat (stripZeros F (n % 10 ^ F)).2) ++ suffix) from by simp]
    generalize hKF : stripZeros F (n % 10 ^ F) = kf
    obtain ⟨hs1, hs2, hs3, hs4, hs5⟩ :=
      hKF ▸ stripZeros_spec F (n % 10 ^ F) hmod (Nat.mod_lt _ (by positivity))
    rw [parseQmantissa_frac_suffix _ _ _ (renderNat_ne_nil _)
      (renderNat_digits _) (padLeftZeros_digits (renderNat_digits _))
      (fun c hc => (hs c hc).1)]
    rw [digitsVal_renderNat, digitsVal_padLeftZeros, digitsVal_renderNat]
    rw [padLeftZeros_length (renderNat_length_le hs2 hs3)]
    have hF0 : ((10 : ℚ)) ^ F ≠ 0 := by positivity
    have hk0 : ((10 : ℚ)) ^ kf.1 ≠ 0 := by positivity
    have key : (kf.2 : ℚ) / 10 ^ kf.1 = ((n % 10 ^ F : ℕ) : ℚ) / 10 ^ F := by
      rw [div_eq_div_iff hk0 hF0]
      exact_mod_cast hs5
    have hnd : (n : ℚ) =
        10 ^ F * ((n / 10 ^ F : ℕ) : ℚ) + ((n % 10 ^ F : ℕ) : ℚ) := by
      exact_mod_cast (Nat.div_add_mod n (10 ^ F)).symm
    have hval : ((n / 10 ^ F : ℕ) : ℚ) + (kf.2 : ℚ) / 10 ^ kf.1 =
        (n : ℚ) / 10 ^ F := by
      rw [key]
      conv_rhs => rw [hnd]
      rw [add_div, mul_div_cancel_left₀ _ hF0]
    rw [hval]

/-- Parsing the printed exponent suffix recovers the exponent. -/
theorem parseQexponent_render (X : ℤ) :
    parseQexponent ('e' :: renderExpSuffix X) = X := by
  have hpad : ∀ c ∈ padLeftZeros 2 (renderNat X.natAbs), isDigitChar c = true :=
    padLeftZeros_digits (renderNat_digits _)
  have hpne : padLeftZeros 2 (renderNat X.natAbs) ≠ [] :=
    padLeftZeros_ne_nil (renderNat_ne_nil _)
  have htw : (padLeftZeros 2 (renderNat X.natAbs)).takeWhile isDigitChar =
      padLeftZeros 2 (renderNat X.natAbs) := takeWhile_all hpad
  have hdv : digitsVal (padLeftZeros 2 (renderNat X.natAbs)) = X.natAbs := by
    rw [digitsVal_padLeftZeros, digitsVal_renderNat]
  simp only [parseQexponent]
  rw [if_pos (Or.inl trivial)]
  unfold renderExpSuffix
  rcases lt_or_le X 0 with hX | hX
  · rw [if_pos hX]
    rw [show (splitSign ('-' :: padLeftZeros 2 (renderNat X.natAbs))).2 =
      padLeftZeros 2 (renderNat X.natAbs) from rfl]
    rw [show (splitSign ('-' :: padLeftZeros 2 (renderNat X.natAbs))).1 =
      true from rfl]
    rw [htw, if_neg hpne, if_pos rfl, hdv]
    omega
  · rw [if_neg (not_lt.mpr hX)]
    rw [show (splitSign ('+' :: padLeftZeros 2 (renderNat X.natAbs))).2 =
      padLeftZeros 2 (renderNat X.natAbs) from rfl]
    rw [show (splitSign ('+' :: padLeftZeros 2 (renderNat X.natAbs))).1 =
      false from rfl]
    rw [htw, if_neg hpne, if_neg Bool.false_ne_true, hdv]
    omega

/-- Characters of `renderFixed` are digits or the decimal point. -/
theorem renderFixed_chars (F n : Nat) :
    ∀ c ∈ renderFixed F n, isDigitChar c = true ∨ c = '.' := by
  intro c hc
  unfold renderFixed at hc
  split_ifs at hc
  · exact Or.inl (renderNat_digits _ c hc)
  · rw [List.mem_append] at hc
    rcases hc with hc | hc
    · exact Or.inl (renderNat_digits _ c hc)
    · rw [List.mem_cons] at hc
      rcases hc with hc | hc
      · exact Or.inr hc
      · exact Or.inl (padLeftZeros_digits (renderNat_digits _) c hc)

/-- `renderFixed` never returns the empty string. -/
theorem renderFixed_ne_nil (F n : Nat) : renderFixed F n ≠ [] := by
  unfold renderFixed
  split_ifs
  · exact renderNat_ne_nil _
  · intro hcon
    rcases List.append_eq_nil.mp hcon with ⟨-, h2⟩
    exact absurd h2 (by simp)

/-- `renderFixed` starts with a digit. -/
theorem renderFixed_head_digit (F n : Nat) :
    ∀ c, (renderFixed F n).head? = some c → isDigitChar c = true := by
  intro c hc
  unfold renderFixed at hc
  split_ifs at hc
  · exact renderNat_digits _ c (mem_of_head?_eq hc)
  · rw [head?_append_left _ (renderNat_ne_nil _)] at hc
    exact renderNat_digits _ c (mem_of_head?_eq hc)

/-- Characters of the exponent suffix. -/
theorem renderExpSuffix_chars (e : ℤ) :
    ∀ c ∈ renderExpSuffix e, isDigitChar c = true ∨ c = '+' ∨ c = '-' := by
  intro c hc
  unfold renderExpSuffix at hc
  rw [List.mem_cons] at hc
  rcases hc with hc | hc
  · subst hc
    split_ifs
    · exact Or.inr (Or.inr rfl)
    · exact Or.inr (Or.inl rfl)
  · exact Or.inl (padLeftZeros_digits (renderNat_digits _) c hc)

/-- Characters of `renderG6nn`. -/
theorem renderG6nn_chars (q : ℚ) :
    ∀ c ∈ renderG6nn q, isDigitChar c = true ∨ c = '.' ∨ c = 'e' ∨
      c = '+' ∨ c = '-' := by
  intro c hc
  unfold renderG6nn at hc
  split_ifs at hc
  · rw [show ("0".data : List Char) = ['0'] from rfl, List.mem_singleton] at hc
    subst hc
    exact Or.inl (by decide)
  · rcases renderFixed_chars _ _ c hc with h | h
    · exact Or.inl h
    · exact Or.inr (Or.inl h)
  · rw [List.mem_append] at hc
    rcases hc with hc | hc
    · rcases renderFixed_chars _ _ c hc with h | h
      · exact Or.inl h
      · exact Or.inr (Or.inl h)
    · rw [List.mem_cons] at hc
      rcases hc with hc | hc
      · exact Or.inr (Or.inr (Or.inl hc))
      · rcases renderExpSuffix_chars _ c hc with h | h | h
        · exact Or.inl h
        · exact Or.inr (Or.inr (Or.inr (Or.inl h)))
        · exact Or.inr (Or.inr (Or.inr (Or.inr h)))

/-- No character of `renderG6nn` is whitespace. -/
theorem renderG6nn_not_ws (q : ℚ) : ∀ c ∈ renderG6nn q, isWS c = false := by
  intro c hc
  rcases renderG6nn_chars q c hc with h | h | h | h | h
  · exact isWS_of_digit h
  all_goals (subst h; decide)

/-- `renderG6nn` never returns the empty string. -/
theorem renderG6nn_ne_nil (q : ℚ) : renderG6nn q ≠ [] := by
  unfold renderG6nn
  split_ifs
  · decide
  · exact renderFixed_ne_nil _ _
  · intro hcon
    rcases List.append_eq_nil.mp hcon with ⟨h1, -⟩
    exact absurd h1 (renderFixed_ne_nil _ _)

/-- `renderG6nn` starts with a digit. -/
theorem renderG6nn_head_digit (q : ℚ) :
    ∀ c, (renderG6nn q).head? = some c → isDigitChar c = true := by
  intro c hc
  unfold renderG6nn at hc
  split_ifs at hc
  · rw [show ("0".data : List Char) = ['0'] from rfl] at hc
    simp only [List.head?_cons, Option.some.injEq] at hc
    subst hc
    decide
  · exact renderFixed_head_digit _ _ c hc
  · rw [head?_append_left _ (renderFixed_ne_nil _ _)] at hc
    exact renderFixed_head_digit _ _ c hc

/-- The `%g` rendering of an exactly representable positive value
parses back to a mantissa and exponent that reconstruct it. -/
theorem renderG6nn_parses (q : ℚ) (m : Nat) (X : ℤ)
    (h1 : 10 ^ 5 ≤ m) (h2 : m < 10 ^ 6)
    (hq : q = (m : ℚ) * 10 ^ (X - 5)) :
    ∃ p : ℚ × List Char, parseQmantissa (renderG6nn q) = some p ∧
      p.1 * (10 : ℚ) ^ parseQexponent p.2 = q := by
  have hm5 : ((10 : ℚ)) ^ (5 : ℕ) ≤ (m : ℚ) := by exact_mod_cast h1
  have hm6 : ((m : ℚ)) < 10 ^ (6 : ℕ) := by exact_mod_cast h2
  have hq0 : 0 < q := by
    rw [hq]
    apply mul_pos _ (ten_zpow_pos _)
    calc (0 : ℚ) < 10 ^ (5 : ℕ) := by positivity
    _ ≤ m := hm5
  have hXlo : (10 : ℚ) ^ X ≤ q := by
    rw [hq]
    have e1 : (10 : ℚ) ^ X = 10 ^ (5 : ℕ) * 10 ^ (X - 5) := by
      rw [show ((10 : ℚ) ^ (5 : ℕ)) = (10 : ℚ) ^ ((5 : ℤ)) from by
        rw [← zpow_natCast]; norm_num]
      rw [← zpow_add₀ (by norm_num : (10 : ℚ) ≠ 0)]
      rw [show (5 : ℤ) + (X - 5) = X from by ring]
    rw [e1]
    exact mul_le_mul_of_nonneg_right hm5 (le_of_lt (ten_zpow_pos _))
  have hXhi : q < 10 ^ (X + 1) := by
    rw [hq]
    have e2 : (10 : ℚ) ^ (X + 1) = 10 ^ (6 : ℕ) * 10 ^ (X - 5) := by
      rw [show ((10 : ℚ) ^ (6 : ℕ)) = (10 : ℚ) ^ ((6 : ℤ)) from by
        rw [← zpow_natCast]; norm_num]
      rw [← zpow_add₀ (by norm_num : (10 : ℚ) ≠ 0)]
      rw [show (6 : ℤ) + (X - 5) = X + 1 from by ring]
    rw [e2]
    exact mul_lt_mul_of_pos_right hm6 (ten_zpow_pos _)
  have hXq : g6exp q = X := g6exp_eq q X hXlo hXhi
  have hscale : q * 10 ^ ((5 : ℤ) - X) = (m : ℚ) := by
    rw [hq, mul_assoc, ← zpow_add₀ (by norm_num : (10 : ℚ) ≠ 0),
      show X - 5 + (5 - X) = 0 from by ring, zpow_zero, mul_one]
  have hgm : g6m q = m := by
    unfold g6m
    rw [hXq, hscale]
    rw [show ((m : ℕ) : ℚ) = (((m : ℕ) : ℤ) : ℚ) from by push_cast; ring]
    rw [roundHE_intCast]
    omega
  have hne6 : g6m q ≠ 10 ^ 6 := by
    rw [hgm]
    exact Nat.ne_of_lt h2
  have hadjX : g6adjExp q = X := by
    unfold g6adjExp
    rw [if_neg hne6, hXq]
  have hadjM : g6adjM q = m := by
    unfold g6adjM
    rw [if_neg hne6, hgm]
  unfold renderG6nn
  rw [if_neg (ne_of_gt hq0), hadjX, hadjM]
  split_ifs with hrange
  · refine ⟨((m : ℚ) / 10 ^ ((5 : ℤ) - X).toNat, []), ?_, ?_⟩
    · rw [show renderFixed ((5 : ℤ) - X).toNat m =
        renderFixed ((5 : ℤ) - X).toNat m ++ [] from (List.append_nil _).symm]
      exact renderFixed_eval _ _ [] (fun c hc => by simp at hc)
    · show (m : ℚ) / 10 ^ ((5 : ℤ) - X).toNat *
        (10 : ℚ) ^ parseQexponent [] = q
      rw [show parseQexponent [] = 0 from rfl, zpow_zero, mul_one, hq]
      rw [show ((10 : ℚ) ^ ((5 : ℤ) - X).toNat) = (10 : ℚ) ^ ((5 : ℤ) - X)
        from by rw [← zpow_natCast]; congr 1; omega]
      rw [div_eq_mul_inv, ← zpow_neg]
      congr 1
      congr 1
      omega
  · refine ⟨((m : ℚ) / 10 ^ (5 : ℕ), 'e' :: renderExpSuffix X), ?_, ?_⟩
    · exact renderFixed_eval 5 m ('e' :: renderExpSuffix X)
        (fun c hc => by
          simp only [List.head?_cons, Option.some.injEq] at hc
          subst hc
          exact ⟨by decide, by decide⟩)
    · show (m : ℚ) / 10 ^ (5 : ℕ) *
        (10 : ℚ) ^ parseQexponent ('e' :: renderExpSuffix X) = q
      rw [parseQexponent_render, hq]
      rw [div_mul_eq_mul_div, mul_div_assoc]
      congr 1
      rw [show ((10 : ℚ) ^ (5 : ℕ)) = (10 : ℚ) ^ ((5 : ℤ)) from by
        rw [← zpow_natCast]; norm_num]
      rw [← zpow_sub₀ (by norm_num : (10 : ℚ) ≠ 0)]

/-- `ParseFloat` inverts the `%g` rendering of any value the
six-significant-digit formatting represents exactly. -/
theorem parseQ_renderQ (q : ℚ) (h : exactG6 q) : parseQ (renderQ q) = q := by
  rcases h with h0 | ⟨m, X, h1, h2, hpm | hpm⟩
  · subst h0
    with_unfolding_all decide
  · have hq0 : 0 < q := by
      rw [hpm]
      apply mul_pos _ (ten_zpow_pos _)
      have h3 : ((10 : ℚ)) ^ (5 : ℕ) ≤ (m : ℚ) := by exact_mod_cast h1
      calc (0 : ℚ) < 10 ^ (5 : ℕ) := by positivity
      _ ≤ m := h3
    unfold parseQ renderQ
    rw [if_neg (not_lt.mpr (le_of_lt hq0))]
    rw [trim_eq_self_of_all (renderG6nn_not_ws q)]
    rw [splitSign_digit (renderG6nn_head_digit q)]
    obtain ⟨p, hp1, hp2⟩ := renderG6nn_parses q m X h1 h2 hpm
    rw [hp1]
    show p.1 * (10 : ℚ) ^ parseQexponent p.2 = q
    exact hp2
  · have hmq : -q = (m : ℚ) * 10 ^ (X - 5) := by rw [hpm]; ring
    have hq0 : q < 0 := by
      have h3 : ((10 : ℚ)) ^ (5 : ℕ) ≤ (m : ℚ) := by exact_mod_cast h1
      have h4 : (0 : ℚ) < (m : ℚ) * 10 ^ (X - 5) := by
        apply mul_pos _ (ten_zpow_pos _)
        calc (0 : ℚ) < 10 ^ (5 : ℕ) := by positivity
        _ ≤ m := h3
      rw [hpm]
      linarith
    unfold parseQ renderQ
    rw [if_pos hq0]
    have htr : trim ('-' :: renderG6nn (-q)) = '-' :: renderG6nn (-q) := by
      apply trim_eq_self
      · intro c hc
        simp only [List.head?_cons, Option.some.injEq] at hc
        subst hc
        decide
      · intro c hc
        rw [show ('-' :: renderG6nn (-q) : List Char) =
          ['-'] ++ renderG6nn (-q) from rfl,
          getLast?_append_right _ (renderG6nn_ne_nil _)] at hc
        exact renderG6nn_not_ws (-q) c (mem_of_getLast?_eq hc)
    rw [htr]
    rw [show splitSign ('-' :: renderG6nn (-q)) =
      (true, renderG6nn (-q)) from rfl]
    obtain ⟨p, hp1, hp2⟩ := renderG6nn_parses (-q) m X h1 h2 hmq
    rw [hp1]
    show -(p.1 * (10 : ℚ) ^ parseQexponent p.2) = q
    rw [hp2]
    ring

/-- `renderQ` never returns the empty string. -/
theorem renderQ_ne_nil (q : ℚ) : renderQ q ≠ [] := by
  unfold renderQ
  split_ifs
  · simp
  · exact renderG6nn_ne_nil q

/-- No character of `renderQ` is whitespace. -/
theorem renderQ_not_ws (q : ℚ) : ∀ c ∈ renderQ q, isWS c = false := by
  intro c hc
  unfold renderQ at hc
  split_ifs at hc
  · rw [List.mem_cons] at hc
    rcases hc with hc | hc
    · subst hc
      decide
    · exact renderG6nn_not_ws _ c hc
  · exact renderG6nn_not_ws q c hc

/-- `trim` leaves a rendered rational alone. -/
theorem trim_renderQ (q : ℚ) : trim (renderQ q) = renderQ q :=
  trim_eq_self_of_all (renderQ_not_ws q)

/-- `stripQuotes` leaves a rendered rational alone. -/
theorem stripQuotes_renderQ (q : ℚ) : stripQuotes (renderQ q) = renderQ q := by
  apply stripQuotes_eq_self_of_head
  intro c hc
  unfold renderQ at hc
  split_ifs at hc
  · simp only [List.head?_cons, Option.some.injEq] at hc
    subst hc
    decide
  · exact not_quote_of_digit (renderG6nn_head_digit q c hc)

/-- Zero is exactly representable. -/
theorem exactG6_zero : exactG6 0 := Or.inl rfl

/-- One half is exactly representable (`500000 · 10^(-6)`). -/
theorem exactG6_half : exactG6 (1 / 2) := by
  refine Or.inr ⟨500000, -1, by norm_num, by norm_num, Or.inl ?_⟩
  norm_num

/-- One is exactly representable (`100000 · 10^(-5)`). -/
theorem exactG6_one : exactG6 1 := by
  refine Or.inr ⟨100000, 0, by norm_num, by norm_num, Or.inl ?_⟩
  norm_num

/-- A key/value line whose value is a rendered rational. -/
theorem processLine_kv_q (sec : List Char) (st : AppSettings) (c : Char)
    (kr : List Char) (q : ℚ) (hc1 : isWS c = false) (hc2 : ¬(c = '#'))
    (hc3 : ¬(c = ';')) (hc4 : ¬(c = '[')) (hkEq : '=' ∉ (c :: kr)) :
    processLine (sec, st) ((c :: kr) ++ '=' :: ' ' :: renderQ q) =
      (sec, applyKV sec (toLower (trim (c :: kr))) (renderQ q) st) := by
  rw [processLine_kv sec st c kr (renderQ q) hc1 hc2 hc3 hc4 hkEq
    (renderQ_ne_nil q)
    (fun d hd => renderQ_not_ws q d (mem_of_getLast?_eq hd))]
  rw [trim_renderQ, stripQuotes_renderQ]

/-- The second generated comment line is ignored. -/
theorem pl_comment2 (sec : List Char) (st : AppSettings) :
    processLine (sec, st) "# Generated automatically - edit with care".data =
      (sec, st) := rfl

/-- The `[Capture]` header switches the current section. -/
theorem pl_sec_capture (sec : List Char) (st : AppSettings) :
    processLine (sec, st) "[Capture]".data = ("capture".data, st) := rfl

/-- The `[GPU]` header switches the current section. -/
theorem pl_sec_gpu (sec : List Char) (st : AppSettings) :
    processLine (sec, st) "[GPU]".data = ("gpu".data, st) := rfl

/-- The `[OpticalFlow]` header switches the current section. -/
theorem pl_sec_of (sec : List Char) (st : AppSettings) :
    processLine (sec, st) "[OpticalFlow]".data = ("opticalflow".data, st) := rfl

/-- The `[Presentation]` header switches the current section. -/
theorem pl_sec_pres (sec : List Char) (st : AppSettings) :
    processLine (sec, st) "[Presentation]".data = ("presentation".data, st) := rfl

/-- The `[Overlay]` header switches the current section. -/
theorem pl_sec_overlay (sec : List Char) (st : AppSettings) :
    processLine (sec, st) "[Overlay]".data = ("overlay".data, st) := rfl

/-- The `[Hotkeys]` header switches the current section. -/
theorem pl_sec_hotkeys (sec : List Char) (st : AppSettings) :
    processLine (sec, st) "[Hotkeys]".data = ("hotkeys".data, st) := rfl

/-- The `[Advanced]` header switches the current section. -/
theorem pl_sec_advanced (sec : List Char) (st : AppSettings) :
    processLine (sec, st) "[Advanced]".data = ("advanced".data, st) := rfl

/-- The `Enabled` line restores the written boolean. -/
theorem pl_fg_enabled
    (a1 : FrameGenMode) (a2 : Bool) (a3 : ℚ) (a4 : CaptureMethod)
    (a5 : Nat) (a6 : Bool) (a7 : GPUMode) (a8 : Nat) (a9 : Nat) (a10 : Nat)
    (a11 : Nat) (a12 : ℚ) (a13 : Bool) (a14 : Bool) (a15 : Nat) (a16 : Nat)
    (a17 : Bool) (a18 : Bool) (a19 : Bool) (a20 : Bool) (a21 : Nat)
    (a22 : ℚ) (a23 : Nat) (a24 : Nat) (a25 : Nat) (a26 : Bool) (a27 : Nat)
    (a28 : Bool) (a29 : Bool) (a30 : List Char)
    (b : Bool) :
    processLine ("framegen".data,
      (AppSettings.mk a1 a2 a3 a4 a5 a6 a7 a8 a9 a10 a11 a12 a13 a14 a15
      a16 a17 a18 a19 a20 a21 a22 a23 a24 a25 a26 a27 a28 a29 a30))
        ("Enabled = ".data ++ renderBool b) =
      ("framegen".data,
      (AppSettings.mk a1 b a3 a4 a5 a6 a7 a8 a9 a10 a11 a12 a13 a14 a15 a16
      a17 a18 a19 a20 a21 a22 a23 a24 a25 a26 a27 a28 a29 a30)) := by
  cases b <;> rfl

/-- The `Cursor` line restores the written boolean. -/
theorem pl_cap_cursor
    (a1 : FrameGenMode) (a2 : Bool) (a3 : ℚ) (a4 : CaptureMethod)
    (a5 : Nat) (a6 : Bool) (a7 : GPUMode) (a8 : Nat) (a9 : Nat) (a10 : Nat)
    (a11 : Nat) (a12 : ℚ) (a13 : Bool) (a14 : Bool) (a15 : Nat) (a16 : Nat)
    (a17 : Bool) (a18 : Bool) (a19 : Bool) (a20 : Bool) (a21 : Nat)
    (a22 : ℚ) (a23 : Nat) (a24 : Nat) (a25 : Nat) (a26 : Bool) (a27 : Nat)
    (a28 : Bool) (a29 : Bool) (a30 : List Char)
    (b : Bool) :
    processLine ("capture".data,
      (AppSettings.mk a1 a2 a3 a4 a5 a6 a7 a8 a9 a10 a11 a12 a13 a14 a15
      a16 a17 a18 a19 a20 a21 a22 a23 a24 a25 a26 a27 a28 a29 a30))
        ("Cursor = ".data ++ renderBool b) =
      ("capture".data,
      (AppSettings.mk a1 a2 a3 a4 a5 b a7 a8 a9 a10 a11 a12 a13 a14 a15 a16
      a17 a18 a19 a20 a21 a22 a23 a24 a25 a26 a27 a28 a29 a30)) := by
  cases b <;> rfl

/-- The `VSync` line restores the written boolean. -/
theorem pl_pres_vsync
    (a1 : FrameGenMode) (a2 : Bool) (a3 : ℚ) (a4 : CaptureMethod)
    (a5 : Nat) (a6 : Bool) (a7 : GPUMode) (a8 : Nat) (a9 : Nat) (a10 : Nat)
    (a11 : Nat) (a12 : ℚ) (a13 : Bool) (a14 : Bool) (a15 : Nat) (a16 : Nat)
    (a17 : Bool) (a18 : Bool) (a19 : Bool) (a20 : Bool) (a21 : Nat)
    (a22 : ℚ) (a23 : Nat) (a24 : Nat) (a25 : Nat) (a26 : Bool) (a27 : Nat)
    (a28 : Bool) (a29 : Bool) (a30 : List Char)
    (b : Bool) :
    processLine ("presentation".data,
      (AppSettings.mk a1 a2 a3 a4 a5 a6 a7 a8 a9 a10 a11 a12 a13 a14 a15
      a16 a17 a18 a19 a20 a21 a22 a23 a24 a25 a26 a27 a28 a29 a30))
        ("VSync = ".data ++ renderBool b) =
      ("presentation".data,
      (AppSettings.mk a1 a2 a3 a4 a5 a6 a7 a8 a9 a10 a11 a12 b a14 a15 a16
      a17 a18 a19 a20 a21 a22 a23 a24 a25 a26 a27 a28 a29 a30)) := by
  cases b <;> rfl

/-- The `Borderless` line restores the written boolean. -/
theorem pl_pres_borderless
    (a1 : FrameGenMode) (a2 : Bool) (a3 : ℚ) (a4 : CaptureMethod)
    (a5 : Nat) (a6 : Bool) (a7 : GPUMode) (a8 : Nat) (a9 : Nat) (a10 : Nat)
    (a11 : Nat) (a12 : ℚ) (a13 : Bool) (a14 : Bool) (a15 : Nat) (a16 : Nat)
    (a17 : Bool) (a18 : Bool) (a19 : Bool) (a20 : Bool) (a21 : Nat)
    (a22 : ℚ) (a23 : Nat) (a24 : Nat) (a25 : Nat) (a26 : Bool) (a27 : Nat)
    (a28 : Bool) (a29 : Bool) (a30 : List Char)
    (b : Bool) :
    processLine ("presentation".data,
      (AppSettings.mk a1 a2 a3 a4 a5 a6 a7 a8 a9 a10 a11 a12 a13 a14 a15
      a16 a17 a18 a19 a20 a21 a22 a23 a24 a25 a26 a27 a28 a29 a30))
        ("Borderless = ".data ++ renderBool b) =
      ("presentation".data,
      (AppSettings.mk a1 a2 a3 a4 a5 a6 a7 a8 a9 a10 a11 a12 a13 b a15 a16
      a17 a18 a19 a20 a21 a22 a23 a24 a25 a26 a27 a28 a29 a30)) := by
  cases b <;> rfl

/-- The `Show` line restores the written boolean. -/
theorem pl_ov_show
    (a1 : FrameGenMode) (a2 : Bool) (a3 : ℚ) (a4 : CaptureMethod)
    (a5 : Nat) (a6 : Bool) (a7 : GPUMode) (a8 : Nat) (a9 : Nat) (a10 : Nat)
    (a11 : Nat) (a12 : ℚ) (a13 : Bool) (a14 : Bool) (a15 : Nat) (a16 : Nat)
    (a17 : Bool) (a18 : Bool) (a19 : Bool) (a20 : Bool) (a21 : Nat)
    (a22 : ℚ) (a23 : Nat) (a24 : Nat) (a25 : Nat) (a26 : Bool) (a27 : Nat)
    (a28 : Bool) (a29 : Bool) (a30 : List Char)
    (b : Bool) :
    processLine ("overlay".data,
      (AppSettings.mk a1 a2 a3 a4 a5 a6 a7 a8 a9 a10 a11 a12 a13 a14 a15
      a16 a17 a18 a19 a20 a21 a22 a23 a24 a25 a26 a27 a28 a29 a30))
        ("Show = ".data ++ renderBool b) =
      ("overlay".data,
      (AppSettings.mk a1 a2 a3 a4 a5 a6 a7 a8 a9 a10 a11 a12 a13 a14 a15
      a16 b a18 a19 a20 a21 a22 a23 a24 a25 a26 a27 a28 a29 a30)) := by
  cases b <;> rfl

/-- The `FPS` line restores the written boolean. -/
theorem pl_ov_fps
    (a1 : FrameGenMode) (a2 : Bool) (a3 : ℚ) (a4 : CaptureMethod)
    (a5 : Nat) (a6 : Bool) (a7 : GPUMode) (a8 : Nat) (a9 : Nat) (a10 : Nat)
    (a11 : Nat) (a12 : ℚ) (a13 : Bool) (a14 : Bool) (a15 : Nat) (a16 : Nat)
    (a17 : Bool) (a18 : Bool) (a19 : Bool) (a20 : Bool) (a21 : Nat)
    (a22 : ℚ) (a23 : Nat) (a24 : Nat) (a25 : Nat) (a26 : Bool) (a27 : Nat)
    (a28 : Bool) (a29 : Bool) (a30 : List Char)
    (b : Bool) :
    processLine ("overlay".data,
      (AppSettings.mk a1 a2 a3 a4 a5 a6 a7 a8 a9 a10 a11 a12 a13 a14 a15
      a16 a17 a18 a19 a20 a21 a22 a23 a24 a25 a26 a27 a28 a29 a30))
        ("FPS = ".data ++ renderBool b) =
      ("overlay".data,
      (AppSettings.mk a1 a2 a3 a4 a5 a6 a7 a8 a9 a10 a11 a12 a13 a14 a15
      a16 a17 b a19 a20 a21 a22 a23 a24 a25 a26 a27 a28 a29 a30)) := by
  cases b <;> rfl

/-- The `FrameTime` line restores the written boolean. -/
theorem pl_ov_frametime
    (a1 : FrameGenMode) (a2 : Bool) (a3 : ℚ) (a4 : CaptureMethod)
    (a5 : Nat) (a6 : Bool) (a7 : GPUMode) (a8 : Nat) (a9 : Nat) (a10 : Nat)
    (a11 : Nat) (a12 : ℚ) (a13 : Bool) (a14 : Bool) (a15 : Nat) (a16 : Nat)
    (a17 : Bool) (a18 : Bool) (a19 : Bool) (a20 : Bool) (a21 : Nat)
    (a22 : ℚ) (a23 : Nat) (a24 : Nat) (a25 : Nat) (a26 : Bool) (a27 : Nat)
    (a28 : Bool) (a29 : Bool) (a30 : List Char)
    (b : Bool) :
    processLine ("overlay".data,
      (AppSettings.mk a1 a2 a3 a4 a5 a6 a7 a8 a9 a10 a11 a12 a13 a14 a15
      a16 a17 a18 a19 a20 a21 a22 a23 a24 a25 a26 a27 a28 a29 a30))
        ("FrameTime = ".data ++ renderBool b) =
      ("overlay".data,
      (AppSettings.mk a1 a2 a3 a4 a5 a6 a7 a8 a9 a10 a11 a12 a13 a14 a15
      a16 a17 a18 b a20 a21 a22 a23 a24 a25 a26 a27 a28 a29 a30)) := by
  cases b <;> rfl

/-- The `GPUUsage` line restores the written boolean. -/
theorem pl_ov_gpuusage
    (a1 : FrameGenMode) (a2 : Bool) (a3 : ℚ) (a4 : CaptureMethod)
    (a5 : Nat) (a6 : Bool) (a7 : GPUMode) (a8 : Nat) (a9 : Nat) (a10 : Nat)
    (a11 : Nat) (a12 : ℚ) (a13 : Bool) (a14 : Bool) (a15 : Nat) (a16 : Nat)
    (a17 : Bool) (a18 : Bool) (a19 : Bool) (a20 : Bool) (a21 : Nat)
    (a22 : ℚ) (a23 : Nat) (a24 : Nat) (a25 : Nat) (a26 : Bool) (a27 : Nat)
    (a28 : Bool) (a29 : Bool) (a30 : List Char)
    (b : Bool) :
    processLine ("overlay".data,
      (AppSettings.mk a1 a2 a3 a4 a5 a6 a7 a8 a9 a10 a11 a12 a13 a14 a15
      a16 a17 a18 a19 a20 a21 a22 a23 a24 a25 a26 a27 a28 a29 a30))
        ("GPUUsage = ".data ++ renderBool b) =
      ("overlay".data,
      (AppSettings.mk a1 a2 a3 a4 a5 a6 a7 a8 a9 a10 a11 a12 a13 a14 a15
      a16 a17 a18 a19 b a21 a22 a23 a24 a25 a26 a27 a28 a29 a30)) := by
  cases b <;> rfl

/-- The `RequireAlt` line restores the written boolean. -/
theorem pl_hk_requirealt
    (a1 : FrameGenMode) (a2 : Bool) (a3 : ℚ) (a4 : CaptureMethod)
    (a5 : Nat) (a6 : Bool) (a7 : GPUMode) (a8 : Nat) (a9 : Nat) (a10 : Nat)
    (a11 : Nat) (a12 : ℚ) (a13 : Bool) (a14 : Bool) (a15 : Nat) (a16 : Nat)
    (a17 : Bool) (a18 : Bool) (a19 : Bool) (a20 : Bool) (a21 : Nat)
    (a22 : ℚ) (a23 : Nat) (a24 : Nat) (a25 : Nat) (a26 : Bool) (a27 : Nat)
    (a28 : Bool) (a29 : Bool) (a30 : List Char)
    (b : Bool) :
    processLine ("hotkeys".data,
      (AppSettings.mk a1 a2 a3 a4 a5 a6 a7 a8 a9 a10 a11 a12 a13 a14 a15
      a16 a17 a18 a19 a20 a21 a22 a23 a24 a25 a26 a27 a28 a29 a30))
        ("RequireAlt = ".data ++ renderBool b) =
      ("hotkeys".data,
      (AppSettings.mk a1 a2 a3 a4 a5 a6 a7 a8 a9 a10 a11 a12 a13 a14 a15
      a16 a17 a18 a19 a20 a21 a22 a23 a24 a25 b a27 a28 a29 a30)) := by
  cases b <;> rfl

/-- The `PeerToPeer` line restores the written boolean. -/
theorem pl_adv_p2p
    (a1 : FrameGenMode) (a2 : Bool) (a3 : ℚ) (a4 : CaptureMethod)
    (a5 : Nat) (a6 : Bool) (a7 : GPUMode) (a8 : Nat) (a9 : Nat) (a10 : Nat)
    (a11 : Nat) (a12 : ℚ) (a13 : Bool) (a14 : Bool) (a15 : Nat) (a16 : Nat)
    (a17 : Bool) (a18 : Bool) (a19 : Bool) (a20 : Bool) (a21 : Nat)
    (a22 : ℚ) (a23 : Nat) (a24 : Nat) (a25 : Nat) (a26 : Bool) (a27 : Nat)
    (a28 : Bool) (a29 : Bool) (a30 : List Char)
    (b : Bool) :
    processLine ("advanced".data,
      (AppSettings.mk a1 a2 a3 a4 a5 a6 a7 a8 a9 a10 a11 a12 a13 a14 a15
      a16 a17 a18 a19 a20 a21 a22 a23 a24 a25 a26 a27 a28 a29 a30))
        ("PeerToPeer = ".data ++ renderBool b) =
      ("advanced".data,
      (AppSettings.mk a1 a2 a3 a4 a5 a6 a7 a8 a9 a10 a11 a12 a13 a14 a15
      a16 a17 a18 a19 a20 a21 a22 a23 a24 a25 a26 a27 b a29 a30)) := by
  cases b <;> rfl

/-- The `Debug` line restores the written boolean. -/
theorem pl_adv_debug
    (a1 : FrameGenMode) (a2 : Bool) (a3 : ℚ) (a4 : CaptureMethod)
    (a5 : Nat) (a6 : Bool) (a7 : GPUMode) (a8 : Nat) (a9 : Nat) (a10 : Nat)
    (a11 : Nat) (a12 : ℚ) (a13 : Bool) (a14 : Bool) (a15 : Nat) (a16 : Nat)
    (a17 : Bool) (a18 : Bool) (a19 : Bool) (a20 : Bool) (a21 : Nat)
    (a22 : ℚ) (a23 : Nat) (a24 : Nat) (a25 : Nat) (a26 : Bool) (a27 : Nat)
    (a28 : Bool) (a29 : Bool) (a30 : List Char)
    (b : Bool) :
    processLine ("advanced".data,
      (AppSettings.mk a1 a2 a3 a4 a5 a6 a7 a8 a9 a10 a11 a12 a13 a14 a15
      a16 a17 a18 a19 a20 a21 a22 a23 a24 a25 a26 a27 a28 a29 a30))
        ("Debug = ".data ++ renderBool b) =
      ("advanced".data,
      (AppSettings.mk a1 a2 a3 a4 a5 a6 a7 a8 a9 a10 a11 a12 a13 a14 a15
      a16 a17 a18 a19 a20 a21 a22 a23 a24 a25 a26 a27 a28 b a30)) := by
  cases b <;> rfl

/-- The `Mode` line restores the written enum value. -/
theorem pl_fg_mode
    (a1 : FrameGenMode) (a2 : Bool) (a3 : ℚ) (a4 : CaptureMethod)
    (a5 : Nat) (a6 : Bool) (a7 : GPUMode) (a8 : Nat) (a9 : Nat) (a10 : Nat)
    (a11 : Nat) (a12 : ℚ) (a13 : Bool) (a14 : Bool) (a15 : Nat) (a16 : Nat)
    (a17 : Bool) (a18 : Bool) (a19 : Bool) (a20 : Bool) (a21 : Nat)
    (a22 : ℚ) (a23 : Nat) (a24 : Nat) (a25 : Nat) (a26 : Bool) (a27 : Nat)
    (a28 : Bool) (a29 : Bool) (a30 : List Char)
    (m : FrameGenMode) :
    processLine ("framegen".data,
      (AppSettings.mk a1 a2 a3 a4 a5 a6 a7 a8 a9 a10 a11 a12 a13 a14 a15
      a16 a17 a18 a19 a20 a21 a22 a23 a24 a25 a26 a27 a28 a29 a30))
        ("Mode = ".data ++ frameGenModeToString m) =
      ("framegen".data,
      (AppSettings.mk m a2 a3 a4 a5 a6 a7 a8 a9 a10 a11 a12 a13 a14 a15 a16
      a17 a18 a19 a20 a21 a22 a23 a24 a25 a26 a27 a28 a29 a30)) := by
  cases m <;> rfl

/-- The `Method` line restores the written enum value. -/
theorem pl_cap_method
    (a1 : FrameGenMode) (a2 : Bool) (a3 : ℚ) (a4 : CaptureMethod)
    (a5 : Nat) (a6 : Bool) (a7 : GPUMode) (a8 : Nat) (a9 : Nat) (a10 : Nat)
    (a11 : Nat) (a12 : ℚ) (a13 : Bool) (a14 : Bool) (a15 : Nat) (a16 : Nat)
    (a17 : Bool) (a18 : Bool) (a19 : Bool) (a20 : Bool) (a21 : Nat)
    (a22 : ℚ) (a23 : Nat) (a24 : Nat) (a25 : Nat) (a26 : Bool) (a27 : Nat)
    (a28 : Bool) (a29 : Bool) (a30 : List Char)
    (m : CaptureMethod) :
    processLine ("capture".data,
      (AppSettings.mk a1 a2 a3 a4 a5 a6 a7 a8 a9 a10 a11 a12 a13 a14 a15
      a16 a17 a18 a19 a20 a21 a22 a23 a24 a25 a26 a27 a28 a29 a30))
        ("Method = ".data ++ captureMethodToString m) =
      ("capture".data,
      (AppSettings.mk a1 a2 a3 m a5 a6 a7 a8 a9 a10 a11 a12 a13 a14 a15 a16
      a17 a18 a19 a20 a21 a22 a23 a24 a25 a26 a27 a28 a29 a30)) := by
  cases m <;> rfl

/-- The `Mode` line restores the written enum value. -/
theorem pl_gpu_mode
    (a1 : FrameGenMode) (a2 : Bool) (a3 : ℚ) (a4 : CaptureMethod)
    (a5 : Nat) (a6 : Bool) (a7 : GPUMode) (a8 : Nat) (a9 : Nat) (a10 : Nat)
    (a11 : Nat) (a12 : ℚ) (a13 : Bool) (a14 : Bool) (a15 : Nat) (a16 : Nat)
    (a17 : Bool) (a18 : Bool) (a19 : Bool) (a20 : Bool) (a21 : Nat)
    (a22 : ℚ) (a23 : Nat) (a24 : Nat) (a25 : Nat) (a26 : Bool) (a27 : Nat)
    (a28 : Bool) (a29 : Bool) (a30 : List Char)
    (m : GPUMode) :
    processLine ("gpu".data,
      (AppSettings.mk a1 a2 a3 a4 a5 a6 a7 a8 a9 a10 a11 a12 a13 a14 a15
      a16 a17 a18 a19 a20 a21 a22 a23 a24 a25 a26 a27 a28 a29 a30))
        ("Mode = ".data ++ gpuModeToString m) =
      ("gpu".data,
      (AppSettings.mk a1 a2 a3 a4 a5 a6 m a8 a9 a10 a11 a12 a13 a14 a15 a16
      a17 a18 a19 a20 a21 a22 a23 a24 a25 a26 a27 a28 a29 a30)) := by
  cases m <;> rfl

/-- The `Monitor` line restores the written number. -/
theorem pl_cap_monitor
    (a1 : FrameGenMode) (a2 : Bool) (a3 : ℚ) (a4 : CaptureMethod)
    (a5 : Nat) (a6 : Bool) (a7 : GPUMode) (a8 : Nat) (a9 : Nat) (a10 : Nat)
    (a11 : Nat) (a12 : ℚ) (a13 : Bool) (a14 : Bool) (a15 : Nat) (a16 : Nat)
    (a17 : Bool) (a18 : Bool) (a19 : Bool) (a20 : Bool) (a21 : Nat)
    (a22 : ℚ) (a23 : Nat) (a24 : Nat) (a25 : Nat) (a26 : Bool) (a27 : Nat)
    (a28 : Bool) (a29 : Bool) (a30 : List Char)
    (n : Nat) (hn : n < 2 ^ 32) :
    processLine ("capture".data,
      (AppSettings.mk a1 a2 a3 a4 a5 a6 a7 a8 a9 a10 a11 a12 a13 a14 a15
      a16 a17 a18 a19 a20 a21 a22 a23 a24 a25 a26 a27 a28 a29 a30))
        ("Monitor = ".data ++ renderNat n) =
      ("capture".data,
      (AppSettings.mk a1 a2 a3 a4 n a6 a7 a8 a9 a10 a11 a12 a13 a14 a15 a16
      a17 a18 a19 a20 a21 a22 a23 a24 a25 a26 a27 a28 a29 a30)) := by
  rw [show ("Monitor = ".data ++ renderNat n : List Char) =
    ('M' :: "onitor ".data) ++ '=' :: ' ' :: renderNat n from rfl]
  rw [processLine_kv_nat _ _ _ _ _ (by decide) (by decide) (by decide)
    (by decide) (by decide)]
  show ("capture".data,
      (AppSettings.mk a1 a2 a3 a4 (parseUInt (renderNat n)) a6 a7 a8 a9 a10
      a11 a12 a13 a14 a15 a16 a17 a18 a19 a20 a21 a22 a23 a24 a25 a26 a27
      a28 a29 a30)) = _
  rw [parseUInt_renderNat n hn]

/-- The `Primary` line restores the written number. -/
theorem pl_gpu_primary
    (a1 : FrameGenMode) (a2 : Bool) (a3 : ℚ) (a4 : CaptureMethod)
    (a5 : Nat) (a6 : Bool) (a7 : GPUMode) (a8 : Nat) (a9 : Nat) (a10 : Nat)
    (a11 : Nat) (a12 : ℚ) (a13 : Bool) (a14 : Bool) (a15 : Nat) (a16 : Nat)
    (a17 : Bool) (a18 : Bool) (a19 : Bool) (a20 : Bool) (a21 : Nat)
    (a22 : ℚ) (a23 : Nat) (a24 : Nat) (a25 : Nat) (a26 : Bool) (a27 : Nat)
    (a28 : Bool) (a29 : Bool) (a30 : List Char)
    (n : Nat) (hn : n < 2 ^ 32) :
    processLine ("gpu".data,
      (AppSettings.mk a1 a2 a3 a4 a5 a6 a7 a8 a9 a10 a11 a12 a13 a14 a15
      a16 a17 a18 a19 a20 a21 a22 a23 a24 a25 a26 a27 a28 a29 a30))
        ("Primary = ".data ++ renderNat n) =
      ("gpu".data,
      (AppSettings.mk a1 a2 a3 a4 a5 a6 a7 n a9 a10 a11 a12 a13 a14 a15 a16
      a17 a18 a19 a20 a21 a22 a23 a24 a25 a26 a27 a28 a29 a30)) := by
  rw [show ("Primary = ".data ++ renderNat n : List Char) =
    ('P' :: "rimary ".data) ++ '=' :: ' ' :: renderNat n from rfl]
  rw [processLine_kv_nat _ _ _ _ _ (by decide) (by decide) (by decide)
    (by decide) (by decide)]
  show ("gpu".data,
      (AppSettings.mk a1 a2 a3 a4 a5 a6 a7 (parseUInt (renderNat n)) a9 a10
      a11 a12 a13 a14 a15 a16 a17 a18 a19 a20 a21 a22 a23 a24 a25 a26 a27
      a28 a29 a30)) = _
  rw [parseUInt_renderNat n hn]

/-- The `Secondary` line restores the written number. -/
theorem pl_gpu_secondary
    (a1 : FrameGenMode) (a2 : Bool) (a3 : ℚ) (a4 : CaptureMethod)
    (a5 : Nat) (a6 : Bool) (a7 : GPUMode) (a8 : Nat) (a9 : Nat) (a10 : Nat)
    (a11 : Nat) (a12 : ℚ) (a13 : Bool) (a14 : Bool) (a15 : Nat) (a16 : Nat)
    (a17 : Bool) (a18 : Bool) (a19 : Bool) (a20 : Bool) (a21 : Nat)
    (a22 : ℚ) (a23 : Nat) (a24 : Nat) (a25 : Nat) (a26 : Bool) (a27 : Nat)
    (a28 : Bool) (a29 : Bool) (a30 : List Char)
    (n : Nat) (hn : n < 2 ^ 32) :
    processLine ("gpu".data,
      (AppSettings.mk a1 a2 a3 a4 a5 a6 a7 a8 a9 a10 a11 a12 a13 a14 a15
      a16 a17 a18 a19 a20 a21 a22 a23 a24 a25 a26 a27 a28 a29 a30))
        ("Secondary = ".data ++ renderNat n) =
      ("gpu".data,
      (AppSettings.mk a1 a2 a3 a4 a5 a6 a7 a8 n a10 a11 a12 a13 a14 a15 a16
      a17 a18 a19 a20 a21 a22 a23 a24 a25 a26 a27 a28 a29 a30)) := by
  rw [show ("Secondary = ".data ++ renderNat n : List Char) =
    ('S' :: "econdary ".data) ++ '=' :: ' ' :: renderNat n from rfl]
  rw [processLine_kv_nat _ _ _ _ _ (by decide) (by decide) (by decide)
    (by decide) (by decide)]
  show ("gpu".data,
      (AppSettings.mk a1 a2 a3 a4 a5 a6 a7 a8 (parseUInt (renderNat n)) a10
      a11 a12 a13 a14 a15 a16 a17 a18 a19 a20 a21 a22 a23 a24 a25 a26 a27
      a28 a29 a30)) = _
  rw [parseUInt_renderNat n hn]

/-- The `BlockSize` line restores the written number. -/
theorem pl_of_blocksize
    (a1 : FrameGenMode) (a2 : Bool) (a3 : ℚ) (a4 : CaptureMethod)
    (a5 : Nat) (a6 : Bool) (a7 : GPUMode) (a8 : Nat) (a9 : Nat) (a10 : Nat)
    (a11 : Nat) (a12 : ℚ) (a13 : Bool) (a14 : Bool) (a15 : Nat) (a16 : Nat)
    (a17 : Bool) (a18 : Bool) (a19 : Bool) (a20 : Bool) (a21 : Nat)
    (a22 : ℚ) (a23 : Nat) (a24 : Nat) (a25 : Nat) (a26 : Bool) (a27 : Nat)
    (a28 : Bool) (a29 : Bool) (a30 : List Char)
    (n : Nat) (hn : n < 2 ^ 32) :
    processLine ("opticalflow".data,
      (AppSettings.mk a1 a2 a3 a4 a5 a6 a7 a8 a9 a10 a11 a12 a13 a14 a15
      a16 a17 a18 a19 a20 a21 a22 a23 a24 a25 a26 a27 a28 a29 a30))
        ("BlockSize = ".data ++ renderNat n) =
      ("opticalflow".data,
      (AppSettings.mk a1 a2 a3 a4 a5 a6 a7 a8 a9 n a11 a12 a13 a14 a15 a16
      a17 a18 a19 a20 a21 a22 a23 a24 a25 a26 a27 a28 a29 a30)) := by
  rw [show ("BlockSize = ".data ++ renderNat n : List Char) =
    ('B' :: "lockSize ".data) ++ '=' :: ' ' :: renderNat n from rfl]
  rw [processLine_kv_nat _ _ _ _ _ (by decide) (by decide) (by decide)
    (by decide) (by decide)]
  show ("opticalflow".data,
      (AppSettings.mk a1 a2 a3 a4 a5 a6 a7 a8 a9 (parseUInt (renderNat n))
      a11 a12 a13 a14 a15 a16 a17 a18 a19 a20 a21 a22 a23 a24 a25 a26 a27
      a28 a29 a30)) = _
  rw [parseUInt_renderNat n hn]

/-- The `SearchRadius` line restores the written number. -/
theorem pl_of_searchradius
    (a1 : FrameGenMode) (a2 : Bool) (a3 : ℚ) (a4 : CaptureMethod)
    (a5 : Nat) (a6 : Bool) (a7 : GPUMode) (a8 : Nat) (a9 : Nat) (a10 : Nat)
    (a11 : Nat) (a12 : ℚ) (a13 : Bool) (a14 : Bool) (a15 : Nat) (a16 : Nat)
    (a17 : Bool) (a18 : Bool) (a19 : Bool) (a20 : Bool) (a21 : Nat)
    (a22 : ℚ) (a23 : Nat) (a24 : Nat) (a25 : Nat) (a26 : Bool) (a27 : Nat)
    (a28 : Bool) (a29 : Bool) (a30 : List Char)
    (n : Nat) (hn : n < 2 ^ 32) :
    processLine ("opticalflow".data,
      (AppSettings.mk a1 a2 a3 a4 a5 a6 a7 a8 a9 a10 a11 a12 a13 a14 a15
      a16 a17 a18 a19 a20 a21 a22 a23 a24 a25 a26 a27 a28 a29 a30))
        ("SearchRadius = ".data ++ renderNat n) =
      ("opticalflow".data,
      (AppSettings.mk a1 a2 a3 a4 a5 a6 a7 a8 a9 a10 n a12 a13 a14 a15 a16
      a17 a18 a19 a20 a21 a22 a23 a24 a25 a26 a27 a28 a29 a30)) := by
  rw [show ("SearchRadius = ".data ++ renderNat n : List Char) =
    ('S' :: "earchRadius ".data) ++ '=' :: ' ' :: renderNat n from rfl]
  rw [processLine_kv_nat _ _ _ _ _ (by decide) (by decide) (by decide)
    (by decide) (by decide)]
  show ("opticalflow".data,
      (AppSettings.mk a1 a2 a3 a4 a5 a6 a7 a8 a9 a10
      (parseUInt (renderNat n)) a12 a13 a14 a15 a16 a17 a18 a19 a20 a21 a22
      a23 a24 a25 a26 a27 a28 a29 a30)) = _
  rw [parseUInt_renderNat n hn]

/-- The `Width` line restores the written number. -/
theorem pl_pres_width
    (a1 : FrameGenMode) (a2 : Bool) (a3 : ℚ) (a4 : CaptureMethod)
    (a5 : Nat) (a6 : Bool) (a7 : GPUMode) (a8 : Nat) (a9 : Nat) (a10 : Nat)
    (a11 : Nat) (a12 : ℚ) (a13 : Bool) (a14 : Bool) (a15 : Nat) (a16 : Nat)
    (a17 : Bool) (a18 : Bool) (a19 : Bool) (a20 : Bool) (a21 : Nat)
    (a22 : ℚ) (a23 : Nat) (a24 : Nat) (a25 : Nat) (a26 : Bool) (a27 : Nat)
    (a28 : Bool) (a29 : Bool) (a30 : List Char)
    (n : Nat) (hn : n < 2 ^ 32) :
    processLine ("presentation".data,
      (AppSettings.mk a1 a2 a3 a4 a5 a6 a7 a8 a9 a10 a11 a12 a13 a14 a15
      a16 a17 a18 a19 a20 a21 a22 a23 a24 a25 a26 a27 a28 a29 a30))
        ("Width = ".data ++ renderNat n) =
      ("presentation".data,
      (AppSettings.mk a1 a2 a3 a4 a5 a6 a7 a8 a9 a10 a11 a12 a13 a14 n a16
      a17 a18 a19 a20 a21 a22 a23 a24 a25 a26 a27 a28 a29 a30)) := by
  rw [show ("Width = ".data ++ renderNat n : List Char) =
    ('W' :: "idth ".data) ++ '=' :: ' ' :: renderNat n from rfl]
  rw [processLine_kv_nat _ _ _ _ _ (by decide) (by decide) (by decide)
    (by decide) (by decide)]
  show ("presentation".data,
      (AppSettings.mk a1 a2 a3 a4 a5 a6 a7 a8 a9 a10 a11 a12 a13 a14
      (parseUInt (renderNat n)) a16 a17 a18 a19 a20 a21 a22 a23 a24 a25 a26
      a27 a28 a29 a30)) = _
  rw [parseUInt_renderNat n hn]

/-- The `Height` line restores the written number. -/
theorem pl_pres_height
    (a1 : FrameGenMode) (a2 : Bool) (a3 : ℚ) (a4 : CaptureMethod)
    (a5 : Nat) (a6 : Bool) (a7 : GPUMode) (a8 : Nat) (a9 : Nat) (a10 : Nat)
    (a11 : Nat) (a12 : ℚ) (a13 : Bool) (a14 : Bool) (a15 : Nat) (a16 : Nat)
    (a17 : Bool) (a18 : Bool) (a19 : Bool) (a20 : Bool) (a21 : Nat)
    (a22 : ℚ) (a23 : Nat) (a24 : Nat) (a25 : Nat) (a26 : Bool) (a27 : Nat)
    (a28 : Bool) (a29 : Bool) (a30 : List Char)
    (n : Nat) (hn : n < 2 ^ 32) :
    processLine ("presentation".data,
      (AppSettings.mk a1 a2 a3 a4 a5 a6 a7 a8 a9 a10 a11 a12 a13 a14 a15
      a16 a17 a18 a19 a20 a21 a22 a23 a24 a25 a26 a27 a28 a29 a30))
        ("Height = ".data ++ renderNat n) =
      ("presentation".data,
      (AppSettings.mk a1 a2 a3 a4 a5 a6 a7 a8 a9 a10 a11 a12 a13 a14 a15 n
      a17 a18 a19 a20 a21 a22 a23 a24 a25 a26 a27 a28 a29 a30)) := by
  rw [show ("Height = ".data ++ renderNat n : List Char) =
    ('H' :: "eight ".data) ++ '=' :: ' ' :: renderNat n from rfl]
  rw [processLine_kv_nat _ _ _ _ _ (by decide) (by decide) (by decide)
    (by decide) (by decide)]
  show ("presentation".data,
      (AppSettings.mk a1 a2 a3 a4 a5 a6 a7 a8 a9 a10 a11 a12 a13 a14 a15
      (parseUInt (renderNat n)) a17 a18 a19 a20 a21 a22 a23 a24 a25 a26 a27
      a28 a29 a30)) = _
  rw [parseUInt_renderNat n hn]

/-- The `Position` line restores the written number. -/
theorem pl_ov_position
    (a1 : FrameGenMode) (a2 : Bool) (a3 : ℚ) (a4 : CaptureMethod)
    (a5 : Nat) (a6 : Bool) (a7 : GPUMode) (a8 : Nat) (a9 : Nat) (a10 : Nat)
    (a11 : Nat) (a12 : ℚ) (a13 : Bool) (a14 : Bool) (a15 : Nat) (a16 : Nat)
    (a17 : Bool) (a18 : Bool) (a19 : Bool) (a20 : Bool) (a21 : Nat)
    (a22 : ℚ) (a23 : Nat) (a24 : Nat) (a25 : Nat) (a26 : Bool) (a27 : Nat)
    (a28 : Bool) (a29 : Bool) (a30 : List Char)
    (n : Nat) (hn : n < 2 ^ 32) :
    processLine ("overlay".data,
      (AppSettings.mk a1 a2 a3 a4 a5 a6 a7 a8 a9 a10 a11 a12 a13 a14 a15
      a16 a17 a18 a19 a20 a21 a22 a23 a24 a25 a26 a27 a28 a29 a30))
        ("Position = ".data ++ renderNat n) =
      ("overlay".data,
      (AppSettings.mk a1 a2 a3 a4 a5 a6 a7 a8 a9 a10 a11 a12 a13 a14 a15
      a16 a17 a18 a19 a20 n a22 a23 a24 a25 a26 a27 a28 a29 a30)) := by
  rw [show ("Position = ".data ++ renderNat n : List Char) =
    ('P' :: "osition ".data) ++ '=' :: ' ' :: renderNat n from rfl]
  rw [processLine_kv_nat _ _ _ _ _ (by decide) (by decide) (by decide)
    (by decide) (by decide)]
  show ("overlay".data,
      (AppSettings.mk a1 a2 a3 a4 a5 a6 a7 a8 a9 a10 a11 a12 a13 a14 a15
      a16 a17 a18 a19 a20 (parseUInt (renderNat n)) a22 a23 a24 a25 a26 a27
      a28 a29 a30)) = _
  rw [parseUInt_renderNat n hn]

/-- The `ToggleFrameGen` line restores the written number. -/
theorem pl_hk_togglefg
    (a1 : FrameGenMode) (a2 : Bool) (a3 : ℚ) (a4 : CaptureMethod)
    (a5 : Nat) (a6 : Bool) (a7 : GPUMode) (a8 : Nat) (a9 : Nat) (a10 : Nat)
    (a11 : Nat) (a12 : ℚ) (a13 : Bool) (a14 : Bool) (a15 : Nat) (a16 : Nat)
    (a17 : Bool) (a18 : Bool) (a19 : Bool) (a20 : Bool) (a21 : Nat)
    (a22 : ℚ) (a23 : Nat) (a24 : Nat) (a25 : Nat) (a26 : Bool) (a27 : Nat)
    (a28 : Bool) (a29 : Bool) (a30 : List Char)
    (n : Nat) (hn : n < 2 ^ 32) :
    processLine ("hotkeys".data,
      (AppSettings.mk a1 a2 a3 a4 a5 a6 a7 a8 a9 a10 a11 a12 a13 a14 a15
      a16 a17 a18 a19 a20 a21 a22 a23 a24 a25 a26 a27 a28 a29 a30))
        ("ToggleFrameGen = ".data ++ renderNat n) =
      ("hotkeys".data,
      (AppSettings.mk a1 a2 a3 a4 a5 a6 a7 a8 a9 a10 a11 a12 a13 a14 a15
      a16 a17 a18 a19 a20 a21 a22 n a24 a25 a26 a27 a28 a29 a30)) := by
  rw [show ("ToggleFrameGen = ".data ++ renderNat n : List Char) =
    ('T' :: "oggleFrameGen ".data) ++ '=' :: ' ' :: renderNat n from rfl]
  rw [processLine_kv_nat _ _ _ _ _ (by decide) (by decide) (by decide)
    (by decide) (by decide)]
  show ("hotkeys".data,
      (AppSettings.mk a1 a2 a3 a4 a5 a6 a7 a8 a9 a10 a11 a12 a13 a14 a15
      a16 a17 a18 a19 a20 a21 a22 (parseUInt (renderNat n)) a24 a25 a26 a27
      a28 a29 a30)) = _
  rw [parseUInt_renderNat n hn]

/-- The `ToggleOverlay` line restores the written number. -/
theorem pl_hk_toggleov
    (a1 : FrameGenMode) (a2 : Bool) (a3 : ℚ) (a4 : CaptureMethod)
    (a5 : Nat) (a6 : Bool) (a7 : GPUMode) (a8 : Nat) (a9 : Nat) (a10 : Nat)
    (a11 : Nat) (a12 : ℚ) (a13 : Bool) (a14 : Bool) (a15 : Nat) (a16 : Nat)
    (a17 : Bool) (a18 : Bool) (a19 : Bool) (a20 : Bool) (a21 : Nat)
    (a22 : ℚ) (a23 : Nat) (a24 : Nat) (a25 : Nat) (a26 : Bool) (a27 : Nat)
    (a28 : Bool) (a29 : Bool) (a30 : List Char)
    (n : Nat) (hn : n < 2 ^ 32) :
    processLine ("hotkeys".data,
      (AppSettings.mk a1 a2 a3 a4 a5 a6 a7 a8 a9 a10 a11 a12 a13 a14 a15
      a16 a17 a18 a19 a20 a21 a22 a23 a24 a25 a26 a27 a28 a29 a30))
        ("ToggleOverlay = ".data ++ renderNat n) =
      ("hotkeys".data,
      (AppSettings.mk a1 a2 a3 a4 a5 a6 a7 a8 a9 a10 a11 a12 a13 a14 a15
      a16 a17 a18 a19 a20 a21 a22 a23 n a25 a26 a27 a28 a29 a30)) := by
  rw [show ("ToggleOverlay = ".data ++ renderNat n : List Char) =
    ('T' :: "oggleOverlay ".data) ++ '=' :: ' ' :: renderNat n from rfl]
  rw [processLine_kv_nat _ _ _ _ _ (by decide) (by decide) (by decide)
    (by decide) (by decide)]
  show ("hotkeys".data,
      (AppSettings.mk a1 a2 a3 a4 a5 a6 a7 a8 a9 a10 a11 a12 a13 a14 a15
      a16 a17 a18 a19 a20 a21 a22 a23 (parseUInt (renderNat n)) a25 a26 a27
      a28 a29 a30)) = _
  rw [parseUInt_renderNat n hn]

/-- The `CycleMode` line restores the written number. -/
theorem pl_hk_cyclemode
    (a1 : FrameGenMode) (a2 : Bool) (a3 : ℚ) (a4 : CaptureMethod)
    (a5 : Nat) (a6 : Bool) (a7 : GPUMode) (a8 : Nat) (a9 : Nat) (a10 : Nat)
    (a11 : Nat) (a12 : ℚ) (a13 : Bool) (a14 : Bool) (a15 : Nat) (a16 : Nat)
    (a17 : Bool) (a18 : Bool) (a19 : Bool) (a20 : Bool) (a21 : Nat)
    (a22 : ℚ) (a23 : Nat) (a24 : Nat) (a25 : Nat) (a26 : Bool) (a27 : Nat)
    (a28 : Bool) (a29 : Bool) (a30 : List Char)
    (n : Nat) (hn : n < 2 ^ 32) :
    processLine ("hotkeys".data,
      (AppSettings.mk a1 a2 a3 a4 a5 a6 a7 a8 a9 a10 a11 a12 a13 a14 a15
      a16 a17 a18 a19 a20 a21 a22 a23 a24 a25 a26 a27 a28 a29 a30))
        ("CycleMode = ".data ++ renderNat n) =
      ("hotkeys".data,
      (AppSettings.mk a1 a2 a3 a4 a5 a6 a7 a8 a9 a10 a11 a12 a13 a14 a15
      a16 a17 a18 a19 a20 a21 a22 a23 a24 n a26 a27 a28 a29 a30)) := by
  rw [show ("CycleMode = ".data ++ renderNat n : List Char) =
    ('C' :: "ycleMode ".data) ++ '=' :: ' ' :: renderNat n from rfl]
  rw [processLine_kv_nat _ _ _ _ _ (by decide) (by decide) (by decide)
    (by decide) (by decide)]
  show ("hotkeys".data,
      (AppSettings.mk a1 a2 a3 a4 a5 a6 a7 a8 a9 a10 a11 a12 a13 a14 a15
      a16 a17 a18 a19 a20 a21 a22 a23 a24 (parseUInt (renderNat n)) a26 a27
      a28 a29 a30)) = _
  rw [parseUInt_renderNat n hn]

/-- The `FrameBufferCount` line restores the written number. -/
theorem pl_adv_fbc
    (a1 : FrameGenMode) (a2 : Bool) (a3 : ℚ) (a4 : CaptureMethod)
    (a5 : Nat) (a6 : Bool) (a7 : GPUMode) (a8 : Nat) (a9 : Nat) (a10 : Nat)
    (a11 : Nat) (a12 : ℚ) (a13 : Bool) (a14 : Bool) (a15 : Nat) (a16 : Nat)
    (a17 : Bool) (a18 : Bool) (a19 : Bool) (a20 : Bool) (a21 : Nat)
    (a22 : ℚ) (a23 : Nat) (a24 : Nat) (a25 : Nat) (a26 : Bool) (a27 : Nat)
    (a28 : Bool) (a29 : Bool) (a30 : List Char)
    (n : Nat) (hn : n < 2 ^ 32) :
    processLine ("advanced".data,
      (AppSettings.mk a1 a2 a3 a4 a5 a6 a7 a8 a9 a10 a11 a12 a13 a14 a15
      a16 a17 a18 a19 a20 a21 a22 a23 a24 a25 a26 a27 a28 a29 a30))
        ("FrameBufferCount = ".data ++ renderNat n) =
      ("advanced".data,
      (AppSettings.mk a1 a2 a3 a4 a5 a6 a7 a8 a9 a10 a11 a12 a13 a14 a15
      a16 a17 a18 a19 a20 a21 a22 a23 a24 a25 a26 n a28 a29 a30)) := by
  rw [show ("FrameBufferCount = ".data ++ renderNat n : List Char) =
    ('F' :: "rameBufferCount ".data) ++ '=' :: ' ' :: renderNat n from rfl]
  rw [processLine_kv_nat _ _ _ _ _ (by decide) (by decide) (by decide)
    (by decide) (by decide)]
  show ("advanced".data,
      (AppSettings.mk a1 a2 a3 a4 a5 a6 a7 a8 a9 a10 a11 a12 a13 a14 a15
      a16 a17 a18 a19 a20 a21 a22 a23 a24 a25 a26 (parseUInt (renderNat n))
      a28 a29 a30)) = _
  rw [parseUInt_renderNat n hn]

/-- The `TargetFramerate` line restores the written rational. -/
theorem pl_fg_target
    (a1 : FrameGenMode) (a2 : Bool) (a3 : ℚ) (a4 : CaptureMethod)
    (a5 : Nat) (a6 : Bool) (a7 : GPUMode) (a8 : Nat) (a9 : Nat) (a10 : Nat)
    (a11 : Nat) (a12 : ℚ) (a13 : Bool) (a14 : Bool) (a15 : Nat) (a16 : Nat)
    (a17 : Bool) (a18 : Bool) (a19 : Bool) (a20 : Bool) (a21 : Nat)
    (a22 : ℚ) (a23 : Nat) (a24 : Nat) (a25 : Nat) (a26 : Bool) (a27 : Nat)
    (a28 : Bool) (a29 : Bool) (a30 : List Char)
    (q : ℚ) (hq : exactG6 q) :
    processLine ("framegen".data,
      (AppSettings.mk a1 a2 a3 a4 a5 a6 a7 a8 a9 a10 a11 a12 a13 a14 a15
      a16 a17 a18 a19 a20 a21 a22 a23 a24 a25 a26 a27 a28 a29 a30))
        ("TargetFramerate = ".data ++ renderQ q) =
      ("framegen".data,
      (AppSettings.mk a1 a2 q a4 a5 a6 a7 a8 a9 a10 a11 a12 a13 a14 a15 a16
      a17 a18 a19 a20 a21 a22 a23 a24 a25 a26 a27 a28 a29 a30)) := by
  rw [show ("TargetFramerate = ".data ++ renderQ q : List Char) =
    ('T' :: "argetFramerate ".data) ++ '=' :: ' ' :: renderQ q from rfl]
  rw [processLine_kv_q _ _ _ _ _ (by decide) (by decide) (by decide)
    (by decide) (by decide)]
  show ("framegen".data,
      (AppSettings.mk a1 a2 (parseQ (renderQ q)) a4 a5 a6 a7 a8 a9 a10 a11
      a12 a13 a14 a15 a16 a17 a18 a19 a20 a21 a22 a23 a24 a25 a26 a27 a28
      a29 a30)) = _
  rw [parseQ_renderQ q hq]

/-- The `SceneChangeThreshold` line restores the written rational. -/
theorem pl_of_scenethreshold
    (a1 : FrameGenMode) (a2 : Bool) (a3 : ℚ) (a4 : CaptureMethod)
    (a5 : Nat) (a6 : Bool) (a7 : GPUMode) (a8 : Nat) (a9 : Nat) (a10 : Nat)
    (a11 : Nat) (a12 : ℚ) (a13 : Bool) (a14 : Bool) (a15 : Nat) (a16 : Nat)
    (a17 : Bool) (a18 : Bool) (a19 : Bool) (a20 : Bool) (a21 : Nat)
    (a22 : ℚ) (a23 : Nat) (a24 : Nat) (a25 : Nat) (a26 : Bool) (a27 : Nat)
    (a28 : Bool) (a29 : Bool) (a30 : List Char)
    (q : ℚ) (hq : exactG6 q) :
    processLine ("opticalflow".data,
      (AppSettings.mk a1 a2 a3 a4 a5 a6 a7 a8 a9 a10 a11 a12 a13 a14 a15
      a16 a17 a18 a19 a20 a21 a22 a23 a24 a25 a26 a27 a28 a29 a30))
        ("SceneChangeThreshold = ".data ++ renderQ q) =
      ("opticalflow".data,
      (AppSettings.mk a1 a2 a3 a4 a5 a6 a7 a8 a9 a10 a11 q a13 a14 a15 a16
      a17 a18 a19 a20 a21 a22 a23 a24 a25 a26 a27 a28 a29 a30)) := by
  rw [show ("SceneChangeThreshold = ".data ++ renderQ q : List Char) =
    ('S' :: "ceneChangeThreshold ".data) ++ '=' :: ' ' :: renderQ q from rfl]
  rw [processLine_kv_q _ _ _ _ _ (by decide) (by decide) (by decide)
    (by decide) (by decide)]
  show ("opticalflow".data,
      (AppSettings.mk a1 a2 a3 a4 a5 a6 a7 a8 a9 a10 a11
      (parseQ (renderQ q)) a13 a14 a15 a16 a17 a18 a19 a20 a21 a22 a23 a24
      a25 a26 a27 a28 a29 a30)) = _
  rw [parseQ_renderQ q hq]

/-- The `Scale` line restores the written rational. -/
theorem pl_ov_scale
    (a1 : FrameGenMode) (a2 : Bool) (a3 : ℚ) (a4 : CaptureMethod)
    (a5 : Nat) (a6 : Bool) (a7 : GPUMode) (a8 : Nat) (a9 : Nat) (a10 : Nat)
    (a11 : Nat) (a12 : ℚ) (a13 : Bool) (a14 : Bool) (a15 : Nat) (a16 : Nat)
    (a17 : Bool) (a18 : Bool) (a19 : Bool) (a20 : Bool) (a21 : Nat)
    (a22 : ℚ) (a23 : Nat) (a24 : Nat) (a25 : Nat) (a26 : Bool) (a27 : Nat)
    (a28 : Bool) (a29 : Bool) (a30 : List Char)
    (q : ℚ) (hq : exactG6 q) :
    processLine ("overlay".data,
      (AppSettings.mk a1 a2 a3 a4 a5 a6 a7 a8 a9 a10 a11 a12 a13 a14 a15
      a16 a17 a18 a19 a20 a21 a22 a23 a24 a25 a26 a27 a28 a29 a30))
        ("Scale = ".data ++ renderQ q) =
      ("overlay".data,
      (AppSettings.mk a1 a2 a3 a4 a5 a6 a7 a8 a9 a10 a11 a12 a13 a14 a15
      a16 a17 a18 a19 a20 a21 q a23 a24 a25 a26 a27 a28 a29 a30)) := by
  rw [show ("Scale = ".data ++ renderQ q : List Char) =
    ('S' :: "cale ".data) ++ '=' :: ' ' :: renderQ q from rfl]
  rw [processLine_kv_q _ _ _ _ _ (by decide) (by decide) (by decide)
    (by decide) (by decide)]
  show ("overlay".data,
      (AppSettings.mk a1 a2 a3 a4 a5 a6 a7 a8 a9 a10 a11 a12 a13 a14 a15
      a16 a17 a18 a19 a20 a21 (parseQ (renderQ q)) a23 a24 a25 a26 a27 a28
      a29 a30)) = _
  rw [parseQ_renderQ q hq]

/-- The `LogFile` line restores the quoted path verbatim. -/
theorem pl_adv_logfile
    (a1 : FrameGenMode) (a2 : Bool) (a3 : ℚ) (a4 : CaptureMethod)
    (a5 : Nat) (a6 : Bool) (a7 : GPUMode) (a8 : Nat) (a9 : Nat) (a10 : Nat)
    (a11 : Nat) (a12 : ℚ) (a13 : Bool) (a14 : Bool) (a15 : Nat) (a16 : Nat)
    (a17 : Bool) (a18 : Bool) (a19 : Bool) (a20 : Bool) (a21 : Nat)
    (a22 : ℚ) (a23 : Nat) (a24 : Nat) (a25 : Nat) (a26 : Bool) (a27 : Nat)
    (a28 : Bool) (a29 : Bool) (a30 : List Char)
    (path : List Char) :
    processLine ("advanced".data,
      (AppSettings.mk a1 a2 a3 a4 a5 a6 a7 a8 a9 a10 a11 a12 a13 a14 a15
      a16 a17 a18 a19 a20 a21 a22 a23 a24 a25 a26 a27 a28 a29 a30))
        ("LogFile = \"".data ++ path ++ "\"".data) =
      ("advanced".data,
      (AppSettings.mk a1 a2 a3 a4 a5 a6 a7 a8 a9 a10 a11 a12 a13 a14 a15
      a16 a17 a18 a19 a20 a21 a22 a23 a24 a25 a26 a27 a28 a29 path)) := by
  have hq : ('"' :: (path ++ ['"']) : List Char) = ('"' :: path) ++ ['"'] := by
    simp
  have hlastq : ∀ d : Char,
      ('"' :: (path ++ ['"']) : List Char).getLast? = some d → d = '"' := by
    intro d hd
    rw [hq, getLast?_append_right _ (by simp)] at hd
    simpa using hd.symm
  rw [show ("LogFile = \"".data ++ path ++ "\"".data : List Char) =
    ('L' :: "ogFile ".data) ++ '=' :: ' ' :: ('"' :: (path ++ ['"'])) from by
      simp]
  rw [processLine_kv _ _ _ _ _ (by decide) (by decide) (by decide) (by decide)
    (by decide) (by simp) (fun d hd => by rw [hlastq d hd]; decide)]
  have htq : trim ('"' :: (path ++ ['"'])) = '"' :: (path ++ ['"']) :=
    trim_eq_self
      (fun d hd => by
        simp only [List.head?_cons, Option.some.injEq] at hd
        subst hd
        decide)
      (fun d hd => by rw [hlastq d hd]; decide)
  rw [htq, stripQuotes_quoted]
  rfl

/-- Membership in an appended pair of newline-free strings. -/
theorem nl_notin_append {l1 l2 : List Char} (h1 : '\n' ∉ l1)
    (h2 : '\n' ∉ l2) : '\n' ∉ l1 ++ l2 := by
  intro hm
  rw [List.mem_append] at hm
  rcases hm with h | h
  · exact h1 h
  · exact h2 h

/-- Rendered numbers contain no newline. -/
theorem nl_notin_renderNat (n : Nat) : '\n' ∉ renderNat n := by
  intro hm
  have h := renderNat_digits n _ hm
  simp [isDigitChar] at h

/-- Rendered rationals contain no newline. -/
theorem nl_notin_renderQ (q : ℚ) : '\n' ∉ renderQ q := by
  intro hm
  have h := renderQ_not_ws q _ hm
  simp [isWS] at h

/-- Rendered booleans contain no newline. -/
theorem nl_notin_renderBool (b : Bool) : '\n' ∉ renderBool b := by
  cases b <;> decide

/-- Frame-generation mode names contain no newline. -/
theorem nl_notin_fgm (m : FrameGenMode) : '\n' ∉ frameGenModeToString m := by
  cases m <;> decide

/-- Capture-method names contain no newline. -/
theorem nl_notin_cm (m : CaptureMethod) : '\n' ∉ captureMethodToString m := by
  cases m <;> decide

/-- GPU-mode names contain no newline. -/
theorem nl_notin_gm (m : GPUMode) : '\n' ∉ gpuModeToString m := by
  cases m <;> decide

/-- No written configuration line contains a newline, provided the log
path has none. -/
theorem writeLines_no_newline (s : AppSettings) (hnl : '\n' ∉ s.logFilePath) :
    ∀ l ∈ writeLines s, '\n' ∉ l := by
  intro l hl
  simp only [writeLines, List.mem_cons, List.not_mem_nil, or_false] at hl
  rcases hl with h|h|h|h|h|h|h|h|h|h|h|h|h|h|h|h|h|h|h|h|h|h|h|h|h|h|h|h|h|h|h|h|h|h|h|h|h|h|h|h|h|h|h|h|h|h|h|h <;> subst h <;>
  first
    | decide
    | exact nl_notin_append (by decide) (nl_notin_renderNat _)
    | exact nl_notin_append (by decide) (nl_notin_renderQ _)
    | exact nl_notin_append (by decide) (nl_notin_renderBool _)
    | exact nl_notin_append (by decide) (nl_notin_fgm _)
    | exact nl_notin_append (by decide) (nl_notin_cm _)
    | exact nl_notin_append (by decide) (nl_notin_gm _)
    | exact nl_notin_append (nl_notin_append (by decide) hnl) (by decide)

set_option maxHeartbeats 2000000 in
/-- Save-then-load restores every field, for settings whose log path
has no newline, whose float fields are exactly representable in six
significant decimal digits (the stream's `%g` precision), and whose
integer fields fit `uint32_t`. -/
theorem config_roundTrip (s : AppSettings)
    (hnl : '\n' ∉ s.logFilePath)
    (hd1 : exactG6 s.targetFramerate)
    (hd2 : exactG6 s.sceneChangeThreshold)
    (hd3 : exactG6 s.overlayScale)
    (hu1 : s.captureMonitor < 2 ^ 32) (hu2 : s.primaryGPU < 2 ^ 32)
    (hu3 : s.secondaryGPU < 2 ^ 32) (hu4 : s.opticalFlowBlockSize < 2 ^ 32)
    (hu5 : s.opticalFlowSearchRadius < 2 ^ 32) (hu6 : s.windowWidth < 2 ^ 32)
    (hu7 : s.windowHeight < 2 ^ 32) (hu8 : s.overlayPosition < 2 ^ 32)
    (hu9 : s.hotkeyToggleFrameGen < 2 ^ 32)
    (hu10 : s.hotkeyToggleOverlay < 2 ^ 32)
    (hu11 : s.hotkeyCycleMode < 2 ^ 32) (hu12 : s.frameBufferCount < 2 ^ 32) :
    loadOfSave s = s := by
  unfold loadOfSave parseConfigFile writeConfigFile
  rw [splitLines_joinLines (writeLines s) (writeLines_no_newline s hnl)]
  simp only [writeLines, List.foldl_cons, List.foldl_nil]
  rw [show defaultSettings = AppSettings.mk .FrameGen2X true 0 .Auto 0 true
    .Auto 0 1 8 12 (1 / 2) true true 1920 1080 true true true false 0 1
    0x79 0x7A 0x7B true 3 true false [] from rfl]
  rw [pl_comment1, pl_comment2, pl_blank, pl_sec_framegen, pl_fg_mode,
    pl_fg_enabled, pl_fg_target]
  rw [pl_blank, pl_sec_capture, pl_cap_method, pl_cap_monitor, pl_cap_cursor]
  rw [pl_blank, pl_sec_gpu, pl_gpu_mode, pl_gpu_primary, pl_gpu_secondary]
  rw [pl_blank, pl_sec_of, pl_of_blocksize, pl_of_searchradius,
    pl_of_scenethreshold]
  rw [pl_blank, pl_sec_pres, pl_pres_vsync, pl_pres_borderless,
    pl_pres_width, pl_pres_height]
  rw [pl_blank, pl_sec_overlay, pl_ov_show, pl_ov_fps, pl_ov_frametime,
    pl_ov_gpuusage, pl_ov_position, pl_ov_scale]
  rw [pl_blank, pl_sec_hotkeys, pl_hk_togglefg, pl_hk_toggleov,
    pl_hk_cyclemode, pl_hk_requirealt]
  rw [pl_blank, pl_sec_advanced, pl_adv_fbc, pl_adv_p2p, pl_adv_debug,
    pl_adv_logfile]
  all_goals first
    | rfl
    | exact hd1 | exact hd2 | exact hd3
    | exact hu1 | exact hu2 | exact hu3 | exact hu4 | exact hu5 | exact hu6
    | exact hu7 | exact hu8 | exact hu9 | exact hu10 | exact hu11
    | exact hu12

set_option maxRecDepth 100000 in
/-- Witness: the default settings satisfy every hypothesis of the
round-trip theorem and round-trip exactly. -/
theorem config_roundTrip_witness :
    exactG6 defaultSettings.sceneChangeThreshold ∧
    loadOfSave defaultSettings = defaultSettings :=
  ⟨exactG6_half,
   config_roundTrip defaultSettings (by decide) exactG6_zero exactG6_half
     exactG6_one
     (by decide) (by decide) (by decide) (by decide) (by decide) (by decide)
     (by decide) (by decide) (by decide) (by decide) (by decide) (by decide)⟩

set_option maxRecDepth 100000 in
/-- A settings value that passes `ValidateSettings` but does not
round-trip: a newline inside the log path splits the written `LogFile`
line in two on reload. -/
theorem config_roundTrip_newline :
    validateSettings
        { defaultSettings with logFilePath := ['a', '\n', 'b'] } = true ∧
    loadOfSave { defaultSettings with logFilePath := ['a', '\n', 'b'] } ≠
      { defaultSettings with logFilePath := ['a', '\n', 'b'] } := by
  constructor
  · with_unfolding_all decide
  · with_unfolding_all decide

end OSFG
